import Mathlib

/-!
# SSD1681 e-paper driver (`src/src/pico_ssd1681.c`): shallow embedding

The driver keeps one process-wide record `g_ssd1681` (configuration, the
`initialized` flag, the 3-wire mode bit, the bus handle and the two 200x25-byte
framebuffer planes) and talks to the hardware through the Pico SDK.  The
embedding passes that record explicitly, together with a record `Hw` for the
hardware side: what the SDK calls did (an event log, oldest first) and what
the hardware answers (busy-pin levels, achieved baud rates, transfer counts).

Machine integers are `Nat` with explicit `% 2^w` where the C code stores into
a `uint8_t`/`uint16_t`; a framebuffer byte is a `Fin 256`.
-/

namespace Ssd1681

/-! ## Constants of `pico_ssd1681.c` / `pico_ssd1681.h` -/

def DISPLAY_WIDTH : Nat := 200
def DISPLAY_HEIGHT : Nat := 200
def BYTES_PER_ROW : Nat := DISPLAY_WIDTH / 8

def CMD_DRIVER_OUTPUT_CONTROL : Nat := 0x01
def CMD_BOOSTER_SOFT_START : Nat := 0x0C
def CMD_DEEP_SLEEP_MODE : Nat := 0x10
def CMD_DATA_ENTRY_MODE : Nat := 0x11
def CMD_SW_RESET : Nat := 0x12
def CMD_MASTER_ACTIVATION : Nat := 0x20
def CMD_DISPLAY_UPDATE_CONTROL : Nat := 0x21
def CMD_DISPLAY_UPDATE_CONTROL_2 : Nat := 0x22
def CMD_WRITE_RAM_BW : Nat := 0x24
def CMD_WRITE_RAM_RED : Nat := 0x26
def CMD_SET_RAM_X_ADDRESS_COUNTER : Nat := 0x4E
def CMD_SET_RAM_Y_ADDRESS_COUNTER : Nat := 0x4F
def CMD_SET_RAM_X_START_END : Nat := 0x44
def CMD_SET_RAM_Y_START_END : Nat := 0x45

/-- The enum `ssd1681_spi_mode_t`. -/
def SSD1681_SPI_4WIRE : Nat := 0
def SSD1681_SPI_3WIRE : Nat := 1

/-- The enum `ssd1681_color_t`; the code tests `color == SSD1681_COLOR_BLACK`
and takes every other value as the red plane. -/
def SSD1681_COLOR_BLACK : Nat := 0
def SSD1681_COLOR_RED : Nat := 1

/-- The enum `ssd1681_update_type_t`. -/
def SSD1681_UPDATE_FAST_PARTIAL : Nat := 0
def SSD1681_UPDATE_CLEAN_FULL : Nat := 1
def SSD1681_UPDATE_FAST_FULL : Nat := 2
def SSD1681_UPDATE_CLEAN_FULL_AGGRESSIVE : Nat := 3

/-- Modelled from the spec: `FONT_BASIC_SIZE` comes from `pico_ssd1681_font.h`,
which is not among the sources; the spec gives the glyphs an 8x8 source
resolution. -/
def FONT_BASIC_SIZE : Nat := 8

/-! ## Data model -/

/-- A `uint8_t` held in memory. -/
abbrev Byte := Fin 256

/-- Conversion to `uint8_t`: keep the low eight bits. -/
def toByte (n : Nat) : Byte := ⟨n % 256, Nat.mod_lt n (by decide)⟩

/-- The C `int` value `~n` for `0 ≤ n < 2^31`, as its 32-bit two's-complement pattern. -/
def bitnot32 (n : Nat) : Nat := 2 ^ 32 - 1 - n

/-- The struct `ssd1681_config_t`. -/
structure Config where
  spi_mode : Nat
  spi_port : Nat
  pin_mosi : Nat
  pin_sck : Nat
  pin_cs : Nat
  pin_dc : Nat
  pin_rst : Nat
  pin_busy : Nat
  spi_baudrate : Nat
deriving DecidableEq, Repr

/-- The value of an `spi_inst_t *`: null, or one of the two SDK instances. -/
inductive SpiInst where
  | null
  | spi0
  | spi1
deriving DecidableEq, Repr

/-- The static record `g_ssd1681`.  A plane `uint8_t gram[200][25]` is read
through its flat byte offset, as the code does with `&gram[0][0]`. -/
structure Driver where
  config : Config
  initialized : Bool
  dc_state : Nat
  spi : SpiInst
  black_gram : Nat → Byte
  red_gram : Nat → Byte

/-- One call into the Pico SDK that touches the hardware, with its arguments
(and, for a read, the level it returned). -/
inductive Event where
  | gpio_put (pin : Nat) (value : Nat)
  | gpio_get (pin : Nat) (level : Bool)
  | gpio_init (pin : Nat)
  | gpio_deinit (pin : Nat)
  | gpio_set_dir (pin : Nat) (out : Bool)
  | gpio_set_function_spi (pin : Nat)
  | gpio_pull_down (pin : Nat)
  | spi_init (spi : SpiInst) (baud : Nat)
  | spi_deinit (spi : SpiInst)
  | spi_set_baudrate (spi : SpiInst) (baud : Nat)
  | spi_set_format (spi : SpiInst) (bits : Nat)
  | spi_9bit_frames (spi : SpiInst)
  | spi_write_blocking (spi : SpiInst) (byte : Nat)
  | spi_dr (spi : SpiInst) (frame : Nat)
  | sleep_us (n : Nat)
  | sleep_ms (n : Nat)
deriving DecidableEq, Repr

/-- The hardware seen through the SDK.  `busy_level k` is the level the k-th
`gpio_get` returns, `written k` the count the k-th `spi_write_blocking`
returns, `achieved b` the rate the clock divider reaches when `b` is asked
for; `baud` is what `spi_get_baudrate` reports for each instance. -/
structure Hw where
  busy_level : Nat → Bool
  gpio_reads : Nat
  written : Nat → Nat
  spi_writes : Nat
  achieved : Nat → Nat
  baud : SpiInst → Nat
  log : List Event

/-- Driver record and hardware together. -/
structure State where
  g : Driver
  hw : Hw

/-- The plane `color` selects: `(color == SSD1681_COLOR_BLACK) ? black_gram : red_gram`. -/
def gram (color : Nat) (g : Driver) : Nat → Byte :=
  if color = SSD1681_COLOR_BLACK then g.black_gram else g.red_gram

/-- The plane `color` does not select. -/
def other_gram (color : Nat) (g : Driver) : Nat → Byte :=
  if color = SSD1681_COLOR_BLACK then g.red_gram else g.black_gram

/-- Replace the plane `color` selects. -/
def set_gram (color : Nat) (p : Nat → Byte) (g : Driver) : Driver :=
  if color = SSD1681_COLOR_BLACK then { g with black_gram := p } else { g with red_gram := p }

/-! ## Pico SDK calls -/

/-- Append one SDK call to the log. -/
def emit (e : Event) (s : State) : State :=
  { s with hw := { s.hw with log := s.hw.log ++ [e] } }

/-- The SDK call `gpio_put(pin, value)`. -/
def gpio_put (pin value : Nat) (s : State) : State := emit (.gpio_put pin value) s

/-- The SDK call `gpio_get(pin)`: the level comes from the hardware. -/
def gpio_get (pin : Nat) (s : State) : Bool × State :=
  let level := s.hw.busy_level s.hw.gpio_reads
  (level, { s with hw := { s.hw with gpio_reads := s.hw.gpio_reads + 1,
                                     log := s.hw.log ++ [.gpio_get pin level] } })

/-- The SDK call `sleep_us(n)`. -/
def sleep_us (n : Nat) (s : State) : State := emit (.sleep_us n) s

/-- The SDK call `sleep_ms(n)`. -/
def sleep_ms (n : Nat) (s : State) : State := emit (.sleep_ms n) s

/-- The SDK call `spi_get_baudrate(spi)`. -/
def spi_get_baudrate (spi : SpiInst) (s : State) : Nat := s.hw.baud spi

/-- The SDK call `spi_set_baudrate`: the instance runs at the achieved rate afterwards. -/
def spi_set_baudrate (spi : SpiInst) (baudrate : Nat) (s : State) : State :=
  { s with hw := { s.hw with baud := Function.update s.hw.baud spi (s.hw.achieved baudrate),
                             log := s.hw.log ++ [.spi_set_baudrate spi baudrate] } }

/-- The SDK call `spi_init`: returns the achieved rate. -/
def spi_init (spi : SpiInst) (baudrate : Nat) (s : State) : Nat × State :=
  (s.hw.achieved baudrate,
   { s with hw := { s.hw with baud := Function.update s.hw.baud spi (s.hw.achieved baudrate),
                              log := s.hw.log ++ [.spi_init spi baudrate] } })

/-- The SDK call `spi_write_blocking(spi, &data, 1)`: returns the count the hardware reports. -/
def spi_write_blocking (spi : SpiInst) (data : Nat) (s : State) : Nat × State :=
  (s.hw.written s.hw.spi_writes,
   { s with hw := { s.hw with spi_writes := s.hw.spi_writes + 1,
                              log := s.hw.log ++ [.spi_write_blocking spi data] } })

/-! ## Transport -/

/-- Model of `ssd1681_spi_write_byte(uint8_t data)`.  The two FIFO polling
loops of the 3-wire branch wait on the SPI block and are taken to finish. -/
def ssd1681_spi_write_byte (data : Nat) (s : State) : State :=
  if s.g.config.spi_mode = SSD1681_SPI_3WIRE then
    let frame := ((s.g.dc_state <<< 8) ||| (data % 256)) % 65536
    emit (.spi_dr s.g.spi frame) s
  else
    (spi_write_blocking s.g.spi (data % 256) s).2

/-- Model of `ssd1681_set_spi_mode_and_clk(config)`.  The three register
accesses of the 3-wire branch (disable, `cr0` with `DSS = 8`, enable) are one event. -/
def ssd1681_set_spi_mode_and_clk (config : Config) (s : State) : State :=
  let s1 := if spi_get_baudrate s.g.spi s ≠ config.spi_baudrate
            then spi_set_baudrate s.g.spi config.spi_baudrate s else s
  if config.spi_mode = SSD1681_SPI_3WIRE then emit (.spi_9bit_frames s1.g.spi) s1
  else emit (.spi_set_format s1.g.spi 8) s1

/-- The mode selection shared by the three transport calls: `dc_state = dc`
in 3-wire mode, `gpio_put(pin_dc, dc)` otherwise. -/
def set_dc (dc : Nat) (s : State) : State :=
  if s.g.config.spi_mode = SSD1681_SPI_3WIRE then { s with g := { s.g with dc_state := dc } }
  else gpio_put s.g.config.pin_dc dc s

/-- Model of `ssd1681_write_cmd(uint8_t cmd)`. -/
def ssd1681_write_cmd (cmd : Nat) (s : State) : State :=
  let s1 := ssd1681_set_spi_mode_and_clk s.g.config s
  let s2 := set_dc 0 s1
  let s3 := gpio_put s2.g.config.pin_cs 0 s2
  let s4 := ssd1681_spi_write_byte cmd s3
  gpio_put s4.g.config.pin_cs 1 s4

/-- Model of `ssd1681_write_data(uint8_t data)`. -/
def ssd1681_write_data (data : Nat) (s : State) : State :=
  let s1 := ssd1681_set_spi_mode_and_clk s.g.config s
  let s2 := set_dc 1 s1
  let s3 := gpio_put s2.g.config.pin_cs 0 s2
  let s4 := ssd1681_spi_write_byte data s3
  gpio_put s4.g.config.pin_cs 1 s4

/-- The loop `for (i = 0; i < len; i++) ssd1681_spi_write_byte(data[i])`,
with `n` iterations left and `i` the current index. -/
def write_data_buf_loop (data : Nat → Byte) : Nat → Nat → State → State
  | 0, _, s => s
  | n + 1, i, s => write_data_buf_loop data n (i + 1) (ssd1681_spi_write_byte (data i).val s)

/-- Model of `ssd1681_write_data_buf(const uint8_t *data, uint16_t len)`. -/
def ssd1681_write_data_buf (data : Nat → Byte) (len : Nat) (s : State) : State :=
  let s1 := ssd1681_set_spi_mode_and_clk s.g.config s
  let s2 := set_dc 1 s1
  let s3 := gpio_put s2.g.config.pin_cs 0 s2
  let s4 := write_data_buf_loop data (len % 65536) 0 s3
  gpio_put s4.g.config.pin_cs 1 s4

/-- Model of `ssd1681_reset`. -/
def ssd1681_reset (s : State) : State :=
  s |> gpio_put s.g.config.pin_rst 1 |> sleep_ms 10
    |> gpio_put s.g.config.pin_rst 0 |> sleep_ms 10
    |> gpio_put s.g.config.pin_rst 1 |> sleep_ms 10

/-- The `while` loop of `ssd1681_wait_busy`, entered with `timeout` still
positive; the argument is the value of `timeout` at the loop test. -/
def wait_busy_loop : Nat → State → State
  | 0, s => s
  | timeout + 1, s =>
    let r := gpio_get s.g.config.pin_busy s
    if r.1 then
      let s1 := sleep_us 10 r.2
      if timeout = 0 then s1 else wait_busy_loop timeout s1
    else r.2

/-- Model of `ssd1681_wait_busy`. -/
def ssd1681_wait_busy (s : State) : State :=
  sleep_us 100 (wait_busy_loop 1000000 s)

/-- Model of `ssd1681_set_window(uint8_t x_start, y_start, x_end, y_end)`. -/
def ssd1681_set_window (x_start y_start x_end y_end : Nat) (s : State) : State :=
  s |> ssd1681_write_cmd CMD_SET_RAM_X_START_END
    |> ssd1681_write_data ((x_start % 256) / 8)
    |> ssd1681_write_data ((x_end % 256) / 8)
    |> ssd1681_write_cmd CMD_SET_RAM_Y_START_END
    |> ssd1681_write_data ((y_start % 256) &&& 0xFF)
    |> ssd1681_write_data (((y_start % 256) >>> 8) &&& 0xFF)
    |> ssd1681_write_data ((y_end % 256) &&& 0xFF)
    |> ssd1681_write_data (((y_end % 256) >>> 8) &&& 0xFF)

/-- Model of `ssd1681_set_cursor(uint8_t x, uint8_t y)`. -/
def ssd1681_set_cursor (x y : Nat) (s : State) : State :=
  s |> ssd1681_write_cmd CMD_SET_RAM_X_ADDRESS_COUNTER
    |> ssd1681_write_data ((x % 256) / 8)
    |> ssd1681_write_cmd CMD_SET_RAM_Y_ADDRESS_COUNTER
    |> ssd1681_write_data ((y % 256) &&& 0xFF)
    |> ssd1681_write_data (((y % 256) >>> 8) &&& 0xFF)

/-- Model of `ssd1681_get_default_config_4wire`. -/
def ssd1681_get_default_config_4wire : Config :=
  { spi_mode := SSD1681_SPI_4WIRE, spi_port := 0, pin_mosi := 19, pin_sck := 18, pin_cs := 17,
    pin_dc := 20, pin_rst := 21, pin_busy := 22, spi_baudrate := 4000000 }

/-- Model of `ssd1681_get_default_config_3wire`. -/
def ssd1681_get_default_config_3wire : Config :=
  { spi_mode := SSD1681_SPI_3WIRE, spi_port := 0, pin_mosi := 19, pin_sck := 18, pin_cs := 17,
    pin_dc := 0, pin_rst := 21, pin_busy := 22, spi_baudrate := 4000000 }

/-- Content of a plane after `memset(plane, 0xFF, sizeof plane)`. -/
def all_ff : Nat → Byte := fun _ => 0xFF

/-! ## Public operations -/

/-- The command sequence of `ssd1681_init` from the reset pulse to the last `wait_busy`. -/
def init_sequence (s : State) : State :=
  s |> ssd1681_reset |> sleep_ms 10 |> ssd1681_wait_busy
    |> ssd1681_write_cmd CMD_SW_RESET |> sleep_ms 10 |> ssd1681_wait_busy
    |> ssd1681_write_cmd CMD_DRIVER_OUTPUT_CONTROL
    |> ssd1681_write_data 0xC7 |> ssd1681_write_data 0x00 |> ssd1681_write_data 0x02
    |> ssd1681_write_cmd CMD_DATA_ENTRY_MODE |> ssd1681_write_data 0x01
    |> ssd1681_set_window 0 0 (DISPLAY_WIDTH - 1) (DISPLAY_HEIGHT - 1)
    |> ssd1681_write_cmd 0x3C |> ssd1681_write_data 0x05
    |> ssd1681_write_cmd 0x18 |> ssd1681_write_data 0x80
    |> ssd1681_wait_busy

/-- The pin set-up of `ssd1681_init`. -/
def init_pins (config : Config) (s : State) : State :=
  let s1 := s |> emit (.gpio_set_function_spi config.pin_mosi)
              |> emit (.gpio_set_function_spi config.pin_sck)
              |> emit (.gpio_init config.pin_cs) |> emit (.gpio_set_dir config.pin_cs true)
              |> gpio_put config.pin_cs 1
  let s2 := if config.spi_mode = SSD1681_SPI_4WIRE then
              s1 |> emit (.gpio_init config.pin_dc) |> emit (.gpio_set_dir config.pin_dc true)
                 |> gpio_put config.pin_dc 0
            else s1
  s2 |> emit (.gpio_init config.pin_rst) |> emit (.gpio_set_dir config.pin_rst true)
     |> gpio_put config.pin_rst 1
     |> emit (.gpio_init config.pin_busy) |> emit (.gpio_set_dir config.pin_busy false)
     |> emit (.gpio_pull_down config.pin_busy)

/-- Model of `int ssd1681_init(const ssd1681_config_t *config)`; `none` is the
null pointer.  The `printf` goes to stdio and is not part of the log. -/
def ssd1681_init (config : Option Config) (s : State) : Int × State :=
  match config with
  | none => (-1, s)
  | some config =>
    if s.g.initialized then (-2, s)
    else
      let s1 : State := { s with g := { s.g with config := config, dc_state := 0,
                                                  spi := if config.spi_port = 0 then .spi0 else .spi1 } }
      let r := spi_init s1.g.spi config.spi_baudrate s1
      if r.1 = 0 then (-3, r.2)
      else
        let s2 := ssd1681_set_spi_mode_and_clk r.2.g.config r.2
        let s3 := init_sequence (init_pins config s2)
        (0, { s3 with g := { s3.g with black_gram := all_ff, red_gram := all_ff,
                                       initialized := true } })

/-- Model of `void ssd1681_deinit(void)`. -/
def ssd1681_deinit (s : State) : State :=
  if !s.g.initialized then s
  else
    let s1 := s |> ssd1681_write_cmd CMD_DEEP_SLEEP_MODE |> ssd1681_write_data 0x01
    let s2 := s1 |> emit (.spi_deinit s1.g.spi) |> emit (.gpio_deinit s1.g.config.pin_cs)
    let s3 := if s2.g.config.spi_mode = SSD1681_SPI_4WIRE
              then emit (.gpio_deinit s2.g.config.pin_dc) s2 else s2
    let s4 := s3 |> emit (.gpio_deinit s3.g.config.pin_rst)
                 |> emit (.gpio_deinit s3.g.config.pin_busy)
    { s4 with g := { s4.g with initialized := false } }

/-- Model of `int ssd1681_clear(color)`: `memset(gram, 0xFF, DISPLAY_HEIGHT * BYTES_PER_ROW)`. -/
def ssd1681_clear (color : Nat) (s : State) : Int × State :=
  if !s.g.initialized then (-1, s)
  else
    let p := gram color s.g
    let q : Nat → Byte := fun i => if i < DISPLAY_HEIGHT * BYTES_PER_ROW then 0xFF else p i
    (0, { s with g := set_gram color q s.g })

/-- Model of `int ssd1681_write_buffer(color)`. -/
def ssd1681_write_buffer (color : Nat) (s : State) : Int × State :=
  if !s.g.initialized then (-1, s)
  else
    let p := gram color s.g
    (0, s |> ssd1681_wait_busy
          |> ssd1681_set_window 0 0 (DISPLAY_WIDTH - 1) (DISPLAY_HEIGHT - 1)
          |> ssd1681_set_cursor 0 0
          |> ssd1681_write_cmd (if color = SSD1681_COLOR_BLACK then CMD_WRITE_RAM_BW
                                else CMD_WRITE_RAM_RED)
          |> ssd1681_write_data_buf p (DISPLAY_HEIGHT * BYTES_PER_ROW))

/-- Model of `int ssd1681_set_soft_start(strength, time, min_off)`. -/
def ssd1681_set_soft_start (strength time min_off : Nat) (s : State) : Int × State :=
  if !s.g.initialized then (-1, s)
  else
    (0, s |> ssd1681_write_cmd CMD_BOOSTER_SOFT_START
          |> Nat.iterate (ssd1681_write_data ((strength <<< 4) ||| min_off)) 3
          |> ssd1681_write_data time)

/-- Model of `int ssd1681_write_buffer_and_update_if_ready(uint8_t update_type)`. -/
def ssd1681_write_buffer_and_update_if_ready (update_type : Nat) (s : State) : Int × State :=
  if !s.g.initialized then (-1, s)
  else
    let r := gpio_get s.g.config.pin_busy s
    if r.1 then (-1, r.2)
    else if update_type = SSD1681_UPDATE_CLEAN_FULL then
      (0, (ssd1681_write_buffer SSD1681_COLOR_BLACK r.2).2
          |> ssd1681_write_cmd CMD_DISPLAY_UPDATE_CONTROL
          |> ssd1681_write_data 0x00 |> ssd1681_write_data 0x80
          |> ssd1681_write_cmd CMD_DISPLAY_UPDATE_CONTROL_2
          |> ssd1681_write_data 0xF6
          |> ssd1681_write_cmd CMD_MASTER_ACTIVATION)
    else if update_type = SSD1681_UPDATE_FAST_PARTIAL then
      (0, (ssd1681_write_buffer SSD1681_COLOR_BLACK r.2).2
          |> ssd1681_write_cmd CMD_DISPLAY_UPDATE_CONTROL
          |> ssd1681_write_data 0x00 |> ssd1681_write_data 0x80
          |> ssd1681_write_cmd CMD_DISPLAY_UPDATE_CONTROL_2
          |> ssd1681_write_data 0xFE
          |> ssd1681_write_cmd CMD_MASTER_ACTIVATION)
    else if update_type = SSD1681_UPDATE_FAST_FULL then
      let s1 := r.2
          |> ssd1681_write_cmd CMD_WRITE_RAM_BW
          |> Nat.iterate (ssd1681_write_data 0xFF) (DISPLAY_HEIGHT * BYTES_PER_ROW)
          |> ssd1681_write_cmd CMD_DISPLAY_UPDATE_CONTROL
          |> ssd1681_write_data 0x00 |> ssd1681_write_data 0x80
          |> ssd1681_write_cmd CMD_DISPLAY_UPDATE_CONTROL_2
          |> ssd1681_write_data 0xFE
          |> ssd1681_write_cmd CMD_MASTER_ACTIVATION
          |> ssd1681_wait_busy
      (0, (ssd1681_write_buffer SSD1681_COLOR_BLACK s1).2
          |> ssd1681_write_cmd CMD_DISPLAY_UPDATE_CONTROL
          |> ssd1681_write_data 0x00 |> ssd1681_write_data 0x80
          |> ssd1681_write_cmd CMD_DISPLAY_UPDATE_CONTROL_2
          |> ssd1681_write_data 0xFE
          |> ssd1681_write_cmd CMD_MASTER_ACTIVATION)
    else if update_type = SSD1681_UPDATE_CLEAN_FULL_AGGRESSIVE then
      (0, (ssd1681_write_buffer SSD1681_COLOR_BLACK r.2).2
          |> ssd1681_write_cmd CMD_DISPLAY_UPDATE_CONTROL
          |> ssd1681_write_data 0x00 |> ssd1681_write_data 0x80
          |> ssd1681_write_cmd CMD_DISPLAY_UPDATE_CONTROL_2
          |> ssd1681_write_data 0xF6
          |> ssd1681_write_cmd CMD_MASTER_ACTIVATION
          |> ssd1681_wait_busy
          |> ssd1681_write_cmd CMD_DISPLAY_UPDATE_CONTROL
          |> ssd1681_write_data 0x00 |> ssd1681_write_data 0x80
          |> ssd1681_write_cmd CMD_DISPLAY_UPDATE_CONTROL_2
          |> ssd1681_write_data 0xF6
          |> ssd1681_write_cmd CMD_MASTER_ACTIVATION)
    else (-2, r.2)

/-- Model of `int ssd1681_update(uint8_t update_type)`. -/
def ssd1681_update (update_type : Nat) (s : State) : Int × State :=
  if !s.g.initialized then (-1, s)
  else
    let s1 := ssd1681_wait_busy s
    if update_type = SSD1681_UPDATE_CLEAN_FULL then
      (0, s1 |> ssd1681_write_cmd CMD_DISPLAY_UPDATE_CONTROL
             |> ssd1681_write_data 0x00 |> ssd1681_write_data 0x80
             |> ssd1681_write_cmd CMD_DISPLAY_UPDATE_CONTROL_2
             |> ssd1681_write_data 0xF6
             |> ssd1681_write_cmd CMD_MASTER_ACTIVATION)
    else if update_type = SSD1681_UPDATE_FAST_PARTIAL then
      (0, s1 |> ssd1681_write_cmd CMD_DISPLAY_UPDATE_CONTROL
             |> ssd1681_write_data 0x00 |> ssd1681_write_data 0x80
             |> ssd1681_write_cmd CMD_DISPLAY_UPDATE_CONTROL_2
             |> ssd1681_write_data 0xFE
             |> ssd1681_write_cmd CMD_MASTER_ACTIVATION)
    else if update_type = SSD1681_UPDATE_FAST_FULL then (-3, s1)
    else if update_type = SSD1681_UPDATE_CLEAN_FULL_AGGRESSIVE then
      (0, s1 |> ssd1681_write_cmd CMD_DISPLAY_UPDATE_CONTROL
             |> ssd1681_write_data 0x00 |> ssd1681_write_data 0x80
             |> ssd1681_write_cmd CMD_DISPLAY_UPDATE_CONTROL_2
             |> ssd1681_write_data 0xF6
             |> ssd1681_write_cmd CMD_MASTER_ACTIVATION
             |> ssd1681_wait_busy
             |> ssd1681_write_cmd CMD_DISPLAY_UPDATE_CONTROL
             |> ssd1681_write_data 0x00 |> ssd1681_write_data 0x80
             |> ssd1681_write_cmd CMD_DISPLAY_UPDATE_CONTROL_2
             |> ssd1681_write_data 0xF6
             |> ssd1681_write_cmd CMD_MASTER_ACTIVATION)
    else (-2, s1)

/-! ## Framebuffer primitives -/

/-- `uint16_t byte_index` of `ssd1681_write_point`. -/
def write_byte_index (x y : Nat) : Nat :=
  ((DISPLAY_HEIGHT - 1 - y) * BYTES_PER_ROW + x / 8) % 65536

/-- `uint16_t byte_index` of `ssd1681_read_point`. -/
def read_byte_index (x y : Nat) : Nat :=
  (y * BYTES_PER_ROW + x / 8) % 65536

/-- `uint8_t bit_index = 7 - (x % 8)` of both functions. -/
def bit_index (x : Nat) : Nat := (7 - x % 8) % 256

/-- The byte stored by `ssd1681_write_point`: `b &= ~(1 << bit)` when `data`
is non-zero, `b |= (1 << bit)` otherwise. -/
def point_byte (data bit : Nat) (b : Byte) : Byte :=
  if data ≠ 0 then toByte (b.val &&& bitnot32 (1 <<< bit))
  else toByte (b.val ||| (1 <<< bit))

/-- Model of `int ssd1681_write_point(color, x, y, data)`. -/
def ssd1681_write_point (color x y data : Nat) (s : State) : Int × State :=
  if !s.g.initialized then (-1, s)
  else if x ≥ DISPLAY_WIDTH ∨ y ≥ DISPLAY_HEIGHT then (-2, s)
  else
    let p := gram color s.g
    let byte_index := write_byte_index x y
    let v := point_byte data (bit_index x) (p byte_index)
    (0, { s with g := set_gram color (Function.update p byte_index v) s.g })

/-- Model of `int ssd1681_read_point(color, x, y, uint8_t *data)`.  `data` says
whether the pointer is non-null; the middle component is the value stored
through it, if any. -/
def ssd1681_read_point (color x y : Nat) (data : Bool) (s : State) : Int × Option Nat × State :=
  if !s.g.initialized then (-1, none, s)
  else if x ≥ DISPLAY_WIDTH ∨ y ≥ DISPLAY_HEIGHT then (-2, none, s)
  else if !data then (-3, none, s)
  else
    let p := gram color s.g
    let byte_index := read_byte_index x y
    let v := if (p byte_index).val &&& (1 <<< bit_index x) ≠ 0 then 0 else 1
    (0, some v, s)

/-- The inner loop `for (x = left; x <= right; x++)` of `ssd1681_fill_rect`,
at counter value `x`.  The loop is entered only with `right < 200`, so the
`uint8_t` counter never wraps. -/
def fill_rect_cols (color y right data : Nat) (x : Nat) (s : State) : State :=
  if x ≤ right then
    fill_rect_cols color y right data (x + 1) (ssd1681_write_point color x y data s).2
  else s
termination_by right + 1 - x

/-- The outer loop `for (y = top; y <= bottom; y++)` of `ssd1681_fill_rect`,
at counter value `y` (entered only with `bottom < 200`). -/
def fill_rect_rows (color left right bottom data : Nat) (y : Nat) (s : State) : State :=
  if y ≤ bottom then
    fill_rect_rows color left right bottom data (y + 1) (fill_rect_cols color y right data left s)
  else s
termination_by bottom + 1 - y

/-- Model of `int ssd1681_fill_rect(color, left, top, right, bottom, data)`. -/
def ssd1681_fill_rect (color left top right bottom data : Nat) (s : State) : Int × State :=
  if !s.g.initialized then (-1, s)
  else if left ≥ DISPLAY_WIDTH ∨ top ≥ DISPLAY_HEIGHT then (-2, s)
  else if right ≥ DISPLAY_WIDTH ∨ bottom ≥ DISPLAY_HEIGHT then (-3, s)
  else if left > right ∨ top > bottom then (-4, s)
  else (0, fill_rect_rows color left right bottom data top s)

/-- The value `pixel` computed by `ssd1681_draw_picture` for image offsets `(x, y)`. -/
def picture_pixel (img : Nat → Byte) (bytes_per_line x y : Nat) : Nat :=
  let img_byte := (y * bytes_per_line + x / 8) % 65536
  let img_bit := (7 - x % 8) % 256
  if (img img_byte).val &&& (1 <<< img_bit) ≠ 0 then 1 else 0

/-- The inner loop `for (x = 0; x < width; x++)` of `ssd1681_draw_picture`. -/
def draw_picture_cols (color left top : Nat) (img : Nat → Byte) (width bytes_per_line y : Nat)
    (x : Nat) (s : State) : State :=
  if x < width then
    draw_picture_cols color left top img width bytes_per_line y (x + 1)
      (ssd1681_write_point color ((left + x) % 256) ((top + y) % 256)
        (picture_pixel img bytes_per_line x y) s).2
  else s
termination_by width - x

/-- The outer loop `for (y = 0; y < height; y++)` of `ssd1681_draw_picture`. -/
def draw_picture_rows (color left top : Nat) (img : Nat → Byte) (width height bytes_per_line : Nat)
    (y : Nat) (s : State) : State :=
  if y < height then
    draw_picture_rows color left top img width height bytes_per_line (y + 1)
      (draw_picture_cols color left top img width bytes_per_line y 0 s)
  else s
termination_by height - y

/-- Model of `int ssd1681_draw_picture(color, left, top, right, bottom, const uint8_t *img)`;
`none` is the null pointer. -/
def ssd1681_draw_picture (color left top right bottom : Nat) (img : Option (Nat → Byte))
    (s : State) : Int × State :=
  if !s.g.initialized then (-1, s)
  else match img with
  | none => (-2, s)
  | some img =>
    if left ≥ DISPLAY_WIDTH ∨ top ≥ DISPLAY_HEIGHT then (-3, s)
    else if right ≥ DISPLAY_WIDTH ∨ bottom ≥ DISPLAY_HEIGHT then (-4, s)
    else if left > right ∨ top > bottom then (-5, s)
    else
      let width := (right - left + 1) % 65536
      let height := (bottom - top + 1) % 65536
      let bytes_per_line := ((width + 7) / 8) % 65536
      (0, draw_picture_rows color left top img width height bytes_per_line 0 s)

/-- The loop `for (col = 0; col < font_size; col++)` of `ssd1681_draw_string`;
`char_bitmap` is the glyph `font_basic_8x8[c]`. -/
def draw_string_cols (color x y font_size : Nat) (char_bitmap : Nat → Byte) (row : Nat)
    (col : Nat) (s : State) : State :=
  if col < font_size then
    draw_string_cols color x y font_size char_bitmap row (col + 1)
      (ssd1681_write_point color ((x + col) % 256) ((y + row) % 256)
        (((char_bitmap ((row * FONT_BASIC_SIZE) / font_size)).val
            &&& (1 <<< (col * FONT_BASIC_SIZE / font_size))) % 256) s).2
  else s
termination_by font_size - col

/-- The loop `for (row = 0; row < font_size; row++)` of `ssd1681_draw_string`. -/
def draw_string_rows (color x y font_size : Nat) (char_bitmap : Nat → Byte)
    (row : Nat) (s : State) : State :=
  if row < font_size then
    draw_string_rows color x y font_size char_bitmap (row + 1)
      (draw_string_cols color x y font_size char_bitmap row 0 s)
  else s
termination_by font_size - row

/-- The character loop of `ssd1681_draw_string` at index `i` with cursor `(x, y)`.
`font` is the table `font_basic_8x8` of `pico_ssd1681_font.h` (not among the
sources); `char` is unsigned on the targets of the Pico SDK, so `c > 127`
tests the codes 128..255. -/
def draw_string_loop (font : Nat → Nat → Byte) (color font_size : Nat) (str : Nat → Byte)
    (len : Nat) (i x y : Nat) (s : State) : State :=
  if i < len then
    let c := (str i).val
    if c > 127 then draw_string_loop font color font_size str len (i + 1) x y s
    else
      let s1 := draw_string_rows color x y font_size (font c) 0 s
      let x1 := (x + font_size) % 256
      if x1 + font_size > DISPLAY_WIDTH then
        let y1 := (y + font_size) % 256
        if y1 + font_size > DISPLAY_HEIGHT then s1
        else draw_string_loop font color font_size str len (i + 1) 0 y1 s1
      else draw_string_loop font color font_size str len (i + 1) x1 y s1
  else s
termination_by len - i

/-- Model of `int ssd1681_draw_string(color, x, y, str, len, data, font_size)`;
`none` is the null pointer.  The body never reads `data`. -/
def ssd1681_draw_string (font : Nat → Nat → Byte) (color x y : Nat) (str : Option (Nat → Byte))
    (len data font_size : Nat) (s : State) : Int × State :=
  if !s.g.initialized then (-1, s)
  else match str with
  | none => (-2, s)
  | some str => (0, draw_string_loop font color font_size str len 0 x y s)

/-! ## Notions used to state the properties -/

/-- A state with the plane `color` selects replaced. -/
def with_plane (color : Nat) (p : Nat → Byte) (s : State) : State :=
  { s with g := set_gram color p s.g }

/-- What one successful `ssd1681_write_point(_, x, y, data)` does to the plane it selects. -/
def plane_write (x y data : Nat) (p : Nat → Byte) : Nat → Byte :=
  Function.update p (write_byte_index x y)
    (point_byte data (bit_index x) (p (write_byte_index x y)))

/-- A sequence of pixel writes `(x, y, data)`, applied to a plane from left to right. -/
def plane_all (ws : List (Nat × Nat × Nat)) (p : Nat → Byte) : Nat → Byte :=
  ws.foldl (fun q w => plane_write w.1 w.2.1 w.2.2 q) p

/-- The calls `ssd1681_write_point(color, x, y, data)` for the entries
`(x, y, data)` of a list, from left to right, return values dropped. -/
def write_all (color : Nat) (ws : List (Nat × Nat × Nat)) (s : State) : State :=
  ws.foldl (fun t w => (ssd1681_write_point color w.1 w.2.1 w.2.2 t).2) s

/-- All entries of a write list have coordinates on the display. -/
def on_display (ws : List (Nat × Nat × Nat)) : Prop :=
  ∀ w ∈ ws, w.1 < 200 ∧ w.2.1 < 200

/-- The pixels of the rectangle `[left, right] x [top, bottom]`, row by row,
each paired with the value `data`. -/
def rect_writes (left top right bottom data : Nat) : List (Nat × Nat × Nat) :=
  (List.range' top (bottom + 1 - top)).flatMap fun y =>
    (List.range' left (right + 1 - left)).map fun x => (x, y, data)

/-- The writes `ssd1681_draw_picture` issues for a `width x height` image at
`(left, top)`, row by row. -/
def picture_writes (left top : Nat) (img : Nat → Byte) (width height bytes_per_line : Nat) :
    List (Nat × Nat × Nat) :=
  (List.range' 0 height).flatMap fun y =>
    (List.range' 0 width).map fun x =>
      ((left + x) % 256, (top + y) % 256, picture_pixel img bytes_per_line x y)

/-- Pixel `(x, y)` lies in the rectangle `[left, right] x [top, bottom]`. -/
def in_rect (left top right bottom x y : Nat) : Prop :=
  left ≤ x ∧ x ≤ right ∧ top ≤ y ∧ y ≤ bottom

/-! ## Sample states -/

/-- The driver record right after a successful `ssd1681_init` with the 4-wire defaults. -/
def g_ready : Driver :=
  { config := ssd1681_get_default_config_4wire, initialized := true, dc_state := 0, spi := .spi0,
    black_gram := all_ff, red_gram := all_ff }

/-- The driver record at program start: `g_ssd1681 = {0}`. -/
def g_zero : Driver :=
  { config := ⟨0, 0, 0, 0, 0, 0, 0, 0, 0⟩, initialized := false, dc_state := 0, spi := .null,
    black_gram := fun _ => 0, red_gram := fun _ => 0 }

/-- A panel that is never busy on a bus that reaches every requested rate and
transfers every byte. -/
def hw_idle : Hw :=
  { busy_level := fun _ => false, gpio_reads := 0, written := fun _ => 1, spi_writes := 0,
    achieved := fun b => b, baud := fun _ => 0, log := [] }

/-- An initialised driver, both planes off, on an idle panel with an empty event log. -/
def st_ready : State := { g := g_ready, hw := hw_idle }

/-- The program before any driver call. -/
def st_zero : State := { g := g_zero, hw := hw_idle }

/-! ## Reading the event log -/

/-- What the panel receives: a command byte, a data byte, or the end of a
wait-for-ready (the `sleep_us(100)` that closes `ssd1681_wait_busy` and that no
other code path issues). -/
inductive Xfer where
  | cmd (b : Nat)
  | data (b : Nat)
  | wait
deriving DecidableEq, Repr

/-- The transfers a list of SDK calls amounts to, given the D/C pin and its
current level `dc`.  An 8-bit bus write is a command when the D/C pin is low
and data otherwise; a 9-bit frame carries its mode in bit 8. -/
def decode (pin_dc : Nat) : Nat → List Event → List Xfer
  | _, [] => []
  | dc, .gpio_put pin value :: es =>
    if pin = pin_dc then decode pin_dc value es else decode pin_dc dc es
  | dc, .spi_write_blocking _ b :: es =>
    (if dc = 0 then Xfer.cmd b else Xfer.data b) :: decode pin_dc dc es
  | dc, .spi_dr _ frame :: es =>
    (if frame / 256 % 2 = 0 then Xfer.cmd (frame % 256) else Xfer.data (frame % 256))
      :: decode pin_dc dc es
  | dc, .sleep_us n :: es =>
    if n = 100 then Xfer.wait :: decode pin_dc dc es else decode pin_dc dc es
  | dc, _ :: es => decode pin_dc dc es

/-- The command and data bytes of a transfer list, waits dropped. -/
def bytes_of (xs : List Xfer) : List Xfer := xs.filter fun x => x ≠ Xfer.wait

/-- The SDK calls logged between state `s` and a later state `t`. -/
def emitted (s t : State) : List Event := t.hw.log.drop s.hw.log.length

/-- The event puts a byte or frame on the bus. -/
def is_bus_write : Event → Bool
  | .spi_write_blocking _ _ => true
  | .spi_dr _ _ => true
  | _ => false

/-- The event drives an output pin. -/
def is_pin_write : Event → Bool
  | .gpio_put _ _ => true
  | _ => false

/-- The wiring lets the D/C level be read off the log: 3-wire mode, or a D/C
pin that is not also the chip-select pin. -/
def wired (config : Config) : Prop :=
  config.spi_mode = SSD1681_SPI_3WIRE ∨ config.pin_dc ≠ config.pin_cs

/-- The 3-wire mode bit after a list of transfers, starting from `d`. -/
def last_dc (xs : List Xfer) (d : Nat) : Nat :=
  xs.foldl (fun d x => match x with
    | .cmd _ => 0
    | .data _ => 1
    | .wait => d) d

/-- The events `evs` decode to the transfers `xs` whatever the D/C level
before them and whatever follows them. -/
def Decodes (pin_dc : Nat) (evs : List Event) (xs : List Xfer) : Prop :=
  ∀ dc, ∃ dc', ∀ rest, decode pin_dc dc (evs ++ rest) = xs ++ decode pin_dc dc' rest

/-- State `t` comes from state `s` by sending the transfers `xs`: the driver
record is the same up to the 3-wire mode bit, and with a readable wiring the
log has grown by events that decode to `xs`. -/
def Sent (s t : State) (xs : List Xfer) : Prop :=
  t.g.config = s.g.config ∧ t.g.initialized = s.g.initialized ∧ t.g.spi = s.g.spi ∧
  t.g.black_gram = s.g.black_gram ∧ t.g.red_gram = s.g.red_gram ∧
  t.g.dc_state = (if s.g.config.spi_mode = SSD1681_SPI_3WIRE then last_dc xs s.g.dc_state
                  else s.g.dc_state) ∧
  (wired s.g.config → ∃ evs, t.hw.log = s.hw.log ++ evs ∧ Decodes s.g.config.pin_dc evs xs)

/-- Events the decoder passes over without a change of the D/C level. -/
def quiet : Event → Bool
  | .gpio_put _ _ => false
  | .spi_write_blocking _ _ => false
  | .spi_dr _ _ => false
  | .sleep_us n => n ≠ 100
  | _ => true

/-- The six transfers that start a refresh with update-control-2 value `b`. -/
def activation_log (b : Nat) : List Xfer :=
  [.cmd 0x21, .data 0x00, .data 0x80, .cmd 0x22, .data b, .cmd 0x20]

/-- The window and cursor transfers of `ssd1681_write_buffer`. -/
def window_cursor_log : List Xfer :=
  [.cmd 0x44, .data 0x00, .data 0x18, .cmd 0x45, .data 0x00, .data 0x00, .data 0xC7, .data 0x00,
   .cmd 0x4E, .data 0x00, .cmd 0x4F, .data 0x00, .data 0x00]

/-- The bytes `p 0 .. p 4999` of a plane as data transfers. -/
def plane_log (p : Nat → Byte) : List Xfer :=
  (List.range 5000).map fun i => Xfer.data (p i).val

/-- The transfers of `ssd1681_write_buffer(color)`, after its wait-for-ready. -/
def write_buffer_log (color : Nat) (g : Driver) : List Xfer :=
  window_cursor_log ++ [.cmd (if color = SSD1681_COLOR_BLACK then 0x24 else 0x26)]
    ++ plane_log (gram color g)

/-- The bus event `ssd1681_spi_write_byte(b)` logs for a driver record `g`. -/
def byte_event (g : Driver) (b : Nat) : Event :=
  if g.config.spi_mode = SSD1681_SPI_3WIRE
  then .spi_dr g.spi (((g.dc_state <<< 8) ||| (b % 256)) % 65536)
  else .spi_write_blocking g.spi (b % 256)

/-- The events `ssd1681_wait_busy` logs before its closing `sleep_us(100)`:
pin reads and the 10 microsecond sleeps. -/
def is_poll : Event → Bool
  | .gpio_get _ _ => true
  | .sleep_us n => n = 10
  | _ => false

/-- A panel whose busy pin always reads busy. -/
def hw_busy : Hw := { hw_idle with busy_level := fun _ => true }

/-- An initialised driver in front of a busy panel. -/
def st_busy : State := { g := g_ready, hw := hw_busy }

/-- An initialised driver in 3-wire mode on an idle panel. -/
def st_ready3 : State :=
  { g := { g_ready with config := ssd1681_get_default_config_3wire }, hw := hw_idle }

/-- The first assignments of `ssd1681_init`: configuration copied, mode bit
cleared, bus instance chosen. -/
def init_begin (config : Config) (s : State) : State :=
  { s with g := { s.g with config := config, dc_state := 0,
                           spi := if config.spi_port = 0 then .spi0 else .spi1 } }

/-- The last assignments of `ssd1681_init`: both planes set to 0xFF and the
`initialized` flag raised. -/
def init_finish (s : State) : State :=
  { s with g := { s.g with black_gram := all_ff, red_gram := all_ff, initialized := true } }

/-- The transfers of a successful `ssd1681_init`, waits included. -/
def init_trace : List Xfer :=
  [.wait, .cmd 0x12, .wait, .cmd 0x01, .data 0xC7, .data 0x00, .data 0x02, .cmd 0x11, .data 0x01,
   .cmd 0x44, .data 0x00, .data 0x18, .cmd 0x45, .data 0x00, .data 0x00, .data 0xC7, .data 0x00,
   .cmd 0x3C, .data 0x05, .cmd 0x18, .data 0x80, .wait]

/-- The end-to-end scenario of the spec: `ssd1681_init` with the 4-wire
defaults, `ssd1681_clear` of both planes, `ssd1681_fill_rect(black, 20, 20,
100, 80, 1)`, `ssd1681_update(clean-full)`.  The result is the list of the five
return values and the final state. -/
def scenario (s : State) : List Int × State :=
  let r1 := ssd1681_init (some ssd1681_get_default_config_4wire) s
  let r2 := ssd1681_clear SSD1681_COLOR_BLACK r1.2
  let r3 := ssd1681_clear SSD1681_COLOR_RED r2.2
  let r4 := ssd1681_fill_rect SSD1681_COLOR_BLACK 20 20 100 80 1 r3.2
  let r5 := ssd1681_update SSD1681_UPDATE_CLEAN_FULL r4.2
  ([r1.1, r2.1, r3.1, r4.1, r5.1], r5.2)

/-- The characters `str[0] .. str[len - 1]` as a list. -/
def chars_of (str : Nat → Byte) (len : Nat) : List Byte := (List.range len).map str

/-- A list of characters as a string buffer (reads past the end give 0). -/
def str_of (cs : List Byte) : Nat → Byte := fun i => cs.getD i 0

/-- The character loop of `ssd1681_draw_string` over a list of characters
with cursor `(x, y)`: the same steps as `draw_string_loop`, by recursion on
the characters still to come. -/
def draw_chars (font : Nat → Nat → Byte) (color font_size : Nat) :
    List Byte → Nat → Nat → State → State
  | [], _, _, s => s
  | ch :: cs, x, y, s =>
    if ch.val > 127 then draw_chars font color font_size cs x y s
    else
      let s1 := draw_string_rows color x y font_size (font ch.val) 0 s
      let x1 := (x + font_size) % 256
      if x1 + font_size > DISPLAY_WIDTH then
        let y1 := (y + font_size) % 256
        if y1 + font_size > DISPLAY_HEIGHT then s1
        else draw_chars font color font_size cs 0 y1 s1
      else draw_chars font color font_size cs x1 y s1

/-- The writes of the two glyph loops of `ssd1681_draw_string` for one
character with bitmap `char_bitmap` at cursor `(x, y)`, row by row. -/
def glyph_writes (x y font_size : Nat) (char_bitmap : Nat → Byte) : List (Nat × Nat × Nat) :=
  (List.range' 0 font_size).flatMap fun row =>
    (List.range' 0 font_size).map fun col =>
      ((x + col) % 256, (y + row) % 256,
        ((char_bitmap ((row * FONT_BASIC_SIZE) / font_size)).val
          &&& (1 <<< (col * FONT_BASIC_SIZE / font_size))) % 256)

/-- A font whose glyphs have every bit set. -/
def font_solid : Nat → Nat → Byte := fun _ _ => 0xFF

/-- The one-character string "A". -/
def str_A : Nat → Byte := fun _ => 65

/-! ## Notions for the wait-for-ready loop -/

/-- The events of `k` busy readings of pin `pin`, each followed by its
`sleep_us(10)`. -/
def busy_polls (pin : Nat) : Nat → List Event
  | 0 => []
  | k + 1 => .gpio_get pin true :: .sleep_us 10 :: busy_polls pin k

/-- The event reads a pin. -/
def is_pin_read : Event → Bool
  | .gpio_get _ _ => true
  | _ => false

/-! ## The events of one transport call -/

/-- The events of `ssd1681_set_spi_mode_and_clk(&g_ssd1681.config)` in state
`s`: the clock is set again only when the bus reports another rate, then the
frame width is programmed (9 bits in 3-wire mode, 8 bits otherwise). -/
def mode_events (s : State) : List Event :=
  (if s.hw.baud s.g.spi ≠ s.g.config.spi_baudrate
    then [Event.spi_set_baudrate s.g.spi s.g.config.spi_baudrate] else [])
  ++ [if s.g.config.spi_mode = SSD1681_SPI_3WIRE then Event.spi_9bit_frames s.g.spi
      else Event.spi_set_format s.g.spi 8]

/-- The bus event for byte `b` sent with mode bit `dc`: in 3-wire mode the
frame `256 * dc + b` written to the data register, otherwise an 8-bit write. -/
def frame_event (g : Driver) (dc b : Nat) : Event :=
  if g.config.spi_mode = SSD1681_SPI_3WIRE then .spi_dr g.spi (256 * dc + b % 256)
  else .spi_write_blocking g.spi (b % 256)

/-- What comes before chip-select goes low in a transport call with mode bit
`dc`: the bus set-up and, with a mode-select pin, its level. -/
def transport_lead (s : State) (dc : Nat) : List Event :=
  mode_events s
  ++ (if s.g.config.spi_mode = SSD1681_SPI_3WIRE then [] else [.gpio_put s.g.config.pin_dc dc])

/-- The events of one transport call that sends `bytes` with mode bit `dc`. -/
def transport_events (s : State) (dc : Nat) (bytes : List Nat) : List Event :=
  transport_lead s dc ++ [.gpio_put s.g.config.pin_cs 0]
  ++ bytes.map (frame_event s.g dc) ++ [.gpio_put s.g.config.pin_cs 1]

/-- The bytes `data[0] .. data[len - 1]` handed to `ssd1681_write_data_buf`,
`len` being a `uint16_t`. -/
def buf_bytes (data : Nat → Byte) (len : Nat) : List Nat :=
  (List.range (len % 65536)).map fun i => (data i).val

/-! ## The bus write of the 4-wire interface (`rp2350_pico_driver_ssd1681_interface.c`) -/

/-- The macros `SSD1681_SPI_PORT` and `SSD1681_PIN_CS` of
`rp2350_pico_driver_ssd1681_interface.h`. -/
def SSD1681_SPI_PORT : SpiInst := .spi0
def SSD1681_PIN_CS : Nat := 17

/-- The SDK call `spi_write_blocking(spi, src, len)` on a buffer: one logged
write per byte asked for; the count returned comes from the hardware. -/
def spi_write_blocking_buf (spi : SpiInst) (src : Nat → Byte) (len : Nat) (s : State) :
    Nat × State :=
  (s.hw.written s.hw.spi_writes,
   { s with hw := { s.hw with spi_writes := s.hw.spi_writes + 1,
                              log := s.hw.log ++ (List.range len).map fun i =>
                                Event.spi_write_blocking spi (src i).val } })

/-- Model of `uint8_t ssd1681_interface_spi_write_cmd(uint8_t *buf, uint16_t len)`;
`none` is the null pointer. -/
def ssd1681_interface_spi_write_cmd (buf : Option (Nat → Byte)) (len : Nat) (s : State) :
    Nat × State :=
  match buf with
  | none => (1, s)
  | some buf =>
    if len % 65536 = 0 then (1, s)
    else
      let s1 := gpio_put SSD1681_PIN_CS 0 s
      let r := spi_write_blocking_buf SSD1681_SPI_PORT buf (len % 65536) s1
      let s2 := gpio_put SSD1681_PIN_CS 1 r.2
      if r.1 ≠ len % 65536 then (1, s2) else (0, s2)

/-- The state with the counts `spi_write_blocking` will report replaced by `w`. -/
def with_written (w : Nat → Nat) (s : State) : State :=
  { s with hw := { s.hw with written := w } }

/-- An initialised 4-wire driver on a bus that reports 0 bytes transferred
for every write. -/
def st_short : State := with_written (fun _ => 0) st_ready

/-! ## The cursor rule of the text renderer, as the spec words it -/

/-- Where the glyph after one drawn at `(x, y)` goes, for font size `fs`: to
the right when a further glyph fits in the row, else to column 0 of the next
line when that line fits, else nowhere. -/
def next_cursor (fs x y : Nat) : Option (Nat × Nat) :=
  if x + 2 * fs ≤ 200 then some (x + fs, y)
  else if y + 2 * fs ≤ 200 then some (0, y + fs)
  else none

/-- The glyphs `(code, x, y)` the cursor rule places for a list of characters
starting at `(x, y)`: codes above 127 are skipped without moving the cursor,
and the rest of the text is dropped when no further glyph fits. -/
def glyph_layout (fs : Nat) : List Byte → Nat → Nat → List (Nat × Nat × Nat)
  | [], _, _ => []
  | ch :: cs, x, y =>
    if ch.val > 127 then glyph_layout fs cs x y
    else (ch.val, x, y) ::
      (match next_cursor fs x y with
       | some p => glyph_layout fs cs p.1 p.2
       | none => [])

/-- The glyph loops of `ssd1681_draw_string` run for each placed glyph in turn. -/
def draw_glyphs (font : Nat → Nat → Byte) (color fs : Nat) (gs : List (Nat × Nat × Nat))
    (s : State) : State :=
  gs.foldl (fun t g => draw_string_rows color g.2.1 g.2.2 fs (font g.1) 0 t) s

/-! ## Chip-select along the event log -/

/-- How the driver holds a GPIO pin: whether the pin is under software
control (from `gpio_init` until `gpio_deinit` or until another function is
selected), whether it is an output, and the value of its output latch. -/
structure Pin where
  sio : Bool
  out : Bool
  latch : Nat
deriving DecidableEq, Repr

/-- The level the driver puts on the pin: the latch when the pin is a
software-controlled output, `none` when the driver does not drive it. -/
def Pin.level (p : Pin) : Option Nat := if p.sio ∧ p.out then some p.latch else none

/-- What one SDK call does to pin `pin`, as the Pico SDK defines the calls:
`gpio_init` makes it a software-controlled input with the latch cleared,
`gpio_set_dir` sets the direction, `gpio_put` the latch, and `gpio_deinit` or the
selection of the SPI function takes it out of software control. -/
def pin_step (pin : Nat) (p : Pin) : Event → Pin
  | .gpio_init q => if q = pin then ⟨true, false, 0⟩ else p
  | .gpio_deinit q => if q = pin then { p with sio := false } else p
  | .gpio_set_dir q out => if q = pin then { p with out := out } else p
  | .gpio_put q value => if q = pin then { p with latch := value } else p
  | .gpio_set_function_spi q => if q = pin then { p with sio := false } else p
  | _ => p

/-- The chip-select pin `cs` after a list of SDK calls, starting from `p`;
`none` when a byte or frame goes on the bus while the pin is not driven low. -/
def cs_run (cs : Nat) : Pin → List Event → Option Pin
  | p, [] => some p
  | p, e :: es =>
    if is_bus_write e = true ∧ p.level ≠ some 0 then none else cs_run cs (pin_step cs p e) es

/-- No condition on the pin. -/
def any_pin (_ : Pin) : Prop := True

/-- From every state of pin `cs` that satisfies `A`, the events send no frame
unless `cs` is driven low and leave the pin in a state that satisfies `B`. -/
def Moves (cs : Nat) (A B : Pin → Prop) (evs : List Event) : Prop :=
  ∀ p, A p → ∃ q, cs_run cs p evs = some q ∧ B q

/-- Chip-select has a pin of its own: it is not the mode-select pin (where
there is one) nor the reset, busy, data or clock pin. -/
def own_pin (config : Config) : Bool :=
  (decide (config.spi_mode = SSD1681_SPI_3WIRE) || decide (config.pin_dc ≠ config.pin_cs))
  && decide (config.pin_rst ≠ config.pin_cs) && decide (config.pin_busy ≠ config.pin_cs)
  && decide (config.pin_mosi ≠ config.pin_cs) && decide (config.pin_sck ≠ config.pin_cs)

/-- State `t` comes from state `s` by SDK calls `evs` that keep the
configuration and the `initialized` flag. -/
def Emits (s t : State) (evs : List Event) : Prop :=
  t.g.config = s.g.config ∧ t.g.initialized = s.g.initialized ∧ t.hw.log = s.hw.log ++ evs

/-- State `t` comes from `s` by events that, chip-select having a pin of its
own, take it from `A` to `B`. -/
def Runs (A B : Pin → Prop) (s t : State) : Prop :=
  ∃ evs, Emits s t evs ∧ (own_pin s.g.config = true → Moves s.g.config.pin_cs A B evs)

theorem and_one_shiftLeft_ne_zero (b k : Nat) : (b &&& (1 <<< k) ≠ 0) ↔ b.testBit k = true := by
  rw [Nat.one_shiftLeft]
  constructor
  · intro h
    obtain ⟨i, hi⟩ := Nat.ne_zero_implies_bit_true h
    rw [Nat.testBit_and, Nat.testBit_two_pow] at hi
    simp only [Bool.and_eq_true, decide_eq_true_eq] at hi
    rw [hi.2]; exact hi.1
  · intro h h0
    have := Nat.testBit_and b (2 ^ k) k
    rw [h0, Nat.testBit_two_pow] at this
    simp [h] at this

theorem byte_testBit_high (b : Byte) (j : Nat) (hj : 8 ≤ j) : b.val.testBit j = false := by
  apply Nat.testBit_lt_two_pow
  calc b.val < 256 := b.isLt
    _ = 2 ^ 8 := by norm_num
    _ ≤ 2 ^ j := Nat.pow_le_pow_right (by norm_num) hj

theorem toByte_testBit (n j : Nat) : (toByte n).val.testBit j = (decide (j < 8) && n.testBit j) := by
  show (n % 256).testBit j = _
  rw [show (256 : Nat) = 2 ^ 8 by norm_num, Nat.testBit_mod_two_pow]

theorem bitnot32_testBit (k j : Nat) (hk : k < 32) :
    (bitnot32 (1 <<< k)).testBit j = (decide (j < 32) && !decide (k = j)) := by
  unfold bitnot32
  rw [Nat.one_shiftLeft, Nat.sub_sub, Nat.add_comm,
    Nat.testBit_two_pow_sub_succ (Nat.pow_lt_pow_right (by norm_num) hk), Nat.testBit_two_pow]

/-- Bits of the byte stored by `ssd1681_write_point`. -/
theorem point_byte_testBit (data bit : Nat) (b : Byte) (j : Nat) (hbit : bit < 8) :
    (point_byte data bit b).val.testBit j
      = if j = bit then decide (data = 0) else b.val.testBit j := by
  unfold point_byte
  by_cases hd : data = 0
  · simp only [hd, ne_eq, not_true_eq_false, if_false, decide_True, toByte_testBit, Nat.testBit_or,
      Nat.one_shiftLeft, Nat.testBit_two_pow]
    by_cases hj : j = bit
    · subst hj; simp [hbit]
    · have : ¬ bit = j := fun h => hj h.symm
      by_cases h8 : j < 8
      · simp [hj, this, h8]
      · simp [hj, this, h8, byte_testBit_high b j (by omega)]
  · simp only [hd, ne_eq, not_false_eq_true, if_true, decide_False, toByte_testBit, Nat.testBit_and,
      bitnot32_testBit bit j (by omega)]
    by_cases hj : j = bit
    · subst hj; simp
    · have : ¬ bit = j := fun h => hj h.symm
      by_cases h8 : j < 8
      · have : j < 32 := by omega
        simp [*]
      · simp [hj, this, h8, byte_testBit_high b j (by omega)]

theorem bit_index_lt (x : Nat) : bit_index x < 8 := by
  unfold bit_index; omega

theorem bit_index_eq (x : Nat) : bit_index x = 7 - x % 8 := by
  unfold bit_index; omega

theorem write_byte_index_eq (x y : Nat) (hx : x < 200) (hy : y < 200) :
    write_byte_index x y = (199 - y) * 25 + x / 8 := by
  unfold write_byte_index DISPLAY_HEIGHT BYTES_PER_ROW DISPLAY_WIDTH
  omega

theorem read_byte_index_eq (x y : Nat) (hx : x < 200) (hy : y < 200) :
    read_byte_index x y = y * 25 + x / 8 := by
  unfold read_byte_index BYTES_PER_ROW DISPLAY_WIDTH
  omega

/-! ## Planes -/

@[simp]
theorem gram_set_gram (c : Nat) (p : Nat → Byte) (g : Driver) :
    gram c (set_gram c p g) = p := by
  unfold gram set_gram; split <;> rfl

@[simp]
theorem other_gram_set_gram (c : Nat) (p : Nat → Byte) (g : Driver) :
    other_gram c (set_gram c p g) = other_gram c g := by
  unfold other_gram set_gram; split <;> rfl

@[simp]
theorem set_gram_initialized (c : Nat) (p : Nat → Byte) (g : Driver) :
    (set_gram c p g).initialized = g.initialized := by
  unfold set_gram; split <;> rfl

@[simp]
theorem set_gram_config (c : Nat) (p : Nat → Byte) (g : Driver) :
    (set_gram c p g).config = g.config := by
  unfold set_gram; split <;> rfl

@[simp]
theorem set_gram_dc_state (c : Nat) (p : Nat → Byte) (g : Driver) :
    (set_gram c p g).dc_state = g.dc_state := by
  unfold set_gram; split <;> rfl

@[simp]
theorem set_gram_spi (c : Nat) (p : Nat → Byte) (g : Driver) :
    (set_gram c p g).spi = g.spi := by
  unfold set_gram; split <;> rfl

@[simp]
theorem set_gram_set_gram (c : Nat) (p q : Nat → Byte) (g : Driver) :
    set_gram c q (set_gram c p g) = set_gram c q g := by
  unfold set_gram; split <;> rfl

@[simp]
theorem set_gram_gram (c : Nat) (g : Driver) : set_gram c (gram c g) g = g := by
  unfold set_gram gram; split <;> rfl

@[simp]
theorem with_plane_g (c : Nat) (p : Nat → Byte) (s : State) :
    (with_plane c p s).g = set_gram c p s.g := rfl

@[simp]
theorem with_plane_hw (c : Nat) (p : Nat → Byte) (s : State) :
    (with_plane c p s).hw = s.hw := rfl

@[simp]
theorem with_plane_with_plane (c : Nat) (p q : Nat → Byte) (s : State) :
    with_plane c q (with_plane c p s) = with_plane c q s := by
  simp [with_plane]

@[simp]
theorem with_plane_gram (c : Nat) (s : State) : with_plane c (gram c s.g) s = s := by
  simp [with_plane]

/-- A plane is determined by the bits of its bytes. -/
theorem plane_ext (p q : Nat → Byte)
    (h : ∀ i j, (p i).val.testBit j = (q i).val.testBit j) : p = q := by
  funext i
  exact Fin.ext (Nat.eq_of_testBit_eq (h i))

/-! ## One pixel write -/

/-- A call with an initialised driver and in-range coordinates succeeds and
rewrites one byte of the selected plane. -/
theorem write_point_ok (c x y v : Nat) (s : State) (hinit : s.g.initialized = true)
    (hx : x < 200) (hy : y < 200) :
    ssd1681_write_point c x y v s = (0, with_plane c (plane_write x y v (gram c s.g)) s) := by
  unfold ssd1681_write_point
  have h : ¬ (x ≥ DISPLAY_WIDTH ∨ y ≥ DISPLAY_HEIGHT) := by
    unfold DISPLAY_WIDTH DISPLAY_HEIGHT; omega
  simp only [hinit, Bool.not_true, Bool.false_eq_true, if_false, h]
  rfl

/-- Bits of a plane after one pixel write. -/
theorem plane_write_testBit (x y v : Nat) (p : Nat → Byte) (i j : Nat) :
    (plane_write x y v p i).val.testBit j
      = if i = write_byte_index x y ∧ j = bit_index x then decide (v = 0)
        else (p i).val.testBit j := by
  unfold plane_write
  by_cases hi : i = write_byte_index x y
  · subst hi
    rw [Function.update_same, point_byte_testBit _ _ _ _ (bit_index_lt x)]
    simp
  · rw [Function.update_noteq hi]
    simp [hi]

/-- The write-path address map is injective on the display. -/
theorem write_address_inj (x y x' y' : Nat) (hx : x < 200) (hy : y < 200)
    (hx' : x' < 200) (hy' : y' < 200)
    (hb : write_byte_index x y = write_byte_index x' y') (hk : bit_index x = bit_index x') :
    x = x' ∧ y = y' := by
  rw [write_byte_index_eq x y hx hy, write_byte_index_eq x' y' hx' hy'] at hb
  rw [bit_index_eq, bit_index_eq] at hk
  omega

/-! ## Sequences of pixel writes -/

theorem write_all_eq (c : Nat) (ws : List (Nat × Nat × Nat)) (s : State)
    (hinit : s.g.initialized = true) (hv : on_display ws) :
    write_all c ws s = with_plane c (plane_all ws (gram c s.g)) s := by
  induction ws generalizing s with
  | nil => simp [write_all, plane_all]
  | cons w ws ih =>
    have hw := hv w (List.mem_cons_self _ _)
    have hv' : on_display ws := fun w' h' => hv w' (List.mem_cons_of_mem _ h')
    have h1 := write_point_ok c w.1 w.2.1 w.2.2 s hinit hw.1 hw.2
    have := ih (with_plane c (plane_write w.1 w.2.1 w.2.2 (gram c s.g)) s) (by simpa using hinit) hv'
    simp only [write_all, plane_all, List.foldl_cons] at this ⊢
    rw [h1]
    simpa using this

/-- Bits that no write of the list addresses keep their value. -/
theorem plane_all_frame (ws : List (Nat × Nat × Nat)) (p : Nat → Byte) (i j : Nat)
    (h : ∀ w ∈ ws, ¬ (write_byte_index w.1 w.2.1 = i ∧ bit_index w.1 = j)) :
    (plane_all ws p i).val.testBit j = (p i).val.testBit j := by
  induction ws generalizing p with
  | nil => rfl
  | cons w ws ih =>
    have hw := h w (List.mem_cons_self _ _)
    have := ih (plane_write w.1 w.2.1 w.2.2 p) (fun w' h' => h w' (List.mem_cons_of_mem _ h'))
    simp only [plane_all, List.foldl_cons] at this ⊢
    rw [this, plane_write_testBit]
    have : ¬ (i = write_byte_index w.1 w.2.1 ∧ j = bit_index w.1) := fun hh => hw ⟨hh.1.symm, hh.2.symm⟩
    simp [this]

/-- When the value written to a pixel is a function `f` of its coordinates,
the bit of every written pixel ends as `f` says. -/
theorem plane_all_effect (f : Nat → Nat → Bool) (ws : List (Nat × Nat × Nat)) (p : Nat → Byte)
    (hv : on_display ws) (hf : ∀ w ∈ ws, decide (w.2.2 = 0) = f w.1 w.2.1)
    (w : Nat × Nat × Nat) (hw : w ∈ ws) :
    (plane_all ws p (write_byte_index w.1 w.2.1)).val.testBit (bit_index w.1) = f w.1 w.2.1 := by
  induction ws generalizing p w with
  | nil => cases hw
  | cons w0 ws ih =>
    have hv' : on_display ws := fun w' h' => hv w' (List.mem_cons_of_mem _ h')
    have hf' : ∀ w ∈ ws, decide (w.2.2 = 0) = f w.1 w.2.1 :=
      fun w' h' => hf w' (List.mem_cons_of_mem _ h')
    show (plane_all ws (plane_write w0.1 w0.2.1 w0.2.2 p) _).val.testBit _ = _
    by_cases hex : ∃ w' ∈ ws, write_byte_index w'.1 w'.2.1 = write_byte_index w.1 w.2.1
        ∧ bit_index w'.1 = bit_index w.1
    · obtain ⟨w', hw', hb, hk⟩ := hex
      have e := write_address_inj w'.1 w'.2.1 w.1 w.2.1 (hv' w' hw').1 (hv' w' hw').2
        (hv w hw).1 (hv w hw).2 hb hk
      have := ih (plane_write w0.1 w0.2.1 w0.2.2 p) hv' hf' w' hw'
      rw [hb, hk, e.1, e.2] at this
      exact this
    · have hw0 : w = w0 := by
        rcases List.mem_cons.mp hw with h | h
        · exact h
        · exact absurd ⟨w, h, rfl, rfl⟩ hex
      subst hw0
      rw [plane_all_frame ws _ _ _ (fun w' h' hh => hex ⟨w', h', hh⟩), plane_write_testBit]
      simp [hf w (List.mem_cons_self _ _)]

/-- Bits of a plane after a list of writes whose values are given by `f`. -/
theorem plane_all_testBit (f : Nat → Nat → Bool) (ws : List (Nat × Nat × Nat)) (p : Nat → Byte)
    (hv : on_display ws) (hf : ∀ w ∈ ws, decide (w.2.2 = 0) = f w.1 w.2.1) (i j : Nat) :
    ((∃ w ∈ ws, write_byte_index w.1 w.2.1 = i ∧ bit_index w.1 = j ∧
        (plane_all ws p i).val.testBit j = f w.1 w.2.1) ∨
     ((∀ w ∈ ws, ¬ (write_byte_index w.1 w.2.1 = i ∧ bit_index w.1 = j)) ∧
        (plane_all ws p i).val.testBit j = (p i).val.testBit j)) := by
  by_cases hex : ∃ w ∈ ws, write_byte_index w.1 w.2.1 = i ∧ bit_index w.1 = j
  · obtain ⟨w, hw, hb, hk⟩ := hex
    left
    refine ⟨w, hw, hb, hk, ?_⟩
    rw [← hb, ← hk]
    exact plane_all_effect f ws p hv hf w hw
  · right
    have hno : ∀ w ∈ ws, ¬ (write_byte_index w.1 w.2.1 = i ∧ bit_index w.1 = j) :=
      fun w hw hh => hex ⟨w, hw, hh⟩
    exact ⟨hno, plane_all_frame ws p i j hno⟩

/-- Writing the same list twice gives the plane that writing it once gives. -/
theorem plane_all_idem (f : Nat → Nat → Bool) (ws : List (Nat × Nat × Nat)) (p : Nat → Byte)
    (hv : on_display ws) (hf : ∀ w ∈ ws, decide (w.2.2 = 0) = f w.1 w.2.1) :
    plane_all ws (plane_all ws p) = plane_all ws p := by
  apply plane_ext
  intro i j
  rcases plane_all_testBit f ws (plane_all ws p) hv hf i j with ⟨w, hw, hb, hk, h⟩ | ⟨hno, h⟩
  · rw [h, ← hb, ← hk, plane_all_effect f ws p hv hf w hw]
  · exact h

/-! ## The loops of `ssd1681_fill_rect` -/

theorem write_all_append (c : Nat) (as bs : List (Nat × Nat × Nat)) (s : State) :
    write_all c (as ++ bs) s = write_all c bs (write_all c as s) := by
  simp [write_all, List.foldl_append]

theorem fill_rect_cols_eq (c y right v : Nat) (n x : Nat) (s : State)
    (hn : right + 1 - x = n) :
    fill_rect_cols c y right v x s
      = write_all c ((List.range' x (right + 1 - x)).map fun x => (x, y, v)) s := by
  induction n generalizing x s with
  | zero =>
    rw [fill_rect_cols, if_neg (by omega), hn]
    rfl
  | succ n ih =>
    rw [fill_rect_cols, if_pos (by omega), ih (x + 1) _ (by omega), hn,
      show right + 1 - (x + 1) = n by omega]
    rfl

theorem fill_rect_rows_eq (c left right bottom v : Nat) (n y : Nat) (s : State)
    (hn : bottom + 1 - y = n) :
    fill_rect_rows c left right bottom v y s
      = write_all c (rect_writes left y right bottom v) s := by
  induction n generalizing y s with
  | zero =>
    rw [fill_rect_rows, if_neg (by omega)]
    unfold rect_writes
    rw [hn]
    rfl
  | succ n ih =>
    rw [fill_rect_rows, if_pos (by omega), ih (y + 1) _ (by omega),
      fill_rect_cols_eq c y right v _ left s rfl]
    unfold rect_writes
    rw [hn, show bottom + 1 - (y + 1) = n by omega, List.range'_succ, List.flatMap_cons,
      write_all_append]

theorem mem_rect_writes (left top right bottom v : Nat) (w : Nat × Nat × Nat) :
    w ∈ rect_writes left top right bottom v
      ↔ in_rect left top right bottom w.1 w.2.1 ∧ w.2.2 = v := by
  obtain ⟨x, y, d⟩ := w
  unfold rect_writes in_rect
  simp only [List.mem_flatMap, List.mem_map, List.mem_range'_1, Prod.mk.injEq]
  constructor
  · rintro ⟨y', hy', x', hx', rfl, rfl, rfl⟩
    omega
  · rintro ⟨h, rfl⟩
    exact ⟨y, by omega, x, by omega, rfl, rfl, rfl⟩

theorem rect_writes_on_display (left top right bottom v : Nat) (hr : right < 200)
    (hb : bottom < 200) : on_display (rect_writes left top right bottom v) := by
  intro w hw
  have := (mem_rect_writes left top right bottom v w).mp hw
  unfold in_rect at this
  omega

theorem rect_writes_value (left top right bottom v : Nat) :
    ∀ w ∈ rect_writes left top right bottom v,
      decide (w.2.2 = 0) = (fun _ _ => decide (v = 0)) w.1 w.2.1 := by
  intro w hw
  rw [((mem_rect_writes left top right bottom v w).mp hw).2]

/-- A call of `ssd1681_fill_rect` that passes the guards rewrites the selected
plane by the writes of the rectangle and nothing else. -/
theorem fill_rect_ok (c left top right bottom v : Nat) (s : State)
    (hinit : s.g.initialized = true) (hlr : left ≤ right) (hr : right < 200)
    (htb : top ≤ bottom) (hb : bottom < 200) :
    ssd1681_fill_rect c left top right bottom v s
      = (0, with_plane c (plane_all (rect_writes left top right bottom v) (gram c s.g)) s) := by
  unfold ssd1681_fill_rect
  have h1 : ¬ (left ≥ DISPLAY_WIDTH ∨ top ≥ DISPLAY_HEIGHT) := by
    unfold DISPLAY_WIDTH DISPLAY_HEIGHT; omega
  have h2 : ¬ (right ≥ DISPLAY_WIDTH ∨ bottom ≥ DISPLAY_HEIGHT) := by
    unfold DISPLAY_WIDTH DISPLAY_HEIGHT; omega
  have h3 : ¬ (left > right ∨ top > bottom) := by omega
  simp only [hinit, Bool.not_true, Bool.false_eq_true, if_false, h1, h2, h3]
  rw [fill_rect_rows_eq c left right bottom v _ top s rfl,
    write_all_eq c _ s hinit (rect_writes_on_display left top right bottom v hr hb)]

/-! ## The loops of `ssd1681_draw_picture` -/

theorem draw_picture_cols_eq (c left top : Nat) (img : Nat → Byte) (width bpl y : Nat)
    (n x : Nat) (s : State) (hn : width - x = n) :
    draw_picture_cols c left top img width bpl y x s
      = write_all c ((List.range' x (width - x)).map fun x =>
          ((left + x) % 256, (top + y) % 256, picture_pixel img bpl x y)) s := by
  induction n generalizing x s with
  | zero =>
    rw [draw_picture_cols, if_neg (by omega), hn]
    rfl
  | succ n ih =>
    rw [draw_picture_cols, if_pos (by omega), ih (x + 1) _ (by omega), hn,
      show width - (x + 1) = n by omega]
    rfl

theorem draw_picture_rows_eq (c left top : Nat) (img : Nat → Byte) (width height bpl : Nat)
    (n y : Nat) (s : State) (hn : height - y = n) :
    draw_picture_rows c left top img width height bpl y s
      = write_all c ((List.range' y (height - y)).flatMap fun y =>
          (List.range' 0 width).map fun x =>
            ((left + x) % 256, (top + y) % 256, picture_pixel img bpl x y)) s := by
  induction n generalizing y s with
  | zero =>
    rw [draw_picture_rows, if_neg (by omega), hn]
    rfl
  | succ n ih =>
    rw [draw_picture_rows, if_pos (by omega), ih (y + 1) _ (by omega),
      draw_picture_cols_eq c left top img width bpl y _ 0 s rfl, hn,
      show height - (y + 1) = n by omega, List.range'_succ, List.flatMap_cons, write_all_append]
    rfl

theorem mem_picture_writes (left top : Nat) (img : Nat → Byte) (width height bpl : Nat)
    (w : Nat × Nat × Nat) :
    w ∈ picture_writes left top img width height bpl
      ↔ ∃ x y, x < width ∧ y < height ∧
          w = ((left + x) % 256, (top + y) % 256, picture_pixel img bpl x y) := by
  unfold picture_writes
  simp only [List.mem_flatMap, List.mem_map, List.mem_range'_1]
  constructor
  · rintro ⟨y, hy, x, hx, rfl⟩
    exact ⟨x, y, by omega, by omega, rfl⟩
  · rintro ⟨x, y, hx, hy, rfl⟩
    exact ⟨y, by omega, x, by omega, rfl⟩

/-- The image byte read for offsets `(x, y)` lies inside the first
`bytes_per_line * height` bytes. -/
theorem picture_index_lt (width height x y : Nat) (hx : x < width) (hy : y < height) :
    y * ((width + 7) / 8) + x / 8 < (width + 7) / 8 * height := by
  have h1 : x / 8 < (width + 7) / 8 := by omega
  have h2 : (y + 1) * ((width + 7) / 8) ≤ height * ((width + 7) / 8) :=
    Nat.mul_le_mul_right _ (by omega)
  rw [Nat.mul_comm ((width + 7) / 8) height]
  rw [Nat.add_mul, Nat.one_mul] at h2
  omega

theorem picture_pixel_eq (img : Nat → Byte) (bpl x y : Nat) (h : y * bpl + x / 8 < 65536) :
    picture_pixel img bpl x y
      = if (img (y * bpl + x / 8)).val.testBit (7 - x % 8) then 1 else 0 := by
  unfold picture_pixel
  simp only [Nat.mod_eq_of_lt h, show (7 - x % 8) % 256 = 7 - x % 8 by omega,
    and_one_shiftLeft_ne_zero]

theorem picture_writes_on_display (left top right bottom : Nat) (img : Nat → Byte) (bpl : Nat)
    (hlr : left ≤ right) (hr : right < 200) (htb : top ≤ bottom) (hb : bottom < 200) :
    on_display (picture_writes left top img (right - left + 1) (bottom - top + 1) bpl) := by
  intro w hw
  obtain ⟨x, y, hx, hy, rfl⟩ := (mem_picture_writes _ _ _ _ _ _ w).mp hw
  show (left + x) % 256 < 200 ∧ (top + y) % 256 < 200
  omega

/-- A call of `ssd1681_draw_picture` that passes the guards rewrites the
selected plane by the writes of the image and nothing else. -/
theorem draw_picture_ok (c left top right bottom : Nat) (img : Nat → Byte) (s : State)
    (hinit : s.g.initialized = true) (hlr : left ≤ right) (hr : right < 200)
    (htb : top ≤ bottom) (hb : bottom < 200) :
    ssd1681_draw_picture c left top right bottom (some img) s
      = (0, with_plane c (plane_all (picture_writes left top img (right - left + 1)
            (bottom - top + 1) ((right - left + 1 + 7) / 8)) (gram c s.g)) s) := by
  unfold ssd1681_draw_picture
  have h1 : ¬ (left ≥ DISPLAY_WIDTH ∨ top ≥ DISPLAY_HEIGHT) := by
    unfold DISPLAY_WIDTH DISPLAY_HEIGHT; omega
  have h2 : ¬ (right ≥ DISPLAY_WIDTH ∨ bottom ≥ DISPLAY_HEIGHT) := by
    unfold DISPLAY_WIDTH DISPLAY_HEIGHT; omega
  have h3 : ¬ (left > right ∨ top > bottom) := by omega
  have e1 : (right - left + 1) % 65536 = right - left + 1 := by omega
  have e2 : (bottom - top + 1) % 65536 = bottom - top + 1 := by omega
  have e3 : (right - left + 1 + 7) / 8 % 65536 = (right - left + 1 + 7) / 8 := by omega
  simp only [hinit, Bool.not_true, Bool.false_eq_true, if_false, h1, h2, h3, e1, e2, e3]
  rw [draw_picture_rows_eq c left top img _ _ _ _ 0 s rfl,
    ← write_all_eq c _ s hinit (picture_writes_on_display left top right bottom img _ hlr hr htb hb)]
  rfl

/-- The value written for a pixel of the image, as a function of the pixel. -/
theorem picture_writes_value (left top right bottom : Nat) (img : Nat → Byte)
    (hlr : left ≤ right) (hr : right < 200) (htb : top ≤ bottom) (hb : bottom < 200) :
    ∀ w ∈ picture_writes left top img (right - left + 1) (bottom - top + 1)
        ((right - left + 1 + 7) / 8),
      decide (w.2.2 = 0)
        = (fun x y => !(img ((y - top) * ((right - left + 1 + 7) / 8) + (x - left) / 8)).val.testBit
            (7 - (x - left) % 8)) w.1 w.2.1 := by
  intro w hw
  obtain ⟨x, y, hx, hy, rfl⟩ := (mem_picture_writes _ _ _ _ _ _ w).mp hw
  have hlt := picture_index_lt (right - left + 1) (bottom - top + 1) x y hx hy
  have hbound : (right - left + 1 + 7) / 8 * (bottom - top + 1) ≤ 25 * 200 :=
    Nat.mul_le_mul (by omega) (by omega)
  have e1 : (left + x) % 256 - left = x := by omega
  have e2 : (top + y) % 256 - top = y := by omega
  simp only [e1, e2]
  rw [picture_pixel_eq img _ x y (by omega)]
  cases (img (y * ((right - left + 1 + 7) / 8) + x / 8)).val.testBit (7 - x % 8) <;> simp

theorem flatMap_congr_mem {α β : Type} (l : List α) (f g : α → List β)
    (h : ∀ a ∈ l, f a = g a) : l.flatMap f = l.flatMap g := by
  induction l with
  | nil => rfl
  | cons a l ih =>
    rw [List.flatMap_cons, List.flatMap_cons, h a (List.mem_cons_self _ _),
      ih (fun b hb => h b (List.mem_cons_of_mem _ hb))]

/-- The writes of an image depend only on its first `bytes_per_line * height` bytes. -/
theorem picture_writes_congr (left top : Nat) (img img' : Nat → Byte) (width height : Nat)
    (hw : width ≤ 200) (hh : height ≤ 200)
    (h : ∀ k, k < (width + 7) / 8 * height → img' k = img k) :
    picture_writes left top img' width height ((width + 7) / 8)
      = picture_writes left top img width height ((width + 7) / 8) := by
  unfold picture_writes
  have hbound : (width + 7) / 8 * height ≤ 25 * 200 := Nat.mul_le_mul (by omega) hh
  apply flatMap_congr_mem
  intro y hy
  have hy' : y < height := by simpa [List.mem_range'_1] using hy
  apply List.map_congr_left
  intro x hx
  have hx' : x < width := by simpa [List.mem_range'_1] using hx
  have hlt := picture_index_lt width height x y hx' hy'
  rw [picture_pixel_eq img' _ x y (by omega), picture_pixel_eq img _ x y (by omega), h _ hlt]

/-! ## Rejected calls -/

theorem write_point_rejected (c x y v : Nat) (s : State)
    (h : ¬ (s.g.initialized = true ∧ x < 200 ∧ y < 200)) :
    (ssd1681_write_point c x y v s).1 ≠ 0 ∧ (ssd1681_write_point c x y v s).2 = s := by
  unfold ssd1681_write_point DISPLAY_WIDTH DISPLAY_HEIGHT
  by_cases hi : s.g.initialized = true
  · have : x ≥ 200 ∨ y ≥ 200 := by
      by_contra hc
      exact h ⟨hi, by omega, by omega⟩
    simp [hi, this]
  · simp [hi]

theorem read_point_rejected (c x y : Nat) (data : Bool) (s : State)
    (h : ¬ (s.g.initialized = true ∧ x < 200 ∧ y < 200)) :
    (ssd1681_read_point c x y data s).1 ≠ 0 ∧ (ssd1681_read_point c x y data s).2.1 = none
      ∧ (ssd1681_read_point c x y data s).2.2 = s := by
  unfold ssd1681_read_point DISPLAY_WIDTH DISPLAY_HEIGHT
  by_cases hi : s.g.initialized = true
  · have : x ≥ 200 ∨ y ≥ 200 := by
      by_contra hc
      exact h ⟨hi, by omega, by omega⟩
    simp [hi, this]
  · simp [hi]

theorem fill_rect_rejected (c left top right bottom v : Nat) (s : State)
    (h : ¬ (s.g.initialized = true ∧ left ≤ right ∧ right < 200 ∧ top ≤ bottom ∧ bottom < 200)) :
    (ssd1681_fill_rect c left top right bottom v s).1 ≠ 0
      ∧ (ssd1681_fill_rect c left top right bottom v s).2 = s := by
  unfold ssd1681_fill_rect DISPLAY_WIDTH DISPLAY_HEIGHT
  by_cases hi : s.g.initialized = true
  · simp only [hi, Bool.not_true, Bool.false_eq_true, if_false]
    split_ifs with h1 h2 h3
    · simp
    · simp
    · simp
    · exact absurd ⟨hi, by omega, by omega, by omega, by omega⟩ h
  · simp [hi]

theorem draw_picture_rejected (c left top right bottom : Nat) (img : Option (Nat → Byte))
    (s : State)
    (h : ¬ (s.g.initialized = true ∧ left ≤ right ∧ right < 200 ∧ top ≤ bottom ∧ bottom < 200)) :
    (ssd1681_draw_picture c left top right bottom img s).1 ≠ 0
      ∧ (ssd1681_draw_picture c left top right bottom img s).2 = s := by
  unfold ssd1681_draw_picture DISPLAY_WIDTH DISPLAY_HEIGHT
  by_cases hi : s.g.initialized = true
  · simp only [hi, Bool.not_true, Bool.false_eq_true, if_false]
    cases img with
    | none => simp
    | some img =>
      simp only
      split_ifs with h1 h2 h3
      · simp
      · simp
      · simp
      · exact absurd ⟨hi, by omega, by omega, by omega, by omega⟩ h
  · simp [hi]

/-- What `ssd1681_read_point` returns once its guards pass. -/
theorem read_point_ok (c x y : Nat) (s : State) (hinit : s.g.initialized = true)
    (hx : x < 200) (hy : y < 200) :
    ssd1681_read_point c x y true s
      = (0, some (if (gram c s.g (y * 25 + x / 8)).val.testBit (7 - x % 8) then 0 else 1), s) := by
  unfold ssd1681_read_point
  have h : ¬ (x ≥ DISPLAY_WIDTH ∨ y ≥ DISPLAY_HEIGHT) := by
    unfold DISPLAY_WIDTH DISPLAY_HEIGHT; omega
  simp only [hinit, Bool.not_true, Bool.false_eq_true, if_false, h, and_one_shiftLeft_ne_zero,
    read_byte_index_eq x y hx hy, bit_index_eq]

/-- A failing `ssd1681_init` leaves the `initialized` flag as it was. -/
theorem init_failure_keeps_flag (config : Option Config) (s : State)
    (h : (ssd1681_init config s).1 ≠ 0) :
    (ssd1681_init config s).2.g.initialized = s.g.initialized := by
  cases config with
  | none => rfl
  | some cfg =>
    unfold ssd1681_init at h ⊢
    dsimp only at h ⊢
    by_cases hi : s.g.initialized = true
    · rw [if_pos hi]
    · rw [if_neg hi] at h ⊢
      split_ifs at h ⊢ <;> first | rfl | exact absurd rfl h

set_option maxRecDepth 100000 in
/-- The sample record `g_ready` is what a successful `ssd1681_init` with the
4-wire defaults leaves, starting from the zeroed record on an idle panel. -/
theorem init_reaches_g_ready :
    (ssd1681_init (some ssd1681_get_default_config_4wire) st_zero).1 = 0 ∧
    (ssd1681_init (some ssd1681_get_default_config_4wire) st_zero).2.g = g_ready := by
  constructor
  · decide
  · rfl

/-! ## Claims on the framebuffer -/

/-- C1: on an initialised driver, `ssd1681_write_point(c, x, y, v)` with
`x < 200` and `y < 200` returns 0, and afterwards bit `7 - x mod 8` of byte
`(199 - y) * 25 + x div 8` of plane `c` is 0 when `v` is non-zero and 1 when `v` is 0. -/
theorem write_point_sets_addressed_bit (c x y v : Nat) (s : State)
    (hinit : s.g.initialized = true) (hx : x < 200) (hy : y < 200) :
    (ssd1681_write_point c x y v s).1 = 0 ∧
    (gram c (ssd1681_write_point c x y v s).2.g ((199 - y) * 25 + x / 8)).val.testBit (7 - x % 8)
      = decide (v = 0) := by
  rw [write_point_ok c x y v s hinit hx hy]
  refine ⟨rfl, ?_⟩
  simp only [with_plane_g, gram_set_gram, plane_write_testBit, write_byte_index_eq x y hx hy,
    bit_index_eq]
  simp

theorem write_point_sets_addressed_bit_witness :
    st_ready.g.initialized = true ∧ 3 < 200 ∧ 5 < 200 ∧
    (ssd1681_write_point 0 3 5 1 st_ready).1 = 0 ∧
    (gram 0 (ssd1681_write_point 0 3 5 1 st_ready).2.g ((199 - 5) * 25 + 3 / 8)).val.testBit
      (7 - 3 % 8) = decide (1 = 0) :=
  ⟨rfl, by decide, by decide,
    write_point_sets_addressed_bit 0 3 5 1 st_ready rfl (by decide) (by decide)⟩

/-- C2 at a failing input: on the driver as `ssd1681_init` leaves it, writing
pixel (0, 0) of the black plane on succeeds, and reading pixel (0, 0) back
succeeds and yields 0 (off), not 1. -/
theorem write_on_then_read_same_point_yields_off :
    (ssd1681_write_point 0 0 0 1 st_ready).1 = 0 ∧
    ssd1681_read_point 0 0 0 true (ssd1681_write_point 0 0 0 1 st_ready).2
      = (0, some 0, (ssd1681_write_point 0 0 0 1 st_ready).2) := by
  refine ⟨by decide, ?_⟩
  rw [read_point_ok 0 0 0 _ (by decide) (by decide) (by decide)]
  have : (gram 0 (ssd1681_write_point 0 0 0 1 st_ready).2.g (0 * 25 + 0 / 8)).val.testBit
      (7 - 0 % 8) = true := by decide
  rw [this]
  rfl

/-- C3: on an initialised driver, `ssd1681_read_point(c, x, y, &d)` with
`x < 200`, `y < 200` and a non-null `d` returns 0, stores 1 when bit
`7 - x mod 8` of byte `y * 25 + x div 8` of plane `c` is 0 and 0 when that bit
is 1 (the row is not mirrored), and leaves the state as it was. -/
theorem read_point_reads_unmirrored_row (c x y : Nat) (s : State)
    (hinit : s.g.initialized = true) (hx : x < 200) (hy : y < 200) :
    ssd1681_read_point c x y true s
      = (0, some (if (gram c s.g (y * 25 + x / 8)).val.testBit (7 - x % 8) then 0 else 1), s) :=
  read_point_ok c x y s hinit hx hy

theorem read_point_reads_unmirrored_row_witness :
    st_ready.g.initialized = true ∧ 9 < 200 ∧ 2 < 200 ∧
    ssd1681_read_point 1 9 2 true st_ready
      = (0, some (if (gram 1 st_ready.g (2 * 25 + 9 / 8)).val.testBit (7 - 9 % 8) then 0 else 1),
          st_ready) :=
  ⟨rfl, by decide, by decide,
    read_point_reads_unmirrored_row 1 9 2 st_ready rfl (by decide) (by decide)⟩

/-- C4: on an initialised driver, `ssd1681_fill_rect(c, left, top, right, bottom, v)`
with `left ≤ right < 200` and `top ≤ bottom < 200` returns 0; its final state
is the one the calls `ssd1681_write_point(c, x, y, v)` for the pixels of the
rectangle (both bounds inclusive) produce; every pixel of the rectangle holds
`v` at its write-path address; every bit of plane `c` that is not the address
of a pixel of the rectangle is unchanged, and so is the other plane. -/
theorem fill_rect_writes_rectangle (c left top right bottom v : Nat) (s : State)
    (hinit : s.g.initialized = true) (hlr : left ≤ right) (hr : right < 200)
    (htb : top ≤ bottom) (hb : bottom < 200) :
    (ssd1681_fill_rect c left top right bottom v s).1 = 0 ∧
    (ssd1681_fill_rect c left top right bottom v s).2
      = write_all c (rect_writes left top right bottom v) s ∧
    (∀ x y, in_rect left top right bottom x y →
      (gram c (ssd1681_fill_rect c left top right bottom v s).2.g
        ((199 - y) * 25 + x / 8)).val.testBit (7 - x % 8) = decide (v = 0)) ∧
    (∀ i j, (∀ x y, in_rect left top right bottom x y →
        ¬ ((199 - y) * 25 + x / 8 = i ∧ 7 - x % 8 = j)) →
      (gram c (ssd1681_fill_rect c left top right bottom v s).2.g i).val.testBit j
        = (gram c s.g i).val.testBit j) ∧
    other_gram c (ssd1681_fill_rect c left top right bottom v s).2.g = other_gram c s.g := by
  have hd := rect_writes_on_display left top right bottom v hr hb
  rw [fill_rect_ok c left top right bottom v s hinit hlr hr htb hb]
  refine ⟨rfl, (write_all_eq c _ s hinit hd).symm, ?_, ?_, by simp⟩
  · intro x y hxy
    have hx : x < 200 := by unfold in_rect at hxy; omega
    have hy : y < 200 := by unfold in_rect at hxy; omega
    have hmem : (x, y, v) ∈ rect_writes left top right bottom v :=
      (mem_rect_writes left top right bottom v (x, y, v)).mpr ⟨hxy, rfl⟩
    have := plane_all_effect (fun _ _ => decide (v = 0)) _ (gram c s.g) hd
      (rect_writes_value left top right bottom v) (x, y, v) hmem
    simpa [write_byte_index_eq x y hx hy, bit_index_eq] using this
  · intro i j hno
    simp only [with_plane_g, gram_set_gram]
    apply plane_all_frame
    intro w hw hh
    have hin := ((mem_rect_writes left top right bottom v w).mp hw).1
    have hwd := hd w hw
    rw [write_byte_index_eq w.1 w.2.1 hwd.1 hwd.2, bit_index_eq] at hh
    exact hno w.1 w.2.1 hin hh

theorem fill_rect_writes_rectangle_witness :
    st_ready.g.initialized = true ∧ 20 ≤ 100 ∧ 100 < 200 ∧ 20 ≤ 80 ∧ 80 < 200 ∧
    ((ssd1681_fill_rect 0 20 20 100 80 1 st_ready).1 = 0 ∧
    (ssd1681_fill_rect 0 20 20 100 80 1 st_ready).2
      = write_all 0 (rect_writes 20 20 100 80 1) st_ready ∧
    (∀ x y, in_rect 20 20 100 80 x y →
      (gram 0 (ssd1681_fill_rect 0 20 20 100 80 1 st_ready).2.g
        ((199 - y) * 25 + x / 8)).val.testBit (7 - x % 8) = decide (1 = 0)) ∧
    (∀ i j, (∀ x y, in_rect 20 20 100 80 x y →
        ¬ ((199 - y) * 25 + x / 8 = i ∧ 7 - x % 8 = j)) →
      (gram 0 (ssd1681_fill_rect 0 20 20 100 80 1 st_ready).2.g i).val.testBit j
        = (gram 0 st_ready.g i).val.testBit j) ∧
    other_gram 0 (ssd1681_fill_rect 0 20 20 100 80 1 st_ready).2.g = other_gram 0 st_ready.g) :=
  ⟨rfl, by decide, by decide, by decide, by decide,
    fill_rect_writes_rectangle 0 20 20 100 80 1 st_ready rfl (by decide) (by decide)
      (by decide) (by decide)⟩

/-- C5: on an initialised driver, `ssd1681_clear(c)` returns 0, leaves each of
the 5000 bytes of plane `c` at 0xFF, so that `ssd1681_read_point` yields 0
(off) for every `x < 200`, `y < 200` of that plane, and leaves the other plane
and the hardware untouched. -/
theorem clear_turns_plane_off (c : Nat) (s : State) (hinit : s.g.initialized = true) :
    (ssd1681_clear c s).1 = 0 ∧
    (∀ i, i < 5000 → gram c (ssd1681_clear c s).2.g i = 0xFF) ∧
    (∀ x y, x < 200 → y < 200 →
      ssd1681_read_point c x y true (ssd1681_clear c s).2 = (0, some 0, (ssd1681_clear c s).2)) ∧
    other_gram c (ssd1681_clear c s).2.g = other_gram c s.g ∧
    (ssd1681_clear c s).2.hw = s.hw := by
  have hbytes : ∀ i, i < 5000 → gram c (ssd1681_clear c s).2.g i = 0xFF := by
    intro i hi
    have : i < DISPLAY_HEIGHT * BYTES_PER_ROW := by
      unfold DISPLAY_HEIGHT BYTES_PER_ROW DISPLAY_WIDTH; omega
    simp [ssd1681_clear, hinit, this]
  have hi' : (ssd1681_clear c s).2.g.initialized = true := by
    simp [ssd1681_clear, hinit]
  refine ⟨by simp [ssd1681_clear, hinit], hbytes, ?_, by simp [ssd1681_clear, hinit],
    by simp [ssd1681_clear, hinit]⟩
  intro x y hx hy
  rw [read_point_ok c x y _ hi' hx hy, hbytes _ (by omega)]
  have : ((0xFF : Byte).val).testBit (7 - x % 8) = true := by
    have h8 : 7 - x % 8 < 8 := by omega
    interval_cases (7 - x % 8) <;> decide
  rw [this]
  rfl

theorem clear_turns_plane_off_witness :
    st_ready.g.initialized = true ∧
    ((ssd1681_clear 1 st_ready).1 = 0 ∧
    (∀ i, i < 5000 → gram 1 (ssd1681_clear 1 st_ready).2.g i = 0xFF) ∧
    (∀ x y, x < 200 → y < 200 →
      ssd1681_read_point 1 x y true (ssd1681_clear 1 st_ready).2
        = (0, some 0, (ssd1681_clear 1 st_ready).2)) ∧
    other_gram 1 (ssd1681_clear 1 st_ready).2.g = other_gram 1 st_ready.g ∧
    (ssd1681_clear 1 st_ready).2.hw = st_ready.hw) :=
  ⟨rfl, clear_turns_plane_off 1 st_ready rfl⟩

/-- C6: in every state, an initialised driver included, `ssd1681_write_point`
and `ssd1681_read_point` with `x ≥ 200` or `y ≥ 200`, and `ssd1681_fill_rect` and
`ssd1681_draw_picture` with one of `left`, `top`, `right`, `bottom` at 200 or
more, return a non-zero status and leave the whole state, both planes
included, as it was. -/
theorem out_of_range_coordinates_rejected (c v : Nat) (data : Bool)
    (img : Option (Nat → Byte)) (s : State) :
    (∀ x y, x ≥ 200 ∨ y ≥ 200 →
      ((ssd1681_write_point c x y v s).1 ≠ 0 ∧ (ssd1681_write_point c x y v s).2 = s) ∧
      ((ssd1681_read_point c x y data s).1 ≠ 0 ∧ (ssd1681_read_point c x y data s).2.2 = s)) ∧
    (∀ left top right bottom, left ≥ 200 ∨ top ≥ 200 ∨ right ≥ 200 ∨ bottom ≥ 200 →
      ((ssd1681_fill_rect c left top right bottom v s).1 ≠ 0 ∧
        (ssd1681_fill_rect c left top right bottom v s).2 = s) ∧
      ((ssd1681_draw_picture c left top right bottom img s).1 ≠ 0 ∧
        (ssd1681_draw_picture c left top right bottom img s).2 = s)) := by
  constructor
  · intro x y h
    have hn : ¬ (s.g.initialized = true ∧ x < 200 ∧ y < 200) := fun hh => by omega
    have hr := read_point_rejected c x y data s hn
    exact ⟨write_point_rejected c x y v s hn, hr.1, hr.2.2⟩
  · intro left top right bottom h
    have hn : ¬ (s.g.initialized = true ∧ left ≤ right ∧ right < 200 ∧ top ≤ bottom
        ∧ bottom < 200) := fun hh => by omega
    exact ⟨fill_rect_rejected c left top right bottom v s hn,
      draw_picture_rejected c left top right bottom img s hn⟩

theorem out_of_range_coordinates_rejected_witness :
    st_ready.g.initialized = true ∧
    (((ssd1681_write_point 0 200 7 1 st_ready).1 ≠ 0 ∧
        (ssd1681_write_point 0 200 7 1 st_ready).2 = st_ready) ∧
      ((ssd1681_read_point 0 200 7 true st_ready).1 ≠ 0 ∧
        (ssd1681_read_point 0 200 7 true st_ready).2.2 = st_ready)) ∧
    (((ssd1681_fill_rect 0 10 10 20 200 1 st_ready).1 ≠ 0 ∧
        (ssd1681_fill_rect 0 10 10 20 200 1 st_ready).2 = st_ready) ∧
      ((ssd1681_draw_picture 0 10 10 20 200 (some all_ff) st_ready).1 ≠ 0 ∧
        (ssd1681_draw_picture 0 10 10 20 200 (some all_ff) st_ready).2 = st_ready)) :=
  ⟨rfl,
    (out_of_range_coordinates_rejected 0 1 true (some all_ff) st_ready).1 200 7
      (Or.inl (by decide)),
    (out_of_range_coordinates_rejected 0 1 true (some all_ff) st_ready).2 10 10 20 200
      (Or.inr (Or.inr (Or.inr (by decide))))⟩

/-- C7: in every state, an initialised driver included, `ssd1681_fill_rect`
with `left > right` or `top > bottom` returns a non-zero status and leaves the
whole state, both planes included, as it was. -/
theorem fill_rect_rejects_inverted_rectangle (c left top right bottom v : Nat) (s : State)
    (hinv : left > right ∨ top > bottom) :
    (ssd1681_fill_rect c left top right bottom v s).1 ≠ 0 ∧
    (ssd1681_fill_rect c left top right bottom v s).2 = s :=
  fill_rect_rejected c left top right bottom v s (fun hh => by omega)

theorem fill_rect_rejects_inverted_rectangle_witness :
    st_ready.g.initialized = true ∧ (30 > 20 ∨ 5 > 9) ∧
    (ssd1681_fill_rect 0 30 5 20 9 1 st_ready).1 ≠ 0 ∧
    (ssd1681_fill_rect 0 30 5 20 9 1 st_ready).2 = st_ready :=
  ⟨rfl, Or.inl (by decide),
    fill_rect_rejects_inverted_rectangle 0 30 5 20 9 1 st_ready (Or.inl (by decide))⟩

/-- C8: for every state and all arguments, a second `ssd1681_fill_rect` with
the same arguments returns the same status as the first and leaves the state
the first one left. -/
theorem fill_rect_idempotent (c left top right bottom v : Nat) (s : State) :
    ssd1681_fill_rect c left top right bottom v (ssd1681_fill_rect c left top right bottom v s).2
      = ssd1681_fill_rect c left top right bottom v s := by
  by_cases hok : s.g.initialized = true ∧ left ≤ right ∧ right < 200 ∧ top ≤ bottom ∧ bottom < 200
  · obtain ⟨hinit, hlr, hr, htb, hb⟩ := hok
    rw [fill_rect_ok c left top right bottom v s hinit hlr hr htb hb,
      fill_rect_ok c left top right bottom v _ (by simpa using hinit) hlr hr htb hb]
    simp only [with_plane_g, gram_set_gram, with_plane_with_plane]
    rw [plane_all_idem (fun _ _ => decide (v = 0)) _ _
      (rect_writes_on_display left top right bottom v hr hb)
      (rect_writes_value left top right bottom v)]
  · rw [(fill_rect_rejected c left top right bottom v s hok).2]

/-- C9: on an initialised driver, `ssd1681_draw_picture(c, left, top, right, bottom, img)`
with `left ≤ right < 200`, `top ≤ bottom < 200`, `w = right - left + 1` and
`h = bottom - top + 1` returns 0; for `i < w`, `j < h` the write-path bit of
pixel `(left + i, top + j)` of plane `c` ends cleared (on) exactly when bit
`7 - i mod 8` of `img[j * ceil(w/8) + i div 8]` is set; that index is below
`ceil(w/8) * h`, and the call does the same for every image with the same
first `ceil(w/8) * h` bytes; every bit of plane `c` that is not the address of
a pixel of the rectangle is unchanged, and so is the other plane. -/
theorem draw_picture_copies_bitmap (c left top right bottom : Nat) (img : Nat → Byte)
    (s : State) (hinit : s.g.initialized = true) (hlr : left ≤ right) (hr : right < 200)
    (htb : top ≤ bottom) (hb : bottom < 200) :
    (ssd1681_draw_picture c left top right bottom (some img) s).1 = 0 ∧
    (∀ i j, i < right - left + 1 → j < bottom - top + 1 →
      (gram c (ssd1681_draw_picture c left top right bottom (some img) s).2.g
        ((199 - (top + j)) * 25 + (left + i) / 8)).val.testBit (7 - (left + i) % 8)
        = !(img (j * ((right - left + 1 + 7) / 8) + i / 8)).val.testBit (7 - i % 8)) ∧
    (∀ i j, i < right - left + 1 → j < bottom - top + 1 →
      j * ((right - left + 1 + 7) / 8) + i / 8
        < (right - left + 1 + 7) / 8 * (bottom - top + 1)) ∧
    (∀ img' : Nat → Byte,
      (∀ k, k < (right - left + 1 + 7) / 8 * (bottom - top + 1) → img' k = img k) →
      ssd1681_draw_picture c left top right bottom (some img') s
        = ssd1681_draw_picture c left top right bottom (some img) s) ∧
    (∀ i j, (∀ x y, in_rect left top right bottom x y →
        ¬ ((199 - y) * 25 + x / 8 = i ∧ 7 - x % 8 = j)) →
      (gram c (ssd1681_draw_picture c left top right bottom (some img) s).2.g i).val.testBit j
        = (gram c s.g i).val.testBit j) ∧
    other_gram c (ssd1681_draw_picture c left top right bottom (some img) s).2.g
      = other_gram c s.g := by
  have hd := picture_writes_on_display left top right bottom img
    ((right - left + 1 + 7) / 8) hlr hr htb hb
  have hval := picture_writes_value left top right bottom img hlr hr htb hb
  refine ⟨?_, ?_, ?_, ?_, ?_, ?_⟩
  · rw [draw_picture_ok c left top right bottom img s hinit hlr hr htb hb]
  · intro i j hi hj
    rw [draw_picture_ok c left top right bottom img s hinit hlr hr htb hb]
    have hmem : ((left + i) % 256, (top + j) % 256,
        picture_pixel img ((right - left + 1 + 7) / 8) i j)
        ∈ picture_writes left top img (right - left + 1) (bottom - top + 1)
            ((right - left + 1 + 7) / 8) :=
      (mem_picture_writes _ _ _ _ _ _ _).mpr ⟨i, j, hi, hj, rfl⟩
    have := plane_all_effect
      (fun x y => !(img ((y - top) * ((right - left + 1 + 7) / 8) + (x - left) / 8)).val.testBit
        (7 - (x - left) % 8)) _ (gram c s.g) hd hval _ hmem
    have e1 : (left + i) % 256 = left + i := by omega
    have e2 : (top + j) % 256 = top + j := by omega
    simp only [e1, e2, write_byte_index_eq (left + i) (top + j) (by omega) (by omega),
      bit_index_eq, Nat.add_sub_cancel_left] at this
    simpa using this
  · intro i j hi hj
    exact picture_index_lt (right - left + 1) (bottom - top + 1) i j hi hj
  · intro img' himg
    rw [draw_picture_ok c left top right bottom img s hinit hlr hr htb hb,
      draw_picture_ok c left top right bottom img' s hinit hlr hr htb hb,
      picture_writes_congr left top img img' (right - left + 1) (bottom - top + 1)
        (by omega) (by omega) himg]
  · intro i j hno
    rw [draw_picture_ok c left top right bottom img s hinit hlr hr htb hb]
    simp only [with_plane_g, gram_set_gram]
    apply plane_all_frame
    intro w hw hh
    obtain ⟨x, y, hx, hy, rfl⟩ := (mem_picture_writes _ _ _ _ _ _ w).mp hw
    have e1 : (left + x) % 256 = left + x := by omega
    have e2 : (top + y) % 256 = top + y := by omega
    simp only [e1, e2, write_byte_index_eq (left + x) (top + y) (by omega) (by omega),
      bit_index_eq] at hh
    exact hno (left + x) (top + y) (by unfold in_rect; omega) hh
  · rw [draw_picture_ok c left top right bottom img s hinit hlr hr htb hb]
    simp

theorem draw_picture_copies_bitmap_witness :
    st_ready.g.initialized = true ∧ 8 ≤ 20 ∧ 20 < 200 ∧ 3 ≤ 4 ∧ 4 < 200 ∧
    ((ssd1681_draw_picture 0 8 3 20 4 (some (fun _ => 0xA5)) st_ready).1 = 0 ∧
    (∀ i j, i < 20 - 8 + 1 → j < 4 - 3 + 1 →
      (gram 0 (ssd1681_draw_picture 0 8 3 20 4 (some (fun _ => 0xA5)) st_ready).2.g
        ((199 - (3 + j)) * 25 + (8 + i) / 8)).val.testBit (7 - (8 + i) % 8)
        = !((fun _ => 0xA5 : Nat → Byte) (j * ((20 - 8 + 1 + 7) / 8) + i / 8)).val.testBit
            (7 - i % 8)) ∧
    (∀ i j, i < 20 - 8 + 1 → j < 4 - 3 + 1 →
      j * ((20 - 8 + 1 + 7) / 8) + i / 8 < (20 - 8 + 1 + 7) / 8 * (4 - 3 + 1)) ∧
    (∀ img' : Nat → Byte,
      (∀ k, k < (20 - 8 + 1 + 7) / 8 * (4 - 3 + 1) → img' k = (fun _ => 0xA5 : Nat → Byte) k) →
      ssd1681_draw_picture 0 8 3 20 4 (some img') st_ready
        = ssd1681_draw_picture 0 8 3 20 4 (some (fun _ => 0xA5)) st_ready) ∧
    (∀ i j, (∀ x y, in_rect 8 3 20 4 x y →
        ¬ ((199 - y) * 25 + x / 8 = i ∧ 7 - x % 8 = j)) →
      (gram 0 (ssd1681_draw_picture 0 8 3 20 4 (some (fun _ => 0xA5)) st_ready).2.g i).val.testBit j
        = (gram 0 st_ready.g i).val.testBit j) ∧
    other_gram 0 (ssd1681_draw_picture 0 8 3 20 4 (some (fun _ => 0xA5)) st_ready).2.g
      = other_gram 0 st_ready.g) :=
  ⟨rfl, by decide, by decide, by decide, by decide,
    draw_picture_copies_bitmap 0 8 3 20 4 (fun _ => 0xA5) st_ready rfl (by decide) (by decide)
      (by decide) (by decide)⟩

/-- C10: while the `initialized` flag is clear, each of `ssd1681_clear`,
`ssd1681_write_buffer`, `ssd1681_write_point`, `ssd1681_read_point`,
`ssd1681_draw_string`, `ssd1681_fill_rect`, `ssd1681_draw_picture`,
`ssd1681_set_soft_start`, `ssd1681_update` and
`ssd1681_write_buffer_and_update_if_ready` returns -1 for all arguments and
leaves the whole state as it was: no SDK call is logged and neither plane
changes.  The flag is clear at program start, stays clear when `ssd1681_init`
fails, and is clear after `ssd1681_deinit`. -/
theorem uninitialized_calls_rejected (font : Nat → Nat → Byte) (s : State)
    (hun : s.g.initialized = false)
    (c x y v left top right bottom len font_size strength time min_off t : Nat)
    (data : Bool) (str img : Option (Nat → Byte)) (config : Option Config) :
    ssd1681_clear c s = (-1, s) ∧
    ssd1681_write_buffer c s = (-1, s) ∧
    ssd1681_write_point c x y v s = (-1, s) ∧
    ssd1681_read_point c x y data s = (-1, none, s) ∧
    ssd1681_draw_string font c x y str len v font_size s = (-1, s) ∧
    ssd1681_fill_rect c left top right bottom v s = (-1, s) ∧
    ssd1681_draw_picture c left top right bottom img s = (-1, s) ∧
    ssd1681_set_soft_start strength time min_off s = (-1, s) ∧
    ssd1681_update t s = (-1, s) ∧
    ssd1681_write_buffer_and_update_if_ready t s = (-1, s) ∧
    g_zero.initialized = false ∧
    ((ssd1681_init config s).1 ≠ 0 → (ssd1681_init config s).2.g.initialized = false) ∧
    (∀ s' : State, (ssd1681_deinit s').g.initialized = false) := by
  refine ⟨?_, ?_, ?_, ?_, ?_, ?_, ?_, ?_, ?_, ?_, rfl, ?_, ?_⟩
  · unfold ssd1681_clear
    rw [if_pos (by simp [hun])]
  · unfold ssd1681_write_buffer
    rw [if_pos (by simp [hun])]
  · unfold ssd1681_write_point
    rw [if_pos (by simp [hun])]
  · unfold ssd1681_read_point
    rw [if_pos (by simp [hun])]
  · unfold ssd1681_draw_string
    rw [if_pos (by simp [hun])]
  · unfold ssd1681_fill_rect
    rw [if_pos (by simp [hun])]
  · unfold ssd1681_draw_picture
    rw [if_pos (by simp [hun])]
  · unfold ssd1681_set_soft_start
    rw [if_pos (by simp [hun])]
  · unfold ssd1681_update
    rw [if_pos (by simp [hun])]
  · unfold ssd1681_write_buffer_and_update_if_ready
    rw [if_pos (by simp [hun])]
  · exact fun h => (init_failure_keeps_flag config s h).trans hun
  · intro s'
    unfold ssd1681_deinit
    split_ifs with h
    · simpa using h
    · rfl

theorem uninitialized_calls_rejected_witness :
    st_zero.g.initialized = false ∧
    (ssd1681_clear 0 st_zero = (-1, st_zero) ∧
    ssd1681_write_buffer 0 st_zero = (-1, st_zero) ∧
    ssd1681_write_point 0 1 2 1 st_zero = (-1, st_zero) ∧
    ssd1681_read_point 0 1 2 true st_zero = (-1, none, st_zero) ∧
    ssd1681_draw_string (fun _ _ => 0) 0 1 2 (some (fun _ => 65)) 3 1 8 st_zero = (-1, st_zero) ∧
    ssd1681_fill_rect 0 1 2 3 4 1 st_zero = (-1, st_zero) ∧
    ssd1681_draw_picture 0 1 2 3 4 (some all_ff) st_zero = (-1, st_zero) ∧
    ssd1681_set_soft_start 0 3 7 st_zero = (-1, st_zero) ∧
    ssd1681_update 1 st_zero = (-1, st_zero) ∧
    ssd1681_write_buffer_and_update_if_ready 1 st_zero = (-1, st_zero) ∧
    g_zero.initialized = false ∧
    ((ssd1681_init none st_zero).1 ≠ 0 → (ssd1681_init none st_zero).2.g.initialized = false) ∧
    (∀ s' : State, (ssd1681_deinit s').g.initialized = false)) :=
  ⟨rfl, uninitialized_calls_rejected (fun _ _ => 0) st_zero rfl 0 1 2 1 1 2 3 4 3 8 0 3 7 1
    true (some (fun _ => 65)) (some all_ff) none⟩

/-! ## Decoding -/

theorem decode_quiet (pin_dc dc : Nat) (evs rest : List Event)
    (h : ∀ e ∈ evs, quiet e = true) :
    decode pin_dc dc (evs ++ rest) = decode pin_dc dc rest := by
  induction evs with
  | nil => rfl
  | cons e evs ih =>
    have he := h e (List.mem_cons_self _ _)
    have ih' := ih (fun e' h' => h e' (List.mem_cons_of_mem _ h'))
    cases e <;> simp_all [decode, quiet]

theorem Decodes.nil (pin_dc : Nat) : Decodes pin_dc [] [] :=
  fun dc => ⟨dc, fun _ => rfl⟩

theorem Decodes.append {pin_dc : Nat} {as bs : List Event} {xs ys : List Xfer}
    (ha : Decodes pin_dc as xs) (hb : Decodes pin_dc bs ys) :
    Decodes pin_dc (as ++ bs) (xs ++ ys) := by
  intro dc
  obtain ⟨dc1, h1⟩ := ha dc
  obtain ⟨dc2, h2⟩ := hb dc1
  refine ⟨dc2, fun rest => ?_⟩
  rw [List.append_assoc, h1, h2, List.append_assoc]

theorem Decodes.of_quiet (pin_dc : Nat) (evs : List Event) (h : ∀ e ∈ evs, quiet e = true) :
    Decodes pin_dc evs [] :=
  fun dc => ⟨dc, fun rest => decode_quiet pin_dc dc evs rest h⟩

/-- A pin write is passed over, possibly with a change of the D/C level. -/
theorem Decodes.gpio_put (pin_dc pin value : Nat) :
    Decodes pin_dc [.gpio_put pin value] [] := by
  intro dc
  by_cases h : pin = pin_dc
  · exact ⟨value, fun rest => by simp [decode, h]⟩
  · exact ⟨dc, fun rest => by simp [decode, h]⟩

theorem Decodes.result {pin_dc : Nat} {evs : List Event} {xs : List Xfer}
    (h : Decodes pin_dc evs xs) (dc : Nat) : decode pin_dc dc evs = xs := by
  obtain ⟨dc', h'⟩ := h dc
  have := h' []
  simpa [decode] using this

/-! ## Sending -/

theorem Sent.refl (s : State) : Sent s s [] := by
  refine ⟨rfl, rfl, rfl, rfl, rfl, ?_, fun _ => ⟨[], by simp, Decodes.nil _⟩⟩
  simp [last_dc]

theorem last_dc_append (xs ys : List Xfer) (d : Nat) :
    last_dc (xs ++ ys) d = last_dc ys (last_dc xs d) := by
  simp [last_dc, List.foldl_append]

theorem Sent.trans {s t u : State} {xs ys : List Xfer} (h1 : Sent s t xs) (h2 : Sent t u ys) :
    Sent s u (xs ++ ys) := by
  obtain ⟨c1, i1, p1, b1, r1, d1, l1⟩ := h1
  obtain ⟨c2, i2, p2, b2, r2, d2, l2⟩ := h2
  refine ⟨c2.trans c1, i2.trans i1, p2.trans p1, b2.trans b1, r2.trans r1, ?_, ?_⟩
  · rw [d2, c1, d1, last_dc_append]
    split <;> rfl
  · intro hw
    obtain ⟨e1, hl1, hd1⟩ := l1 hw
    obtain ⟨e2, hl2, hd2⟩ := l2 (c1 ▸ hw)
    refine ⟨e1 ++ e2, by rw [hl2, hl1, List.append_assoc], ?_⟩
    rw [c1] at hd2
    exact hd1.append hd2

/-- A step that leaves the driver record alone and logs events the decoder
passes over sends nothing. -/
theorem Sent.of_silent {s t : State} (evs : List Event) (hg : t.g = s.g)
    (hl : t.hw.log = s.hw.log ++ evs) (hd : Decodes s.g.config.pin_dc evs []) :
    Sent s t [] := by
  refine ⟨by rw [hg], by rw [hg], by rw [hg], by rw [hg], by rw [hg], ?_, fun _ => ⟨evs, hl, hd⟩⟩
  rw [hg]; simp [last_dc]

theorem sent_emit_quiet (e : Event) (s : State) (h : quiet e = true) : Sent s (emit e s) [] :=
  Sent.of_silent [e] rfl rfl (Decodes.of_quiet _ _ (by simpa using h))

theorem sent_gpio_put (pin value : Nat) (s : State) : Sent s (gpio_put pin value s) [] :=
  Sent.of_silent [.gpio_put pin value] rfl rfl (Decodes.gpio_put _ _ _)

theorem sent_sleep_ms (n : Nat) (s : State) : Sent s (sleep_ms n s) [] :=
  sent_emit_quiet _ s rfl

theorem sent_gpio_get (pin : Nat) (s : State) : Sent s (gpio_get pin s).2 [] :=
  Sent.of_silent [.gpio_get pin (s.hw.busy_level s.hw.gpio_reads)] rfl rfl
    (Decodes.of_quiet _ _ (by simp [quiet]))

theorem sent_set_spi_mode_and_clk (config : Config) (s : State) :
    Sent s (ssd1681_set_spi_mode_and_clk config s) [] := by
  have h1 : Sent s (if spi_get_baudrate s.g.spi s ≠ config.spi_baudrate
      then spi_set_baudrate s.g.spi config.spi_baudrate s else s) [] := by
    split
    · exact Sent.of_silent [.spi_set_baudrate s.g.spi config.spi_baudrate] rfl rfl
        (Decodes.of_quiet _ _ (by simp [quiet]))
    · exact Sent.refl s
  have h2 : ∀ t : State, Sent t (if config.spi_mode = SSD1681_SPI_3WIRE
      then emit (.spi_9bit_frames t.g.spi) t else emit (.spi_set_format t.g.spi 8) t) [] := by
    intro t
    split <;> exact sent_emit_quiet _ t rfl
  exact h1.trans (h2 _)

/-! ## The transport calls -/

theorem frame_cmd (b : Nat) : ((0 <<< 8) ||| (b % 256)) % 65536 = b % 256 := by
  rw [Nat.zero_shiftLeft, Nat.zero_or]
  omega

theorem frame_data (b : Nat) : ((1 <<< 8) ||| (b % 256)) % 65536 = 256 + b % 256 := by
  have h : 2 ^ 8 * 1 + b % 256 = 2 ^ 8 * 1 ||| b % 256 :=
    Nat.mul_add_lt_is_or (by norm_num; omega) 1
  rw [Nat.one_shiftLeft, show 2 ^ 8 = 2 ^ 8 * 1 by norm_num, ← h]
  norm_num
  omega

/-- The transfer a byte `b` sent with mode `dc` amounts to. -/
theorem xfer_of_frame (b : Nat) :
    (((0 <<< 8) ||| (b % 256)) % 65536 / 256 % 2 = 0
      ∧ ((0 <<< 8) ||| (b % 256)) % 65536 % 256 = b % 256) ∧
    (((1 <<< 8) ||| (b % 256)) % 65536 / 256 % 2 = 1
      ∧ ((1 <<< 8) ||| (b % 256)) % 65536 % 256 = b % 256) := by
  rw [frame_cmd, frame_data]
  omega

/-- Mode selection, chip-select low, one byte, chip-select high: a command
byte for mode 0. -/
theorem sent_cmd_byte (b : Nat) (t : State) :
    Sent t (gpio_put (ssd1681_spi_write_byte b
        (gpio_put (set_dc 0 t).g.config.pin_cs 0 (set_dc 0 t))).g.config.pin_cs 1
      (ssd1681_spi_write_byte b (gpio_put (set_dc 0 t).g.config.pin_cs 0 (set_dc 0 t))))
      [.cmd (b % 256)] := by
  by_cases hm : t.g.config.spi_mode = SSD1681_SPI_3WIRE
  · simp only [set_dc, hm, if_true, gpio_put, emit, ssd1681_spi_write_byte]
    refine ⟨rfl, rfl, rfl, rfl, rfl, by simp [hm, last_dc], fun _ => ⟨[.gpio_put t.g.config.pin_cs 0,
      .spi_dr t.g.spi (((0 <<< 8) ||| (b % 256)) % 65536), .gpio_put t.g.config.pin_cs 1],
      by simp, ?_⟩⟩
    intro dc
    obtain ⟨hf1, hf2⟩ := (xfer_of_frame b).1
    generalize ((0 <<< 8) ||| (b % 256)) % 65536 = fr at hf1 hf2
    by_cases hcs : t.g.config.pin_cs = t.g.config.pin_dc
    · exact ⟨1, fun rest => by simp [decode, hcs, hf1, hf2]⟩
    · exact ⟨dc, fun rest => by simp [decode, hcs, hf1, hf2]⟩
  · simp only [set_dc, hm, if_false, gpio_put, emit, ssd1681_spi_write_byte, spi_write_blocking]
    refine ⟨rfl, rfl, rfl, rfl, rfl, by simp [hm], fun hw => ⟨[.gpio_put t.g.config.pin_dc 0,
      .gpio_put t.g.config.pin_cs 0, .spi_write_blocking t.g.spi (b % 256),
      .gpio_put t.g.config.pin_cs 1], by simp, ?_⟩⟩
    have hcs : ¬ t.g.config.pin_cs = t.g.config.pin_dc := by
      rcases hw with h | h
      · exact absurd h hm
      · exact fun e => h e.symm
    intro dc
    exact ⟨0, fun rest => by simp [decode, hcs]⟩

/-- Mode selection, chip-select low, one byte, chip-select high: a data byte
for mode 1. -/
theorem sent_data_byte (b : Nat) (t : State) :
    Sent t (gpio_put (ssd1681_spi_write_byte b
        (gpio_put (set_dc 1 t).g.config.pin_cs 0 (set_dc 1 t))).g.config.pin_cs 1
      (ssd1681_spi_write_byte b (gpio_put (set_dc 1 t).g.config.pin_cs 0 (set_dc 1 t))))
      [.data (b % 256)] := by
  by_cases hm : t.g.config.spi_mode = SSD1681_SPI_3WIRE
  · simp only [set_dc, hm, if_true, gpio_put, emit, ssd1681_spi_write_byte]
    refine ⟨rfl, rfl, rfl, rfl, rfl, by simp [hm, last_dc], fun _ => ⟨[.gpio_put t.g.config.pin_cs 0,
      .spi_dr t.g.spi (((1 <<< 8) ||| (b % 256)) % 65536), .gpio_put t.g.config.pin_cs 1],
      by simp, ?_⟩⟩
    intro dc
    obtain ⟨hf1, hf2⟩ := (xfer_of_frame b).2
    generalize ((1 <<< 8) ||| (b % 256)) % 65536 = fr at hf1 hf2
    by_cases hcs : t.g.config.pin_cs = t.g.config.pin_dc
    · exact ⟨1, fun rest => by simp [decode, hcs, hf1, hf2]⟩
    · exact ⟨dc, fun rest => by simp [decode, hcs, hf1, hf2]⟩
  · simp only [set_dc, hm, if_false, gpio_put, emit, ssd1681_spi_write_byte, spi_write_blocking]
    refine ⟨rfl, rfl, rfl, rfl, rfl, by simp [hm], fun hw => ⟨[.gpio_put t.g.config.pin_dc 1,
      .gpio_put t.g.config.pin_cs 0, .spi_write_blocking t.g.spi (b % 256),
      .gpio_put t.g.config.pin_cs 1], by simp, ?_⟩⟩
    have hcs : ¬ t.g.config.pin_cs = t.g.config.pin_dc := by
      rcases hw with h | h
      · exact absurd h hm
      · exact fun e => h e.symm
    intro dc
    exact ⟨1, fun rest => by simp [decode, hcs]⟩

theorem sent_write_cmd (cmd : Nat) (s : State) :
    Sent s (ssd1681_write_cmd cmd s) [.cmd (cmd % 256)] :=
  (sent_set_spi_mode_and_clk s.g.config s).trans (sent_cmd_byte cmd _)

theorem sent_write_data (data : Nat) (s : State) :
    Sent s (ssd1681_write_data data s) [.data (data % 256)] :=
  (sent_set_spi_mode_and_clk s.g.config s).trans (sent_data_byte data _)

theorem spi_write_byte_g (b : Nat) (u : State) : (ssd1681_spi_write_byte b u).g = u.g := by
  unfold ssd1681_spi_write_byte
  split <;> rfl

theorem spi_write_byte_log (b : Nat) (u : State) :
    (ssd1681_spi_write_byte b u).hw.log = u.hw.log ++ [byte_event u.g b] := by
  unfold ssd1681_spi_write_byte byte_event
  split <;> rfl

theorem write_data_buf_loop_g (p : Nat → Byte) (n i : Nat) (u : State) :
    (write_data_buf_loop p n i u).g = u.g := by
  induction n generalizing i u with
  | zero => rfl
  | succ n ih => rw [write_data_buf_loop, ih, spi_write_byte_g]

theorem write_data_buf_loop_log (p : Nat → Byte) (n i : Nat) (u : State) :
    (write_data_buf_loop p n i u).hw.log
      = u.hw.log ++ (List.range' i n).map fun k => byte_event u.g (p k).val := by
  induction n generalizing i u with
  | zero => simp [write_data_buf_loop]
  | succ n ih =>
    rw [write_data_buf_loop, ih, spi_write_byte_g, spi_write_byte_log, List.range'_succ,
      List.map_cons, List.append_assoc]
    rfl

/-- Data bytes on the 8-bit bus with the D/C pin high. -/
theorem decode_bytes_4wire (pin_dc : Nat) (g : Driver)
    (hm : ¬ g.config.spi_mode = SSD1681_SPI_3WIRE) (ks : List Nat) (p : Nat → Byte)
    (rest : List Event) :
    decode pin_dc 1 (ks.map (fun k => byte_event g (p k).val) ++ rest)
      = ks.map (fun k => Xfer.data (p k).val) ++ decode pin_dc 1 rest := by
  induction ks with
  | nil => rfl
  | cons k ks ih =>
    simp only [List.map_cons, List.cons_append, byte_event, hm, if_false, decode] at ih ⊢
    rw [ih]
    simp [Nat.mod_eq_of_lt (p k).isLt]

/-- Data bytes as 9-bit frames with the mode bit set. -/
theorem decode_bytes_3wire (pin_dc dc : Nat) (g : Driver)
    (hm : g.config.spi_mode = SSD1681_SPI_3WIRE) (hd : g.dc_state = 1) (ks : List Nat)
    (p : Nat → Byte) (rest : List Event) :
    decode pin_dc dc (ks.map (fun k => byte_event g (p k).val) ++ rest)
      = ks.map (fun k => Xfer.data (p k).val) ++ decode pin_dc dc rest := by
  induction ks with
  | nil => rfl
  | cons k ks ih =>
    obtain ⟨hf1, hf2⟩ := (xfer_of_frame (p k).val).2
    simp only [List.map_cons, List.cons_append, byte_event, hm, if_true, decode, hd] at ih ⊢
    generalize ((1 <<< 8) ||| ((p k).val % 256)) % 65536 = fr at hf1 hf2
    rw [ih]
    simp [hf1, hf2, Nat.mod_eq_of_lt (p k).isLt]

theorem decode_gpio_put (pin_dc dc pin value : Nat) (es : List Event) :
    decode pin_dc dc (.gpio_put pin value :: es)
      = if pin = pin_dc then decode pin_dc value es else decode pin_dc dc es := by
  simp [decode]

theorem last_dc_data (p : Nat → Byte) (n d : Nat) (hn : 0 < n) :
    last_dc ((List.range n).map fun k => Xfer.data (p k).val) d = 1 := by
  obtain ⟨m, rfl⟩ : ∃ m, n = m + 1 := ⟨n - 1, by omega⟩
  rw [List.range_succ, List.map_append, last_dc_append]
  rfl

/-- Mode selection, chip-select low, `n` bytes of a buffer, chip-select high. -/
theorem sent_data_bytes (p : Nat → Byte) (n : Nat) (hn : 0 < n) (t : State) :
    Sent t (gpio_put (write_data_buf_loop p n 0
        (gpio_put (set_dc 1 t).g.config.pin_cs 0 (set_dc 1 t))).g.config.pin_cs 1
      (write_data_buf_loop p n 0 (gpio_put (set_dc 1 t).g.config.pin_cs 0 (set_dc 1 t))))
      ((List.range n).map fun k => Xfer.data (p k).val) := by
  have hg : (gpio_put (write_data_buf_loop p n 0
        (gpio_put (set_dc 1 t).g.config.pin_cs 0 (set_dc 1 t))).g.config.pin_cs 1
      (write_data_buf_loop p n 0 (gpio_put (set_dc 1 t).g.config.pin_cs 0 (set_dc 1 t)))).g
      = (set_dc 1 t).g := by
    simp [gpio_put, emit, write_data_buf_loop_g]
  have hl : (gpio_put (write_data_buf_loop p n 0
        (gpio_put (set_dc 1 t).g.config.pin_cs 0 (set_dc 1 t))).g.config.pin_cs 1
      (write_data_buf_loop p n 0 (gpio_put (set_dc 1 t).g.config.pin_cs 0 (set_dc 1 t)))).hw.log
      = (set_dc 1 t).hw.log ++ (.gpio_put (set_dc 1 t).g.config.pin_cs 0 ::
          ((List.range' 0 n).map fun k => byte_event (set_dc 1 t).g (p k).val)
          ++ [.gpio_put (set_dc 1 t).g.config.pin_cs 1]) := by
    simp [gpio_put, emit, write_data_buf_loop_g, write_data_buf_loop_log]
  generalize (gpio_put (write_data_buf_loop p n 0
        (gpio_put (set_dc 1 t).g.config.pin_cs 0 (set_dc 1 t))).g.config.pin_cs 1
      (write_data_buf_loop p n 0 (gpio_put (set_dc 1 t).g.config.pin_cs 0 (set_dc 1 t)))) = w
    at hg hl
  by_cases hm : t.g.config.spi_mode = SSD1681_SPI_3WIRE
  · have hset : set_dc 1 t = { t with g := { t.g with dc_state := 1 } } := by
      simp [set_dc, hm]
    rw [hset] at hg hl
    dsimp only at hg hl
    refine ⟨by rw [hg], by rw [hg], by rw [hg], by rw [hg], by rw [hg], ?_, fun _ => ⟨_, hl, ?_⟩⟩
    · rw [hg, if_pos hm, last_dc_data p n _ hn]
    · intro dc
      have key : ∀ dc0 rest, decode t.g.config.pin_dc dc0
          (((List.range' 0 n).map fun k => byte_event { t.g with dc_state := 1 } (p k).val)
            ++ rest)
          = ((List.range n).map fun k => Xfer.data (p k).val)
            ++ decode t.g.config.pin_dc dc0 rest := by
        intro dc0 rest
        rw [decode_bytes_3wire t.g.config.pin_dc dc0 { t.g with dc_state := 1 } hm rfl,
          List.range_eq_range']
      by_cases hcs : t.g.config.pin_cs = t.g.config.pin_dc
      · refine ⟨1, fun rest => ?_⟩
        rw [List.append_assoc, List.cons_append, decode_gpio_put, if_pos hcs, key,
          List.singleton_append, decode_gpio_put, if_pos hcs]
      · refine ⟨dc, fun rest => ?_⟩
        rw [List.append_assoc, List.cons_append, decode_gpio_put, if_neg hcs, key,
          List.singleton_append, decode_gpio_put, if_neg hcs]
  · have hset : set_dc 1 t = gpio_put t.g.config.pin_dc 1 t := by
      simp [set_dc, hm]
    rw [hset] at hg hl
    have hl' : w.hw.log = t.hw.log ++ (.gpio_put t.g.config.pin_dc 1 ::
        .gpio_put t.g.config.pin_cs 0 ::
          ((List.range' 0 n).map fun k => byte_event t.g (p k).val)
          ++ [.gpio_put t.g.config.pin_cs 1]) := by
      rw [hl]; simp [gpio_put, emit]
    have hg' : w.g = t.g := hg
    refine ⟨by rw [hg'], by rw [hg'], by rw [hg'], by rw [hg'], by rw [hg'], ?_,
      fun hw => ⟨_, hl', ?_⟩⟩
    · rw [hg', if_neg hm]
    · have hcs : ¬ t.g.config.pin_cs = t.g.config.pin_dc := by
        rcases hw with h | h
        · exact absurd h hm
        · exact fun e => h e.symm
      intro dc
      refine ⟨1, fun rest => ?_⟩
      rw [List.append_assoc, List.cons_append, List.cons_append, decode_gpio_put,
        if_pos rfl, decode_gpio_put, if_neg hcs, decode_bytes_4wire t.g.config.pin_dc t.g hm,
        List.singleton_append, decode_gpio_put, if_neg hcs, List.range_eq_range']

theorem sent_write_data_buf (p : Nat → Byte) (len : Nat) (hlen : 0 < len % 65536) (s : State) :
    Sent s (ssd1681_write_data_buf p len s)
      ((List.range (len % 65536)).map fun k => Xfer.data (p k).val) := by
  have h := (sent_set_spi_mode_and_clk s.g.config s).trans
    (sent_data_bytes p (len % 65536) hlen _)
  exact h

/-! ## Waiting for the panel -/

theorem wait_busy_loop_events (n : Nat) (s : State) :
    (wait_busy_loop n s).g = s.g ∧
    ∃ evs, (wait_busy_loop n s).hw.log = s.hw.log ++ evs ∧ ∀ e ∈ evs, is_poll e = true := by
  induction n generalizing s with
  | zero => exact ⟨rfl, [], by simp [wait_busy_loop], by simp⟩
  | succ n ih =>
    rw [wait_busy_loop]
    by_cases hb : (gpio_get s.g.config.pin_busy s).1 = true
    · simp only [hb, if_true]
      by_cases hn : n = 0
      · simp only [hn, if_true]
        exact ⟨rfl, [.gpio_get s.g.config.pin_busy (s.hw.busy_level s.hw.gpio_reads),
          .sleep_us 10], by simp [sleep_us, emit, gpio_get], by simp [is_poll]⟩
      · simp only [hn, if_false]
        obtain ⟨hg, evs, hl, he⟩ := ih (sleep_us 10 (gpio_get s.g.config.pin_busy s).2)
        refine ⟨by rw [hg]; rfl, .gpio_get s.g.config.pin_busy (s.hw.busy_level s.hw.gpio_reads)
          :: .sleep_us 10 :: evs, by rw [hl]; simp [sleep_us, emit, gpio_get], ?_⟩
        intro e hmem
        simp only [List.mem_cons] at hmem
        rcases hmem with rfl | rfl | hmem
        · rfl
        · rfl
        · exact he e hmem
    · simp only [hb, if_false]
      exact ⟨rfl, [.gpio_get s.g.config.pin_busy (s.hw.busy_level s.hw.gpio_reads)],
        by simp [gpio_get], by simp [is_poll]⟩

theorem quiet_of_is_poll (e : Event) (h : is_poll e = true) : quiet e = true := by
  cases e <;> simp_all [is_poll, quiet]

/-- What `ssd1681_wait_busy` logs: polls, then `sleep_us(100)`. -/
theorem wait_busy_events (s : State) :
    (ssd1681_wait_busy s).g = s.g ∧
    ∃ evs, (ssd1681_wait_busy s).hw.log = s.hw.log ++ (evs ++ [.sleep_us 100])
      ∧ ∀ e ∈ evs, is_poll e = true := by
  obtain ⟨hg, evs, hl, he⟩ := wait_busy_loop_events 1000000 s
  exact ⟨by simp [ssd1681_wait_busy, sleep_us, emit, hg], evs,
    by simp [ssd1681_wait_busy, sleep_us, emit, hl], he⟩

theorem sent_wait_busy (s : State) : Sent s (ssd1681_wait_busy s) [.wait] := by
  obtain ⟨hg, evs, hl, he⟩ := wait_busy_events s
  refine ⟨by rw [hg], by rw [hg], by rw [hg], by rw [hg], by rw [hg], ?_, fun _ => ⟨_, hl, ?_⟩⟩
  · rw [hg]; simp [last_dc]
  · have h1 : Decodes s.g.config.pin_dc evs [] :=
      Decodes.of_quiet _ _ (fun e h => quiet_of_is_poll e (he e h))
    have h2 : Decodes s.g.config.pin_dc [.sleep_us 100] [.wait] :=
      fun dc => ⟨dc, fun rest => by simp [decode]⟩
    exact h1.append h2

theorem sent_iterate (f : State → State) (x : Xfer) (h : ∀ s, Sent s (f s) [x]) (n : Nat)
    (s : State) : Sent s (Nat.iterate f n s) (List.replicate n x) := by
  induction n generalizing s with
  | zero => exact Sent.refl s
  | succ n ih => exact (h s).trans (ih (f s))

/-! ## Transfers of the driver operations -/

theorem Sent.cast {s t : State} {xs ys : List Xfer} (h : Sent s t xs) (e : xs = ys) :
    Sent s t ys := e ▸ h

/-- The transfers read off the events logged between `s` and `t`. -/
theorem Sent.decode_emitted {s t : State} {xs : List Xfer} (h : Sent s t xs)
    (hw : wired s.g.config) (dc : Nat) :
    decode s.g.config.pin_dc dc (emitted s t) = xs := by
  obtain ⟨evs, hl, hd⟩ := h.2.2.2.2.2.2 hw
  have : emitted s t = evs := by
    unfold emitted
    rw [hl, List.drop_left]
  rw [this]
  exact hd.result dc

theorem Sent.g_eq {s t u : State} {xs ys : List Xfer} (h1 : Sent s t xs) (h2 : Sent s u ys)
    (hd : ∀ d, last_dc xs d = last_dc ys d) : t.g = u.g := by
  obtain ⟨c1, i1, p1, b1, r1, d1, _⟩ := h1
  obtain ⟨c2, i2, p2, b2, r2, d2, _⟩ := h2
  have hdc : t.g.dc_state = u.g.dc_state := by rw [d1, d2, hd]
  cases ht : t.g
  cases hu : u.g
  simp_all

theorem sent_reset (s : State) : Sent s (ssd1681_reset s) [] :=
  (((((sent_gpio_put _ _ s).trans (sent_sleep_ms _ _)).trans (sent_gpio_put _ _ _)).trans
    (sent_sleep_ms _ _)).trans (sent_gpio_put _ _ _)).trans (sent_sleep_ms _ _)

theorem sent_set_window_full (s : State) :
    Sent s (ssd1681_set_window 0 0 (DISPLAY_WIDTH - 1) (DISPLAY_HEIGHT - 1) s)
      [.cmd 0x44, .data 0x00, .data 0x18, .cmd 0x45, .data 0x00, .data 0x00, .data 0xC7,
        .data 0x00] := by
  have h := (((((((sent_write_cmd CMD_SET_RAM_X_START_END s).trans
    (sent_write_data ((0 % 256) / 8) _)).trans
    (sent_write_data (((DISPLAY_WIDTH - 1) % 256) / 8) _)).trans
    (sent_write_cmd CMD_SET_RAM_Y_START_END _)).trans
    (sent_write_data ((0 % 256) &&& 0xFF) _)).trans
    (sent_write_data (((0 % 256) >>> 8) &&& 0xFF) _)).trans
    (sent_write_data (((DISPLAY_HEIGHT - 1) % 256) &&& 0xFF) _)).trans
    (sent_write_data ((((DISPLAY_HEIGHT - 1) % 256) >>> 8) &&& 0xFF) _)
  exact h.cast (by decide)

theorem sent_set_cursor_origin (s : State) :
    Sent s (ssd1681_set_cursor 0 0 s)
      [.cmd 0x4E, .data 0x00, .cmd 0x4F, .data 0x00, .data 0x00] := by
  have h := ((((sent_write_cmd CMD_SET_RAM_X_ADDRESS_COUNTER s).trans
    (sent_write_data ((0 % 256) / 8) _)).trans
    (sent_write_cmd CMD_SET_RAM_Y_ADDRESS_COUNTER _)).trans
    (sent_write_data ((0 % 256) &&& 0xFF) _)).trans
    (sent_write_data (((0 % 256) >>> 8) &&& 0xFF) _)
  exact h.cast (by decide)

/-- The six transfers that start a refresh. -/
theorem sent_activation (b : Nat) (hb : b < 256) (s : State) :
    Sent s (ssd1681_write_cmd CMD_MASTER_ACTIVATION (ssd1681_write_data b
      (ssd1681_write_cmd CMD_DISPLAY_UPDATE_CONTROL_2 (ssd1681_write_data 0x80
        (ssd1681_write_data 0x00 (ssd1681_write_cmd CMD_DISPLAY_UPDATE_CONTROL s))))))
      (activation_log b) := by
  have h := (((((sent_write_cmd CMD_DISPLAY_UPDATE_CONTROL s).trans
    (sent_write_data 0x00 _)).trans (sent_write_data 0x80 _)).trans
    (sent_write_cmd CMD_DISPLAY_UPDATE_CONTROL_2 _)).trans (sent_write_data b _)).trans
    (sent_write_cmd CMD_MASTER_ACTIVATION _)
  exact h.cast (by simp [activation_log, Nat.mod_eq_of_lt hb, CMD_DISPLAY_UPDATE_CONTROL,
    CMD_DISPLAY_UPDATE_CONTROL_2, CMD_MASTER_ACTIVATION])

/-- The transfers of `ssd1681_write_buffer` on an initialised driver. -/
theorem write_buffer_sent (c : Nat) (s : State) (hinit : s.g.initialized = true) :
    (ssd1681_write_buffer c s).1 = 0 ∧
    Sent s (ssd1681_write_buffer c s).2 (.wait :: write_buffer_log c s.g) := by
  unfold ssd1681_write_buffer
  rw [if_neg (by simp [hinit])]
  refine ⟨rfl, ?_⟩
  have hlen : 0 < DISPLAY_HEIGHT * BYTES_PER_ROW % 65536 := by decide
  have h := ((((sent_wait_busy s).trans (sent_set_window_full _)).trans
    (sent_set_cursor_origin _)).trans
    (sent_write_cmd (if c = SSD1681_COLOR_BLACK then CMD_WRITE_RAM_BW else CMD_WRITE_RAM_RED) _)).trans
    (sent_write_data_buf (gram c s.g) (DISPLAY_HEIGHT * BYTES_PER_ROW) hlen _)
  refine h.cast ?_
  have e : DISPLAY_HEIGHT * BYTES_PER_ROW % 65536 = 5000 := by decide
  rw [e]
  unfold write_buffer_log window_cursor_log plane_log
  by_cases hc : c = SSD1681_COLOR_BLACK
  · simp [hc, CMD_WRITE_RAM_BW]
  · simp [hc, CMD_WRITE_RAM_RED]

/-- Status and transfers of `ssd1681_update` on an initialised driver, by update type. -/
theorem update_sent (t : Nat) (s : State) (hinit : s.g.initialized = true) :
    (t = 0 → (ssd1681_update t s).1 = 0 ∧
      Sent s (ssd1681_update t s).2 (.wait :: activation_log 0xFE)) ∧
    (t = 1 → (ssd1681_update t s).1 = 0 ∧
      Sent s (ssd1681_update t s).2 (.wait :: activation_log 0xF6)) ∧
    (t = 2 → ssd1681_update t s = (-3, ssd1681_wait_busy s)) ∧
    (t = 3 → (ssd1681_update t s).1 = 0 ∧
      Sent s (ssd1681_update t s).2
        (.wait :: activation_log 0xF6 ++ .wait :: activation_log 0xF6)) ∧
    (4 ≤ t → ssd1681_update t s = (-2, ssd1681_wait_busy s)) := by
  unfold ssd1681_update
  rw [if_neg (by simp [hinit])]
  dsimp only
  unfold SSD1681_UPDATE_CLEAN_FULL SSD1681_UPDATE_FAST_PARTIAL SSD1681_UPDATE_FAST_FULL
    SSD1681_UPDATE_CLEAN_FULL_AGGRESSIVE
  refine ⟨?_, ?_, ?_, ?_, ?_⟩
  · rintro rfl
    rw [if_neg (by decide), if_pos rfl]
    exact ⟨rfl, (sent_wait_busy s).trans (sent_activation 0xFE (by decide) _)⟩
  · rintro rfl
    rw [if_pos rfl]
    exact ⟨rfl, (sent_wait_busy s).trans (sent_activation 0xF6 (by decide) _)⟩
  · rintro rfl
    rw [if_neg (by decide), if_neg (by decide), if_pos rfl]
  · rintro rfl
    rw [if_neg (by decide), if_neg (by decide), if_neg (by decide), if_pos rfl]
    exact ⟨rfl, (((sent_wait_busy s).trans (sent_activation 0xF6 (by decide) _)).trans
      (sent_wait_busy _)).trans (sent_activation 0xF6 (by decide) _)⟩
  · intro h
    rw [if_neg (by omega), if_neg (by omega), if_neg (by omega), if_neg (by omega)]

theorem Sent.gram_eq {s u : State} {xs : List Xfer} (h : Sent s u xs) (c : Nat) :
    gram c u.g = gram c s.g := by
  unfold gram
  rw [h.2.2.2.1, h.2.2.2.2.1]

theorem Sent.write_buffer_log_eq {s u : State} {xs : List Xfer} (h : Sent s u xs) (c : Nat) :
    write_buffer_log c u.g = write_buffer_log c s.g := by
  unfold write_buffer_log
  rw [h.gram_eq]

/-- Status and transfers of `ssd1681_write_buffer_and_update_if_ready` on an
initialised driver whose busy pin reads not-busy at the call. -/
theorem write_buffer_and_update_sent (t : Nat) (s : State) (hinit : s.g.initialized = true)
    (hready : s.hw.busy_level s.hw.gpio_reads = false) :
    (t = 0 → (ssd1681_write_buffer_and_update_if_ready t s).1 = 0 ∧
      Sent s (ssd1681_write_buffer_and_update_if_ready t s).2
        (.wait :: write_buffer_log 0 s.g ++ activation_log 0xFE)) ∧
    (t = 1 → (ssd1681_write_buffer_and_update_if_ready t s).1 = 0 ∧
      Sent s (ssd1681_write_buffer_and_update_if_ready t s).2
        (.wait :: write_buffer_log 0 s.g ++ activation_log 0xF6)) ∧
    (t = 2 → (ssd1681_write_buffer_and_update_if_ready t s).1 = 0 ∧
      Sent s (ssd1681_write_buffer_and_update_if_ready t s).2
        (.cmd 0x24 :: List.replicate 5000 (.data 0xFF) ++ activation_log 0xFE
          ++ .wait :: .wait :: write_buffer_log 0 s.g ++ activation_log 0xFE)) ∧
    (t = 3 → (ssd1681_write_buffer_and_update_if_ready t s).1 = 0 ∧
      Sent s (ssd1681_write_buffer_and_update_if_ready t s).2
        (.wait :: write_buffer_log 0 s.g ++ activation_log 0xF6
          ++ .wait :: activation_log 0xF6)) ∧
    (4 ≤ t → (ssd1681_write_buffer_and_update_if_ready t s).1 = -2) := by
  have hr : (gpio_get s.g.config.pin_busy s).1 = false := hready
  have h0 : Sent s (gpio_get s.g.config.pin_busy s).2 [] := sent_gpio_get _ s
  have hi : (gpio_get s.g.config.pin_busy s).2.g.initialized = true := hinit
  have hgram : ∀ u : State, Sent s u [] → write_buffer_log 0 u.g = write_buffer_log 0 s.g :=
    fun u hu => hu.write_buffer_log_eq 0
  unfold ssd1681_write_buffer_and_update_if_ready
  rw [if_neg (by simp [hinit])]
  dsimp only
  rw [if_neg (by simp [hr])]
  unfold SSD1681_UPDATE_CLEAN_FULL SSD1681_UPDATE_FAST_PARTIAL SSD1681_UPDATE_FAST_FULL
    SSD1681_UPDATE_CLEAN_FULL_AGGRESSIVE
  refine ⟨?_, ?_, ?_, ?_, ?_⟩
  · rintro rfl
    rw [if_neg (by decide), if_pos rfl]
    have hb := (write_buffer_sent SSD1681_COLOR_BLACK _ hi).2
    exact ⟨rfl, ((h0.trans hb).trans (sent_activation 0xFE (by decide) _)).cast
      (by simp [SSD1681_COLOR_BLACK, hgram _ h0])⟩
  · rintro rfl
    rw [if_pos rfl]
    have hb := (write_buffer_sent SSD1681_COLOR_BLACK _ hi).2
    exact ⟨rfl, ((h0.trans hb).trans (sent_activation 0xF6 (by decide) _)).cast
      (by simp [SSD1681_COLOR_BLACK, hgram _ h0])⟩
  · rintro rfl
    rw [if_neg (by decide), if_neg (by decide), if_pos rfl]
    have h1 := ((((h0.trans (sent_write_cmd CMD_WRITE_RAM_BW _)).trans
      (sent_iterate (ssd1681_write_data 0xFF) (.data (0xFF % 256))
        (fun u => sent_write_data 0xFF u) (DISPLAY_HEIGHT * BYTES_PER_ROW) _)).trans
      (sent_activation 0xFE (by decide) _)).trans (sent_wait_busy _))
    have hi1 := h1.2.1.trans hinit
    have hb := (write_buffer_sent SSD1681_COLOR_BLACK _ hi1).2
    rw [h1.write_buffer_log_eq] at hb
    refine ⟨rfl, ((h1.trans hb).trans (sent_activation 0xFE (by decide) _)).cast ?_⟩
    have e : DISPLAY_HEIGHT * BYTES_PER_ROW = 5000 := by decide
    have e1 : CMD_WRITE_RAM_BW % 256 = 0x24 := by decide
    have e2 : 0xFF % 256 = 0xFF := by decide
    rw [e, e1, e2]
    simp only [List.nil_append, List.append_assoc, List.cons_append, List.singleton_append]
    rfl
  · rintro rfl
    rw [if_neg (by decide), if_neg (by decide), if_neg (by decide), if_pos rfl]
    have hb := (write_buffer_sent SSD1681_COLOR_BLACK _ hi).2
    exact ⟨rfl, ((((h0.trans hb).trans (sent_activation 0xF6 (by decide) _)).trans
      (sent_wait_busy _)).trans (sent_activation 0xF6 (by decide) _)).cast
      (by simp [SSD1681_COLOR_BLACK, hgram _ h0])⟩
  · intro h
    rw [if_neg (by omega), if_neg (by omega), if_neg (by omega), if_neg (by omega)]

/-! ## Claims on initialisation and refresh -/

/-- The status of `ssd1681_init` with a configuration on a driver that is not initialised. -/
theorem init_status_cases (cfg : Config) (s : State) (hi : s.g.initialized = false) :
    (s.hw.achieved cfg.spi_baudrate = 0 → (ssd1681_init (some cfg) s).1 = -3) ∧
    (s.hw.achieved cfg.spi_baudrate ≠ 0 → (ssd1681_init (some cfg) s).1 = 0) := by
  unfold ssd1681_init
  dsimp only
  rw [if_neg (by simp [hi])]
  split_ifs <;> constructor <;> intro h <;>
    first
    | rfl
    | (have h1 : s.hw.achieved cfg.spi_baudrate = 0 := by assumption
       exact absurd h1 h)
    | (have h1 : ¬ s.hw.achieved cfg.spi_baudrate = 0 := by assumption
       exact absurd h h1)

/-- The status of `ssd1681_init`. -/
theorem init_status_zero_iff (config : Option Config) (s : State) :
    (ssd1681_init config s).1 = 0 ↔
      ∃ cfg, config = some cfg ∧ s.g.initialized = false ∧ s.hw.achieved cfg.spi_baudrate ≠ 0 := by
  cases config with
  | none =>
    have e : ssd1681_init none s = (-1, s) := rfl
    rw [e]
    constructor
    · intro h
      simp at h
    · rintro ⟨_, hc, _⟩
      cases hc
  | some cfg =>
    by_cases hi : s.g.initialized = true
    · have : ssd1681_init (some cfg) s = (-2, s) := by
        unfold ssd1681_init
        dsimp only
        rw [if_pos hi]
      rw [this]
      constructor
      · intro h
        simp at h
      · rintro ⟨_, _, hf, _⟩
        rw [hi] at hf
        cases hf
    · have hi' : s.g.initialized = false := by simpa using hi
      obtain ⟨hz, hnz⟩ := init_status_cases cfg s hi'
      by_cases h0 : s.hw.achieved cfg.spi_baudrate = 0
      · rw [hz h0]
        constructor
        · intro h
          simp at h
        · rintro ⟨cfg', hc, _, hne⟩
          cases hc
          exact absurd h0 hne
      · rw [hnz h0]
        exact ⟨fun _ => ⟨cfg, rfl, hi', h0⟩, fun _ => rfl⟩

/-- A failing `ssd1681_init` leaves both planes as they were. -/
theorem init_failure_keeps_planes (config : Option Config) (s : State)
    (h : (ssd1681_init config s).1 ≠ 0) :
    (ssd1681_init config s).2.g.black_gram = s.g.black_gram ∧
    (ssd1681_init config s).2.g.red_gram = s.g.red_gram := by
  cases config with
  | none => exact ⟨rfl, rfl⟩
  | some cfg =>
    unfold ssd1681_init at h ⊢
    dsimp only at h ⊢
    by_cases hi : s.g.initialized = true
    · rw [if_pos hi]
      exact ⟨rfl, rfl⟩
    · rw [if_neg hi] at h ⊢
      split_ifs at h ⊢ <;> first | exact absurd rfl h | exact ⟨rfl, rfl⟩

/-- C11: `ssd1681_init(config)` returns 0 exactly when `config` is non-null,
the driver is not yet initialised and the bus initialisation reports a
non-zero achieved rate; when it returns a non-zero status the `initialized`
flag and both planes are as before, and on an initialised driver the call
changes nothing at all. -/
theorem init_succeeds_iff_and_failure_is_harmless (config : Option Config) (s : State) :
    ((ssd1681_init config s).1 = 0 ↔
      ∃ cfg, config = some cfg ∧ s.g.initialized = false
        ∧ s.hw.achieved cfg.spi_baudrate ≠ 0) ∧
    ((ssd1681_init config s).1 ≠ 0 →
      (ssd1681_init config s).2.g.initialized = s.g.initialized ∧
      (ssd1681_init config s).2.g.black_gram = s.g.black_gram ∧
      (ssd1681_init config s).2.g.red_gram = s.g.red_gram) ∧
    (s.g.initialized = true → (ssd1681_init config s).2 = s) := by
  refine ⟨init_status_zero_iff config s, fun h => ⟨init_failure_keeps_flag config s h,
    init_failure_keeps_planes config s h⟩, fun hi => ?_⟩
  cases config with
  | none => rfl
  | some cfg =>
    unfold ssd1681_init
    dsimp only
    rw [if_pos hi]

theorem init_succeeds_iff_and_failure_is_harmless_witness :
    ((ssd1681_init none st_zero).1 ≠ 0 ∧ st_ready.g.initialized = true) ∧
    (((ssd1681_init none st_zero).1 = 0 ↔
      ∃ cfg : Config, (none : Option Config) = some cfg ∧ st_zero.g.initialized = false
        ∧ st_zero.hw.achieved cfg.spi_baudrate ≠ 0) ∧
    ((ssd1681_init none st_zero).2.g.initialized = st_zero.g.initialized ∧
      (ssd1681_init none st_zero).2.g.black_gram = st_zero.g.black_gram ∧
      (ssd1681_init none st_zero).2.g.red_gram = st_zero.g.red_gram) ∧
    (ssd1681_init (some ssd1681_get_default_config_4wire) st_ready).2 = st_ready) :=
  ⟨⟨by decide, rfl⟩,
    (init_succeeds_iff_and_failure_is_harmless none st_zero).1,
    (init_succeeds_iff_and_failure_is_harmless none st_zero).2.1 (by decide),
    (init_succeeds_iff_and_failure_is_harmless (some ssd1681_get_default_config_4wire)
      st_ready).2.2 rfl⟩

theorem is_poll_not_write (e : Event) (h : is_poll e = true) :
    is_bus_write e = false ∧ is_pin_write e = false := by
  cases e <;> simp_all [is_poll, is_bus_write, is_pin_write]

/-- The events of a wait-for-ready are neither bus writes nor pin writes. -/
theorem wait_busy_emits_no_write (s : State) :
    ∀ e ∈ emitted s (ssd1681_wait_busy s), is_bus_write e = false ∧ is_pin_write e = false := by
  obtain ⟨_, evs, hl, he⟩ := wait_busy_events s
  intro e hmem
  unfold emitted at hmem
  rw [hl, List.drop_left] at hmem
  rcases List.mem_append.mp hmem with h | h
  · exact is_poll_not_write e (he e h)
  · rw [List.mem_singleton.mp h]
    exact ⟨rfl, rfl⟩

/-- C12: on an initialised driver `ssd1681_update(t)` returns 0 exactly for
`t` = 0 (fast-partial), 1 (clean-full) and 3 (clean-full-aggressive); for
`t` = 2 (fast-full) and for `t ≥ 4` it returns a non-zero status, and none of
the SDK calls it makes is a bus write or a pin write. -/
theorem update_status_and_silence (t : Nat) (s : State) (hinit : s.g.initialized = true) :
    ((ssd1681_update t s).1 = 0 ↔ t = 0 ∨ t = 1 ∨ t = 3) ∧
    (t = 2 ∨ 4 ≤ t →
      (ssd1681_update t s).1 ≠ 0 ∧
      ∀ e ∈ emitted s (ssd1681_update t s).2, is_bus_write e = false ∧ is_pin_write e = false) := by
  obtain ⟨h0, h1, h2, h3, h4⟩ := update_sent t s hinit
  have hcases : t = 0 ∨ t = 1 ∨ t = 2 ∨ t = 3 ∨ 4 ≤ t := by omega
  constructor
  · rcases hcases with h | h | h | h | h
    · subst h; simp [(h0 rfl).1]
    · subst h; simp [(h1 rfl).1]
    · subst h; rw [h2 rfl]; simp
    · subst h; simp [(h3 rfl).1]
    · rw [h4 h]
      constructor
      · intro hh; simp at hh
      · intro hh; omega
  · intro ht
    have hu : ssd1681_update t s = (-3, ssd1681_wait_busy s)
        ∨ ssd1681_update t s = (-2, ssd1681_wait_busy s) := by
      rcases ht with h | h
      · exact Or.inl (h2 h)
      · exact Or.inr (h4 h)
    rcases hu with hu | hu <;> rw [hu] <;>
      exact ⟨by simp, wait_busy_emits_no_write s⟩

theorem update_status_and_silence_witness :
    st_ready.g.initialized = true ∧ (2 = 2 ∨ 4 ≤ 2) ∧
    ((ssd1681_update 2 st_ready).1 = 0 ↔ 2 = 0 ∨ 2 = 1 ∨ 2 = 3) ∧
    ((ssd1681_update 2 st_ready).1 ≠ 0 ∧
      ∀ e ∈ emitted st_ready (ssd1681_update 2 st_ready).2,
        is_bus_write e = false ∧ is_pin_write e = false) :=
  ⟨rfl, Or.inl rfl, (update_status_and_silence 2 st_ready rfl).1,
    (update_status_and_silence 2 st_ready rfl).2 (Or.inl rfl)⟩

/-- C13: on an initialised driver (wired so that the mode can be read off the
bus: 3-wire, or a D/C pin other than chip-select) the transfers of
`ssd1681_update(t)` are its opening wait-for-ready followed by: for
fast-partial `cmd 0x21, data 0x00, data 0x80, cmd 0x22, data 0xFE, cmd 0x20`;
for clean-full the same with `data 0xF6`; for clean-full-aggressive the
clean-full six twice, with a wait-for-ready after the first `cmd 0x20`. -/
theorem update_transfers (s : State) (hinit : s.g.initialized = true)
    (hw : wired s.g.config) (dc : Nat) :
    decode s.g.config.pin_dc dc (emitted s (ssd1681_update SSD1681_UPDATE_FAST_PARTIAL s).2)
      = [.wait, .cmd 0x21, .data 0x00, .data 0x80, .cmd 0x22, .data 0xFE, .cmd 0x20] ∧
    decode s.g.config.pin_dc dc (emitted s (ssd1681_update SSD1681_UPDATE_CLEAN_FULL s).2)
      = [.wait, .cmd 0x21, .data 0x00, .data 0x80, .cmd 0x22, .data 0xF6, .cmd 0x20] ∧
    decode s.g.config.pin_dc dc
        (emitted s (ssd1681_update SSD1681_UPDATE_CLEAN_FULL_AGGRESSIVE s).2)
      = [.wait, .cmd 0x21, .data 0x00, .data 0x80, .cmd 0x22, .data 0xF6, .cmd 0x20,
         .wait, .cmd 0x21, .data 0x00, .data 0x80, .cmd 0x22, .data 0xF6, .cmd 0x20] ∧
    bytes_of (decode s.g.config.pin_dc dc
        (emitted s (ssd1681_update SSD1681_UPDATE_FAST_PARTIAL s).2))
      = [.cmd 0x21, .data 0x00, .data 0x80, .cmd 0x22, .data 0xFE, .cmd 0x20] ∧
    bytes_of (decode s.g.config.pin_dc dc
        (emitted s (ssd1681_update SSD1681_UPDATE_CLEAN_FULL s).2))
      = [.cmd 0x21, .data 0x00, .data 0x80, .cmd 0x22, .data 0xF6, .cmd 0x20] ∧
    bytes_of (decode s.g.config.pin_dc dc
        (emitted s (ssd1681_update SSD1681_UPDATE_CLEAN_FULL_AGGRESSIVE s).2))
      = [.cmd 0x21, .data 0x00, .data 0x80, .cmd 0x22, .data 0xF6, .cmd 0x20,
         .cmd 0x21, .data 0x00, .data 0x80, .cmd 0x22, .data 0xF6, .cmd 0x20] := by
  have h0 := ((update_sent 0 s hinit).1 rfl).2.decode_emitted hw dc
  have h1 := ((update_sent 1 s hinit).2.1 rfl).2.decode_emitted hw dc
  have h3 := ((update_sent 3 s hinit).2.2.2.1 rfl).2.decode_emitted hw dc
  refine ⟨h0, h1, h3, ?_, ?_, ?_⟩
  · rw [show SSD1681_UPDATE_FAST_PARTIAL = 0 from rfl, h0]; rfl
  · rw [show SSD1681_UPDATE_CLEAN_FULL = 1 from rfl, h1]; rfl
  · rw [show SSD1681_UPDATE_CLEAN_FULL_AGGRESSIVE = 3 from rfl, h3]; rfl

theorem update_transfers_witness :
    st_ready.g.initialized = true ∧ wired st_ready.g.config ∧
    (decode st_ready.g.config.pin_dc 0
        (emitted st_ready (ssd1681_update SSD1681_UPDATE_FAST_PARTIAL st_ready).2)
      = [.wait, .cmd 0x21, .data 0x00, .data 0x80, .cmd 0x22, .data 0xFE, .cmd 0x20] ∧
    decode st_ready.g.config.pin_dc 0
        (emitted st_ready (ssd1681_update SSD1681_UPDATE_CLEAN_FULL st_ready).2)
      = [.wait, .cmd 0x21, .data 0x00, .data 0x80, .cmd 0x22, .data 0xF6, .cmd 0x20] ∧
    decode st_ready.g.config.pin_dc 0
        (emitted st_ready (ssd1681_update SSD1681_UPDATE_CLEAN_FULL_AGGRESSIVE st_ready).2)
      = [.wait, .cmd 0x21, .data 0x00, .data 0x80, .cmd 0x22, .data 0xF6, .cmd 0x20,
         .wait, .cmd 0x21, .data 0x00, .data 0x80, .cmd 0x22, .data 0xF6, .cmd 0x20] ∧
    bytes_of (decode st_ready.g.config.pin_dc 0
        (emitted st_ready (ssd1681_update SSD1681_UPDATE_FAST_PARTIAL st_ready).2))
      = [.cmd 0x21, .data 0x00, .data 0x80, .cmd 0x22, .data 0xFE, .cmd 0x20] ∧
    bytes_of (decode st_ready.g.config.pin_dc 0
        (emitted st_ready (ssd1681_update SSD1681_UPDATE_CLEAN_FULL st_ready).2))
      = [.cmd 0x21, .data 0x00, .data 0x80, .cmd 0x22, .data 0xF6, .cmd 0x20] ∧
    bytes_of (decode st_ready.g.config.pin_dc 0
        (emitted st_ready (ssd1681_update SSD1681_UPDATE_CLEAN_FULL_AGGRESSIVE st_ready).2))
      = [.cmd 0x21, .data 0x00, .data 0x80, .cmd 0x22, .data 0xF6, .cmd 0x20,
         .cmd 0x21, .data 0x00, .data 0x80, .cmd 0x22, .data 0xF6, .cmd 0x20]) :=
  ⟨rfl, Or.inr (by decide), update_transfers st_ready rfl (Or.inr (by decide)) 0⟩

/-- C14: on an initialised driver whose busy pin reads busy at the call,
`ssd1681_write_buffer_and_update_if_ready(t)` returns -1 for every `t`, the
only SDK call it makes is that one pin read (no bus write, no pin write), and
the driver record, both planes included, is unchanged. -/
theorem combined_update_when_busy (t : Nat) (s : State) (hinit : s.g.initialized = true)
    (hbusy : s.hw.busy_level s.hw.gpio_reads = true) :
    (ssd1681_write_buffer_and_update_if_ready t s).1 = -1 ∧
    (ssd1681_write_buffer_and_update_if_ready t s).2.g = s.g ∧
    emitted s (ssd1681_write_buffer_and_update_if_ready t s).2
      = [.gpio_get s.g.config.pin_busy true] := by
  have hr : (gpio_get s.g.config.pin_busy s).1 = true := hbusy
  have e : ssd1681_write_buffer_and_update_if_ready t s
      = (-1, (gpio_get s.g.config.pin_busy s).2) := by
    unfold ssd1681_write_buffer_and_update_if_ready
    rw [if_neg (by simp [hinit])]
    dsimp only
    rw [if_pos hr]
  rw [e]
  refine ⟨rfl, rfl, ?_⟩
  simp [emitted, gpio_get, hbusy]

theorem combined_update_when_busy_witness :
    st_busy.g.initialized = true ∧ st_busy.hw.busy_level st_busy.hw.gpio_reads = true ∧
    ((ssd1681_write_buffer_and_update_if_ready 2 st_busy).1 = -1 ∧
    (ssd1681_write_buffer_and_update_if_ready 2 st_busy).2.g = st_busy.g ∧
    emitted st_busy (ssd1681_write_buffer_and_update_if_ready 2 st_busy).2
      = [.gpio_get st_busy.g.config.pin_busy true]) :=
  ⟨rfl, rfl, combined_update_when_busy 2 st_busy rfl rfl⟩

theorem count_cmd_plane_log (p : Nat → Byte) (b : Nat) : (plane_log p).count (.cmd b) = 0 := by
  rw [List.count_eq_zero]
  unfold plane_log
  simp

theorem count_cmd_replicate_data (n b d : Nat) :
    (List.replicate n (Xfer.data d)).count (.cmd b) = 0 := by
  rw [List.count_eq_zero]
  intro h
  have := List.eq_of_mem_replicate h
  cases this

/-- C15: on an initialised driver (wired so that the mode can be read off the
bus) whose busy pin reads not-busy at the call,
`ssd1681_write_buffer_and_update_if_ready(fast-full)` returns 0 and its
transfers are: `cmd 0x24`, 5000 times `data 0xFF`, the six activation
transfers with `data 0xFE`, a wait-for-ready, all of what
`ssd1681_write_buffer(black)` sends (its own wait-for-ready, window, cursor,
`cmd 0x24` and the 5000 bytes of the black plane), and the six activation
transfers again.  `cmd 0x20` occurs exactly twice and both planes are unchanged. -/
theorem fast_full_combined_update (s : State) (hinit : s.g.initialized = true)
    (hw : wired s.g.config) (hready : s.hw.busy_level s.hw.gpio_reads = false) (dc : Nat) :
    (ssd1681_write_buffer_and_update_if_ready SSD1681_UPDATE_FAST_FULL s).1 = 0 ∧
    decode s.g.config.pin_dc dc
        (emitted s (ssd1681_write_buffer_and_update_if_ready SSD1681_UPDATE_FAST_FULL s).2)
      = .cmd 0x24 :: List.replicate 5000 (.data 0xFF)
        ++ [.cmd 0x21, .data 0x00, .data 0x80, .cmd 0x22, .data 0xFE, .cmd 0x20]
        ++ [.wait]
        ++ decode s.g.config.pin_dc dc (emitted s (ssd1681_write_buffer SSD1681_COLOR_BLACK s).2)
        ++ [.cmd 0x21, .data 0x00, .data 0x80, .cmd 0x22, .data 0xFE, .cmd 0x20] ∧
    decode s.g.config.pin_dc dc (emitted s (ssd1681_write_buffer SSD1681_COLOR_BLACK s).2)
      = [.wait, .cmd 0x44, .data 0x00, .data 0x18, .cmd 0x45, .data 0x00, .data 0x00, .data 0xC7,
          .data 0x00, .cmd 0x4E, .data 0x00, .cmd 0x4F, .data 0x00, .data 0x00, .cmd 0x24]
        ++ (List.range 5000).map (fun i => Xfer.data (s.g.black_gram i).val) ∧
    (decode s.g.config.pin_dc dc
        (emitted s (ssd1681_write_buffer_and_update_if_ready SSD1681_UPDATE_FAST_FULL s).2)).count
      (.cmd 0x20) = 2 ∧
    (ssd1681_write_buffer_and_update_if_ready SSD1681_UPDATE_FAST_FULL s).2.g.black_gram
      = s.g.black_gram ∧
    (ssd1681_write_buffer_and_update_if_ready SSD1681_UPDATE_FAST_FULL s).2.g.red_gram
      = s.g.red_gram := by
  obtain ⟨hst, hsent⟩ := (write_buffer_and_update_sent 2 s hinit hready).2.2.1 rfl
  have hwb := (write_buffer_sent SSD1681_COLOR_BLACK s hinit).2.decode_emitted hw dc
  have hlog := hsent.decode_emitted hw dc
  have hu : SSD1681_UPDATE_FAST_FULL = 2 := rfl
  rw [hu]
  refine ⟨hst, ?_, ?_, ?_, hsent.2.2.2.1, hsent.2.2.2.2.1⟩
  · rw [hlog, hwb]
    simp only [activation_log, List.append_assoc, List.cons_append, List.nil_append]
    rfl
  · rw [hwb]
    rfl
  · rw [hlog]
    simp only [write_buffer_log, List.count_cons, List.count_append, count_cmd_plane_log,
      count_cmd_replicate_data, activation_log, window_cursor_log, List.count_nil]
    simp [SSD1681_COLOR_BLACK]

theorem fast_full_combined_update_witness :
    st_ready.g.initialized = true ∧ wired st_ready.g.config ∧
    st_ready.hw.busy_level st_ready.hw.gpio_reads = false ∧
    ((ssd1681_write_buffer_and_update_if_ready SSD1681_UPDATE_FAST_FULL st_ready).1 = 0 ∧
    decode st_ready.g.config.pin_dc 0
        (emitted st_ready
          (ssd1681_write_buffer_and_update_if_ready SSD1681_UPDATE_FAST_FULL st_ready).2)
      = .cmd 0x24 :: List.replicate 5000 (.data 0xFF)
        ++ [.cmd 0x21, .data 0x00, .data 0x80, .cmd 0x22, .data 0xFE, .cmd 0x20]
        ++ [.wait]
        ++ decode st_ready.g.config.pin_dc 0
            (emitted st_ready (ssd1681_write_buffer SSD1681_COLOR_BLACK st_ready).2)
        ++ [.cmd 0x21, .data 0x00, .data 0x80, .cmd 0x22, .data 0xFE, .cmd 0x20] ∧
    decode st_ready.g.config.pin_dc 0
        (emitted st_ready (ssd1681_write_buffer SSD1681_COLOR_BLACK st_ready).2)
      = [.wait, .cmd 0x44, .data 0x00, .data 0x18, .cmd 0x45, .data 0x00, .data 0x00, .data 0xC7,
          .data 0x00, .cmd 0x4E, .data 0x00, .cmd 0x4F, .data 0x00, .data 0x00, .cmd 0x24]
        ++ (List.range 5000).map (fun i => Xfer.data (st_ready.g.black_gram i).val) ∧
    (decode st_ready.g.config.pin_dc 0
        (emitted st_ready
          (ssd1681_write_buffer_and_update_if_ready SSD1681_UPDATE_FAST_FULL st_ready).2)).count
      (.cmd 0x20) = 2 ∧
    (ssd1681_write_buffer_and_update_if_ready SSD1681_UPDATE_FAST_FULL st_ready).2.g.black_gram
      = st_ready.g.black_gram ∧
    (ssd1681_write_buffer_and_update_if_ready SSD1681_UPDATE_FAST_FULL st_ready).2.g.red_gram
      = st_ready.g.red_gram) :=
  ⟨rfl, Or.inr (by decide), rfl,
    fast_full_combined_update st_ready rfl (Or.inr (by decide)) rfl 0⟩

theorem bytes_of_append (xs ys : List Xfer) :
    bytes_of (xs ++ ys) = bytes_of xs ++ bytes_of ys := by
  simp [bytes_of, List.filter_append]

theorem bytes_of_wait_cons (xs : List Xfer) : bytes_of (.wait :: xs) = bytes_of xs := by
  simp [bytes_of]

theorem last_dc_activation (xs : List Xfer) (b d : Nat) :
    last_dc (xs ++ activation_log b) d = 0 := by
  rw [last_dc_append]
  rfl

theorem cmd_red_not_in_write_buffer_black (g : Driver) :
    Xfer.cmd 0x26 ∉ write_buffer_log 0 g := by
  simp [write_buffer_log, window_cursor_log, plane_log, SSD1681_COLOR_BLACK]

theorem cmd_red_not_in_activation (b : Nat) : Xfer.cmd 0x26 ∉ activation_log b := by
  simp [activation_log]

/-- Two runs from the same state that end in the same activation and agree on
the bytes before it send the same bytes and leave the same driver record. -/
theorem same_bytes_same_driver {s cu wb uu : State} {ws xs ys : List Xfer} (b : Nat)
    (hwb : Sent s wb ws) (hc : Sent s cu (xs ++ activation_log b))
    (hu : Sent wb uu (ys ++ activation_log b)) (hb : bytes_of xs = bytes_of (ws ++ ys))
    (hw : wired s.g.config) (dc : Nat) :
    bytes_of (decode s.g.config.pin_dc dc (emitted s cu))
      = bytes_of (decode s.g.config.pin_dc dc (emitted s uu)) ∧ cu.g = uu.g := by
  have hs2 := hwb.trans hu
  constructor
  · rw [hc.decode_emitted hw dc, hs2.decode_emitted hw dc, ← List.append_assoc,
      bytes_of_append, bytes_of_append, hb]
  · apply Sent.g_eq hc hs2
    intro d
    rw [← List.append_assoc, last_dc_activation, last_dc_activation]

/-- C16: for `t` fast-partial, clean-full or clean-full-aggressive, on an
initialised driver (wired so that the mode can be read off the bus) whose busy
pin reads not-busy at the call, `ssd1681_write_buffer_and_update_if_ready(t)`
returns 0, sends the same command and data bytes and leaves the same driver
record as `ssd1681_write_buffer(black)` followed by `ssd1681_update(t)`, both
of which return 0; `cmd 0x26` is not among its transfers. -/
theorem combined_update_matches_write_then_update (t : Nat) (s : State)
    (hinit : s.g.initialized = true) (hw : wired s.g.config)
    (hready : s.hw.busy_level s.hw.gpio_reads = false) (ht : t = 0 ∨ t = 1 ∨ t = 3) (dc : Nat) :
    (ssd1681_write_buffer_and_update_if_ready t s).1 = 0 ∧
    (ssd1681_write_buffer SSD1681_COLOR_BLACK s).1 = 0 ∧
    (ssd1681_update t (ssd1681_write_buffer SSD1681_COLOR_BLACK s).2).1 = 0 ∧
    bytes_of (decode s.g.config.pin_dc dc
        (emitted s (ssd1681_write_buffer_and_update_if_ready t s).2))
      = bytes_of (decode s.g.config.pin_dc dc
          (emitted s (ssd1681_update t (ssd1681_write_buffer SSD1681_COLOR_BLACK s).2).2)) ∧
    (ssd1681_write_buffer_and_update_if_ready t s).2.g
      = (ssd1681_update t (ssd1681_write_buffer SSD1681_COLOR_BLACK s).2).2.g ∧
    Xfer.cmd 0x26 ∉ decode s.g.config.pin_dc dc
      (emitted s (ssd1681_write_buffer_and_update_if_ready t s).2) := by
  obtain ⟨hwb1, hwb⟩ := write_buffer_sent SSD1681_COLOR_BLACK s hinit
  have hi2 : (ssd1681_write_buffer SSD1681_COLOR_BLACK s).2.g.initialized = true :=
    hwb.2.1.trans hinit
  obtain ⟨c0, c1, _, c3, _⟩ := write_buffer_and_update_sent t s hinit hready
  obtain ⟨u0, u1, _, u3, _⟩ := update_sent t (ssd1681_write_buffer SSD1681_COLOR_BLACK s).2 hi2
  have hnb := cmd_red_not_in_write_buffer_black s.g
  rcases ht with h | h | h
  · obtain ⟨hc1, hc⟩ := c0 h
    obtain ⟨hu1, hu⟩ := u0 h
    have hc' : Sent s _ ((.wait :: write_buffer_log 0 s.g) ++ activation_log 0xFE) := hc
    have hu' : Sent _ _ ([.wait] ++ activation_log 0xFE) := hu
    obtain ⟨e1, e2⟩ := same_bytes_same_driver 0xFE hwb hc' hu'
      (by rw [bytes_of_append, show bytes_of [Xfer.wait] = [] from rfl, List.append_nil]; rfl)
      hw dc
    refine ⟨hc1, hwb1, hu1, e1, e2, ?_⟩
    rw [hc.decode_emitted hw dc]
    simp [hnb, cmd_red_not_in_activation]
  · obtain ⟨hc1, hc⟩ := c1 h
    obtain ⟨hu1, hu⟩ := u1 h
    have hc' : Sent s _ ((.wait :: write_buffer_log 0 s.g) ++ activation_log 0xF6) := hc
    have hu' : Sent _ _ ([.wait] ++ activation_log 0xF6) := hu
    obtain ⟨e1, e2⟩ := same_bytes_same_driver 0xF6 hwb hc' hu'
      (by rw [bytes_of_append, show bytes_of [Xfer.wait] = [] from rfl, List.append_nil]; rfl)
      hw dc
    refine ⟨hc1, hwb1, hu1, e1, e2, ?_⟩
    rw [hc.decode_emitted hw dc]
    simp [hnb, cmd_red_not_in_activation]
  · obtain ⟨hc1, hc⟩ := c3 h
    obtain ⟨hu1, hu⟩ := u3 h
    have hc' : Sent s _ ((.wait :: write_buffer_log 0 s.g ++ activation_log 0xF6 ++ [.wait])
        ++ activation_log 0xF6) := hc.cast (by simp)
    have hu' : Sent _ _ ((.wait :: activation_log 0xF6 ++ [.wait]) ++ activation_log 0xF6) :=
      hu.cast (by simp)
    obtain ⟨e1, e2⟩ := same_bytes_same_driver 0xF6 hwb hc' hu'
      (by simp only [bytes_of_append, bytes_of_wait_cons, List.cons_append, List.nil_append,
            List.append_assoc]; rfl) hw dc
    refine ⟨hc1, hwb1, hu1, e1, e2, ?_⟩
    rw [hc.decode_emitted hw dc]
    simp [hnb, cmd_red_not_in_activation]

theorem combined_update_matches_write_then_update_witness :
    st_ready.g.initialized = true ∧ wired st_ready.g.config ∧
    st_ready.hw.busy_level st_ready.hw.gpio_reads = false ∧ (3 = 0 ∨ 3 = 1 ∨ 3 = 3) ∧
    ((ssd1681_write_buffer_and_update_if_ready 3 st_ready).1 = 0 ∧
    (ssd1681_write_buffer SSD1681_COLOR_BLACK st_ready).1 = 0 ∧
    (ssd1681_update 3 (ssd1681_write_buffer SSD1681_COLOR_BLACK st_ready).2).1 = 0 ∧
    bytes_of (decode st_ready.g.config.pin_dc 0
        (emitted st_ready (ssd1681_write_buffer_and_update_if_ready 3 st_ready).2))
      = bytes_of (decode st_ready.g.config.pin_dc 0
          (emitted st_ready
            (ssd1681_update 3 (ssd1681_write_buffer SSD1681_COLOR_BLACK st_ready).2).2)) ∧
    (ssd1681_write_buffer_and_update_if_ready 3 st_ready).2.g
      = (ssd1681_update 3 (ssd1681_write_buffer SSD1681_COLOR_BLACK st_ready).2).2.g ∧
    Xfer.cmd 0x26 ∉ decode st_ready.g.config.pin_dc 0
      (emitted st_ready (ssd1681_write_buffer_and_update_if_ready 3 st_ready).2)) :=
  ⟨rfl, Or.inr (by decide), rfl, Or.inr (Or.inr rfl),
    combined_update_matches_write_then_update 3 st_ready rfl (Or.inr (by decide)) rfl
      (Or.inr (Or.inr rfl)) 0⟩

/-- C17: on an initialised driver (wired so that the mode can be read off the
bus) `ssd1681_write_buffer(c)` returns 0 and its transfers are: a
wait-for-ready; `cmd 0x44, data 0x00, data 0x18`; `cmd 0x45, data 0x00, data
0x00, data 0xC7, data 0x00`; `cmd 0x4E, data 0x00`; `cmd 0x4F, data 0x00, data
0x00`; `cmd 0x24` when `c` is black and `cmd 0x26` otherwise; then bytes 0 to
4999 of plane `c` as data.  Neither plane changes. -/
theorem write_buffer_transfers (c : Nat) (s : State) (hinit : s.g.initialized = true)
    (hw : wired s.g.config) (dc : Nat) :
    (ssd1681_write_buffer c s).1 = 0 ∧
    decode s.g.config.pin_dc dc (emitted s (ssd1681_write_buffer c s).2)
      = [.wait, .cmd 0x44, .data 0x00, .data 0x18, .cmd 0x45, .data 0x00, .data 0x00, .data 0xC7,
          .data 0x00, .cmd 0x4E, .data 0x00, .cmd 0x4F, .data 0x00, .data 0x00,
          .cmd (if c = SSD1681_COLOR_BLACK then 0x24 else 0x26)]
        ++ (List.range 5000).map (fun i => Xfer.data (gram c s.g i).val) ∧
    (ssd1681_write_buffer c s).2.g.black_gram = s.g.black_gram ∧
    (ssd1681_write_buffer c s).2.g.red_gram = s.g.red_gram := by
  obtain ⟨h1, h2⟩ := write_buffer_sent c s hinit
  refine ⟨h1, ?_, h2.2.2.2.1, h2.2.2.2.2.1⟩
  rw [h2.decode_emitted hw dc]
  rfl

theorem write_buffer_transfers_witness :
    st_ready3.g.initialized = true ∧ wired st_ready3.g.config ∧
    ((ssd1681_write_buffer SSD1681_COLOR_RED st_ready3).1 = 0 ∧
    decode st_ready3.g.config.pin_dc 0
        (emitted st_ready3 (ssd1681_write_buffer SSD1681_COLOR_RED st_ready3).2)
      = [.wait, .cmd 0x44, .data 0x00, .data 0x18, .cmd 0x45, .data 0x00, .data 0x00, .data 0xC7,
          .data 0x00, .cmd 0x4E, .data 0x00, .cmd 0x4F, .data 0x00, .data 0x00,
          .cmd (if SSD1681_COLOR_RED = SSD1681_COLOR_BLACK then 0x24 else 0x26)]
        ++ (List.range 5000).map (fun i => Xfer.data (gram SSD1681_COLOR_RED st_ready3.g i).val) ∧
    (ssd1681_write_buffer SSD1681_COLOR_RED st_ready3).2.g.black_gram = st_ready3.g.black_gram ∧
    (ssd1681_write_buffer SSD1681_COLOR_RED st_ready3).2.g.red_gram = st_ready3.g.red_gram) :=
  ⟨rfl, Or.inl rfl, write_buffer_transfers SSD1681_COLOR_RED st_ready3 rfl (Or.inl rfl) 0⟩

/-! ## Initialisation and the end-to-end scenario -/

/-- A successful `ssd1681_init`, step by step. -/
theorem init_ok_eq (cfg : Config) (s : State) (hi : s.g.initialized = false)
    (h0 : s.hw.achieved cfg.spi_baudrate ≠ 0) :
    ssd1681_init (some cfg) s
      = (0, init_finish (init_sequence (init_pins cfg (ssd1681_set_spi_mode_and_clk
          (spi_init (init_begin cfg s).g.spi cfg.spi_baudrate (init_begin cfg s)).2.g.config
          (spi_init (init_begin cfg s).g.spi cfg.spi_baudrate (init_begin cfg s)).2)))) := by
  have hi' : ¬ s.g.initialized = true := by simp [hi]
  unfold ssd1681_init
  show (if s.g.initialized = true then _ else _) = _
  rw [if_neg hi']
  show (if s.hw.achieved cfg.spi_baudrate = 0 then _ else _) = _
  rw [if_neg h0]
  unfold init_finish init_begin
  rfl

theorem sent_spi_init (spi : SpiInst) (baud : Nat) (s : State) :
    Sent s (spi_init spi baud s).2 [] :=
  Sent.of_silent [.spi_init spi baud] rfl rfl (Decodes.of_quiet _ _ (by simp [quiet]))

theorem sent_init_pins (config : Config) (s : State) : Sent s (init_pins config s) [] := by
  unfold init_pins
  have h1 : Sent s (gpio_put config.pin_cs 1 (emit (.gpio_set_dir config.pin_cs true)
      (emit (.gpio_init config.pin_cs) (emit (.gpio_set_function_spi config.pin_sck)
        (emit (.gpio_set_function_spi config.pin_mosi) s))))) [] :=
    ((((sent_emit_quiet (.gpio_set_function_spi config.pin_mosi) s rfl).trans
      (sent_emit_quiet (.gpio_set_function_spi config.pin_sck) _ rfl)).trans
      (sent_emit_quiet (.gpio_init config.pin_cs) _ rfl)).trans
      (sent_emit_quiet (.gpio_set_dir config.pin_cs true) _ rfl)).trans (sent_gpio_put _ _ _)
  have h2 : ∀ t : State, Sent t (if config.spi_mode = SSD1681_SPI_4WIRE then
      gpio_put config.pin_dc 0 (emit (.gpio_set_dir config.pin_dc true)
        (emit (.gpio_init config.pin_dc) t)) else t) [] := by
    intro t
    split
    · exact ((sent_emit_quiet (.gpio_init config.pin_dc) t rfl).trans
        (sent_emit_quiet (.gpio_set_dir config.pin_dc true) _ rfl)).trans
        (sent_gpio_put _ _ _)
    · exact Sent.refl t
  have h3 : ∀ t : State, Sent t (emit (.gpio_pull_down config.pin_busy)
      (emit (.gpio_set_dir config.pin_busy false) (emit (.gpio_init config.pin_busy)
        (gpio_put config.pin_rst 1 (emit (.gpio_set_dir config.pin_rst true)
          (emit (.gpio_init config.pin_rst) t)))))) [] := fun t =>
    (((((sent_emit_quiet (.gpio_init config.pin_rst) t rfl).trans
      (sent_emit_quiet (.gpio_set_dir config.pin_rst true) _ rfl)).trans
      (sent_gpio_put _ _ _)).trans (sent_emit_quiet (.gpio_init config.pin_busy) _ rfl)).trans
      (sent_emit_quiet (.gpio_set_dir config.pin_busy false) _ rfl)).trans
      (sent_emit_quiet (.gpio_pull_down config.pin_busy) _ rfl)
  exact (h1.trans (h2 _)).trans (h3 _)

theorem sent_init_sequence (s : State) : Sent s (init_sequence s) init_trace := by
  have h := (((((((((((((((((sent_reset s).trans (sent_sleep_ms 10 _)).trans
    (sent_wait_busy _)).trans (sent_write_cmd CMD_SW_RESET _)).trans (sent_sleep_ms 10 _)).trans
    (sent_wait_busy _)).trans (sent_write_cmd CMD_DRIVER_OUTPUT_CONTROL _)).trans
    (sent_write_data 0xC7 _)).trans (sent_write_data 0x00 _)).trans
    (sent_write_data 0x02 _)).trans (sent_write_cmd CMD_DATA_ENTRY_MODE _)).trans
    (sent_write_data 0x01 _)).trans (sent_set_window_full _)).trans
    (sent_write_cmd 0x3C _)).trans (sent_write_data 0x05 _)).trans
    (sent_write_cmd 0x18 _)).trans (sent_write_data 0x80 _)).trans (sent_wait_busy _)
  exact h.cast (by decide)

/-- A successful `ssd1681_init`: status, resulting driver record and transfers. -/
theorem init_ok (cfg : Config) (s : State) (hi : s.g.initialized = false)
    (h0 : s.hw.achieved cfg.spi_baudrate ≠ 0) :
    (ssd1681_init (some cfg) s).1 = 0 ∧
    (ssd1681_init (some cfg) s).2.g.initialized = true ∧
    (ssd1681_init (some cfg) s).2.g.config = cfg ∧
    (ssd1681_init (some cfg) s).2.g.black_gram = all_ff ∧
    (ssd1681_init (some cfg) s).2.g.red_gram = all_ff ∧
    (wired cfg → ∃ evs, (ssd1681_init (some cfg) s).2.hw.log = s.hw.log ++ evs ∧
      Decodes cfg.pin_dc evs init_trace) := by
  rw [init_ok_eq cfg s hi h0]
  have hs := (((sent_spi_init (init_begin cfg s).g.spi cfg.spi_baudrate (init_begin cfg s)).trans
    (sent_set_spi_mode_and_clk
      (spi_init (init_begin cfg s).g.spi cfg.spi_baudrate (init_begin cfg s)).2.g.config _)).trans
    (sent_init_pins cfg _)).trans (sent_init_sequence _)
  generalize init_sequence (init_pins cfg (ssd1681_set_spi_mode_and_clk
      (spi_init (init_begin cfg s).g.spi cfg.spi_baudrate (init_begin cfg s)).2.g.config
      (spi_init (init_begin cfg s).g.spi cfg.spi_baudrate (init_begin cfg s)).2)) = X at hs ⊢
  exact ⟨rfl, rfl, hs.1, rfl, rfl, hs.2.2.2.2.2.2⟩

theorem clear_eq (c : Nat) (s : State) (hinit : s.g.initialized = true) :
    ssd1681_clear c s
      = (0, with_plane c (fun i => if i < DISPLAY_HEIGHT * BYTES_PER_ROW then 0xFF
          else gram c s.g i) s) := by
  unfold ssd1681_clear
  rw [if_neg (by simp [hinit])]
  rfl

/-- Clearing both planes and filling the rectangle of the scenario, on an
initialised driver. -/
theorem scenario_drawing (u : State) (hinit : u.g.initialized = true) :
    ∃ t4 : State,
      (ssd1681_clear SSD1681_COLOR_BLACK u).1 = 0 ∧
      (ssd1681_clear SSD1681_COLOR_RED (ssd1681_clear SSD1681_COLOR_BLACK u).2).1 = 0 ∧
      ssd1681_fill_rect SSD1681_COLOR_BLACK 20 20 100 80 1
        (ssd1681_clear SSD1681_COLOR_RED (ssd1681_clear SSD1681_COLOR_BLACK u).2).2 = (0, t4) ∧
      t4.g.initialized = true ∧ t4.g.config = u.g.config ∧ t4.hw = u.hw ∧
      (∀ x y, in_rect 20 20 100 80 x y →
        (t4.g.black_gram ((199 - y) * 25 + x / 8)).val.testBit (7 - x % 8) = false) ∧
      (∀ i, i < 5000 → t4.g.red_gram i = 0xFF) := by
  rw [clear_eq SSD1681_COLOR_BLACK u hinit]
  dsimp only
  rw [clear_eq SSD1681_COLOR_RED _ (by simpa using hinit)]
  dsimp only
  rw [fill_rect_ok SSD1681_COLOR_BLACK 20 20 100 80 1 _ (by simpa using hinit) (by decide)
    (by decide) (by decide) (by decide)]
  refine ⟨_, rfl, rfl, rfl, by simpa using hinit, by simp, by simp, ?_, ?_⟩
  · intro x y hxy
    have hx : x < 200 := by unfold in_rect at hxy; omega
    have hy : y < 200 := by unfold in_rect at hxy; omega
    have hmem : (x, y, 1) ∈ rect_writes 20 20 100 80 1 :=
      (mem_rect_writes 20 20 100 80 1 (x, y, 1)).mpr ⟨hxy, rfl⟩
    have := plane_all_effect (fun _ _ => decide (1 = 0)) _
      (gram SSD1681_COLOR_BLACK (with_plane SSD1681_COLOR_RED
        (fun i => if i < DISPLAY_HEIGHT * BYTES_PER_ROW then 0xFF
          else gram SSD1681_COLOR_RED (with_plane SSD1681_COLOR_BLACK
            (fun i => if i < DISPLAY_HEIGHT * BYTES_PER_ROW then 0xFF
              else gram SSD1681_COLOR_BLACK u.g i) u).g i)
        (with_plane SSD1681_COLOR_BLACK
          (fun i => if i < DISPLAY_HEIGHT * BYTES_PER_ROW then 0xFF
            else gram SSD1681_COLOR_BLACK u.g i) u)).g)
      (rect_writes_on_display 20 20 100 80 1 (by decide) (by decide))
      (rect_writes_value 20 20 100 80 1) (x, y, 1) hmem
    simp only [write_byte_index_eq x y hx hy, bit_index_eq] at this
    simpa [with_plane, set_gram, SSD1681_COLOR_BLACK] using this
  · intro i hi
    have : i < DISPLAY_HEIGHT * BYTES_PER_ROW := by
      unfold DISPLAY_HEIGHT BYTES_PER_ROW DISPLAY_WIDTH; omega
    simp [with_plane, set_gram, SSD1681_COLOR_BLACK, SSD1681_COLOR_RED, this]

/-- What the end-to-end scenario does, from any state with the driver not
initialised and a bus that reaches a non-zero rate. -/
theorem scenario_facts (s : State) (hi : s.g.initialized = false)
    (h0 : s.hw.achieved 4000000 ≠ 0) :
    (scenario s).1 = [0, 0, 0, 0, 0] ∧
    (∀ x y, in_rect 20 20 100 80 x y →
      ((scenario s).2.g.black_gram ((199 - y) * 25 + x / 8)).val.testBit (7 - x % 8) = false) ∧
    (∀ i, i < 5000 → (scenario s).2.g.red_gram i = 0xFF) ∧
    (∀ dc, decode 20 dc (emitted s (scenario s).2)
      = init_trace ++ [.wait, .cmd 0x21, .data 0x00, .data 0x80, .cmd 0x22, .data 0xF6,
          .cmd 0x20]) := by
  have hw4 : wired ssd1681_get_default_config_4wire := Or.inr (by decide)
  obtain ⟨a1, a2, a3, _, _, a6⟩ := init_ok ssd1681_get_default_config_4wire s hi h0
  obtain ⟨e1, hl1, hd1⟩ := a6 hw4
  unfold scenario
  dsimp only
  generalize ssd1681_init (some ssd1681_get_default_config_4wire) s = r1 at a1 a2 a3 hl1 ⊢
  obtain ⟨st1, s1⟩ := r1
  dsimp only at a1 a2 a3 hl1 ⊢
  obtain ⟨t4, c1, c2, c3, i4, g4, w4, b4, r4⟩ := scenario_drawing s1 a2
  rw [c1, c2, c3, a1]
  dsimp only
  obtain ⟨u1, hu⟩ := (update_sent 1 t4 i4).2.1 rfl
  have hwt : wired t4.g.config := by rw [g4, a3]; exact hw4
  obtain ⟨e2, hl2, hd2⟩ := hu.2.2.2.2.2.2 hwt
  rw [g4, a3] at hd2
  refine ⟨by rw [show SSD1681_UPDATE_CLEAN_FULL = 1 from rfl, u1], ?_, ?_, ?_⟩
  · intro x y hxy
    rw [show SSD1681_UPDATE_CLEAN_FULL = 1 from rfl, hu.2.2.2.1]
    exact b4 x y hxy
  · intro i hi5
    rw [show SSD1681_UPDATE_CLEAN_FULL = 1 from rfl, hu.2.2.2.2.1]
    exact r4 i hi5
  · intro dc
    have hlog : (ssd1681_update SSD1681_UPDATE_CLEAN_FULL t4).2.hw.log
        = s.hw.log ++ (e1 ++ e2) := by
      rw [show SSD1681_UPDATE_CLEAN_FULL = 1 from rfl, hl2, w4, hl1, List.append_assoc]
    have hem : emitted s (ssd1681_update SSD1681_UPDATE_CLEAN_FULL t4).2 = e1 ++ e2 := by
      unfold emitted
      rw [hlog, List.drop_left]
    rw [hem]
    exact (hd1.append hd2).result dc

/-- C18, counterexample: in the scenario run from program start on an idle
panel, the transfers contain one window-set (`cmd 0x44`) but no cursor-set
(`cmd 0x4E`, `cmd 0x4F`) and no RAM-write command (`cmd 0x24`), and only 15
data bytes in all. -/
theorem scenario_sends_no_framebuffer :
    (decode 20 0 (emitted st_zero (scenario st_zero).2)).count (.cmd 0x44) = 1 ∧
    (decode 20 0 (emitted st_zero (scenario st_zero).2)).count (.cmd 0x4E) = 0 ∧
    (decode 20 0 (emitted st_zero (scenario st_zero).2)).count (.cmd 0x4F) = 0 ∧
    (decode 20 0 (emitted st_zero (scenario st_zero).2)).count (.cmd 0x24) = 0 ∧
    ((decode 20 0 (emitted st_zero (scenario st_zero).2)).filter
      fun x => match x with
        | .data _ => true
        | _ => false).length = 15 := by
  rw [(scenario_facts st_zero rfl (by decide)).2.2.2 0]
  decide

/-- C18, amended: from a state with the driver not initialised and a bus that
reaches a non-zero rate, the scenario (init with the 4-wire defaults, clear
black, clear red, fill_rect(black, 20, 20, 100, 80, 1), update(clean-full))
returns 0 five times; afterwards every pixel of [20,100]x[20,80] of the black
plane has its write-path bit cleared and every byte of the red plane is 0xFF;
the transfers are those of `ssd1681_init` (one window-set) followed by a
wait-for-ready and `cmd 0x21, data 0x00, data 0x80, cmd 0x22, data 0xF6, cmd
0x20`, with no cursor-set and no RAM-write command among them. -/
theorem scenario_outcome (s : State) (hi : s.g.initialized = false)
    (h0 : s.hw.achieved 4000000 ≠ 0) (dc : Nat) :
    (scenario s).1 = [0, 0, 0, 0, 0] ∧
    (∀ x y, in_rect 20 20 100 80 x y →
      ((scenario s).2.g.black_gram ((199 - y) * 25 + x / 8)).val.testBit (7 - x % 8) = false) ∧
    (∀ i, i < 5000 → (scenario s).2.g.red_gram i = 0xFF) ∧
    decode 20 dc (emitted s (scenario s).2)
      = [.wait, .cmd 0x12, .wait, .cmd 0x01, .data 0xC7, .data 0x00, .data 0x02,
         .cmd 0x11, .data 0x01, .cmd 0x44, .data 0x00, .data 0x18,
         .cmd 0x45, .data 0x00, .data 0x00, .data 0xC7, .data 0x00,
         .cmd 0x3C, .data 0x05, .cmd 0x18, .data 0x80, .wait,
         .wait, .cmd 0x21, .data 0x00, .data 0x80, .cmd 0x22, .data 0xF6, .cmd 0x20] ∧
    (decode 20 dc (emitted s (scenario s).2)).count (.cmd 0x44) = 1 ∧
    (decode 20 dc (emitted s (scenario s).2)).count (.cmd 0x4E) = 0 ∧
    (decode 20 dc (emitted s (scenario s).2)).count (.cmd 0x24) = 0 := by
  obtain ⟨h1, h2, h3, h4⟩ := scenario_facts s hi h0
  refine ⟨h1, h2, h3, h4 dc, ?_, ?_, ?_⟩ <;> rw [h4 dc] <;> decide

theorem scenario_outcome_witness :
    st_zero.g.initialized = false ∧ st_zero.hw.achieved 4000000 ≠ 0 ∧
    ((scenario st_zero).1 = [0, 0, 0, 0, 0] ∧
    (∀ x y, in_rect 20 20 100 80 x y →
      ((scenario st_zero).2.g.black_gram ((199 - y) * 25 + x / 8)).val.testBit (7 - x % 8)
        = false) ∧
    (∀ i, i < 5000 → (scenario st_zero).2.g.red_gram i = 0xFF) ∧
    decode 20 0 (emitted st_zero (scenario st_zero).2)
      = [.wait, .cmd 0x12, .wait, .cmd 0x01, .data 0xC7, .data 0x00, .data 0x02,
         .cmd 0x11, .data 0x01, .cmd 0x44, .data 0x00, .data 0x18,
         .cmd 0x45, .data 0x00, .data 0x00, .data 0xC7, .data 0x00,
         .cmd 0x3C, .data 0x05, .cmd 0x18, .data 0x80, .wait,
         .wait, .cmd 0x21, .data 0x00, .data 0x80, .cmd 0x22, .data 0xF6, .cmd 0x20] ∧
    (decode 20 0 (emitted st_zero (scenario st_zero).2)).count (.cmd 0x44) = 1 ∧
    (decode 20 0 (emitted st_zero (scenario st_zero).2)).count (.cmd 0x4E) = 0 ∧
    (decode 20 0 (emitted st_zero (scenario st_zero).2)).count (.cmd 0x24) = 0) :=
  ⟨rfl, by decide, scenario_outcome st_zero rfl (by decide) 0⟩

/-! ## Text -/

theorem draw_string_cols_eq (c x y fs : Nat) (bm : Nat → Byte) (row : Nat) (n col : Nat)
    (s : State) (hn : fs - col = n) :
    draw_string_cols c x y fs bm row col s
      = write_all c ((List.range' col (fs - col)).map fun col =>
          ((x + col) % 256, (y + row) % 256,
            ((bm ((row * FONT_BASIC_SIZE) / fs)).val
              &&& (1 <<< (col * FONT_BASIC_SIZE / fs))) % 256)) s := by
  induction n generalizing col s with
  | zero =>
    rw [draw_string_cols, if_neg (by omega), hn]
    rfl
  | succ n ih =>
    rw [draw_string_cols, if_pos (by omega), ih (col + 1) _ (by omega), hn,
      show fs - (col + 1) = n by omega]
    rfl

theorem draw_string_rows_eq (c x y fs : Nat) (bm : Nat → Byte) (n row : Nat) (s : State)
    (hn : fs - row = n) :
    draw_string_rows c x y fs bm row s
      = write_all c ((List.range' row (fs - row)).flatMap fun row =>
          (List.range' 0 fs).map fun col =>
            ((x + col) % 256, (y + row) % 256,
              ((bm ((row * FONT_BASIC_SIZE) / fs)).val
                &&& (1 <<< (col * FONT_BASIC_SIZE / fs))) % 256)) s := by
  induction n generalizing row s with
  | zero =>
    rw [draw_string_rows, if_neg (by omega), hn]
    rfl
  | succ n ih =>
    rw [draw_string_rows, if_pos (by omega), ih (row + 1) _ (by omega),
      draw_string_cols_eq c x y fs bm row _ 0 s rfl, hn,
      show fs - (row + 1) = n by omega, List.range'_succ, List.flatMap_cons, write_all_append]
    rfl

/-- The two glyph loops are the writes of `glyph_writes`, in order. -/
theorem draw_string_rows_eq_glyph (c x y fs : Nat) (bm : Nat → Byte) (s : State) :
    draw_string_rows c x y fs bm 0 s = write_all c (glyph_writes x y fs bm) s :=
  draw_string_rows_eq c x y fs bm fs 0 s rfl

theorem mem_glyph_writes (x y fs : Nat) (bm : Nat → Byte) (w : Nat × Nat × Nat) :
    w ∈ glyph_writes x y fs bm
      ↔ ∃ col row, col < fs ∧ row < fs ∧
          w = ((x + col) % 256, (y + row) % 256,
            ((bm ((row * FONT_BASIC_SIZE) / fs)).val
              &&& (1 <<< (col * FONT_BASIC_SIZE / fs))) % 256) := by
  unfold glyph_writes
  simp only [List.mem_flatMap, List.mem_map, List.mem_range'_1]
  constructor
  · rintro ⟨row, hr, col, hc, rfl⟩
    exact ⟨col, row, by omega, by omega, rfl⟩
  · rintro ⟨col, row, hc, hr, rfl⟩
    exact ⟨row, by omega, col, by omega, rfl⟩

/-- The character loop over a buffer is the character loop over the list of
its characters. -/
theorem draw_string_loop_eq_chars (font : Nat → Nat → Byte) (c fs : Nat) (str : Nat → Byte)
    (len : Nat) (n i x y : Nat) (s : State) (hn : len - i = n) :
    draw_string_loop font c fs str len i x y s
      = draw_chars font c fs ((List.range' i (len - i)).map str) x y s := by
  induction n generalizing i x y s with
  | zero =>
    rw [draw_string_loop, if_neg (by omega), hn]
    rfl
  | succ n ih =>
    rw [draw_string_loop, if_pos (by omega), hn, List.range'_succ, List.map_cons, draw_chars]
    have e : len - (i + 1) = n := by omega
    dsimp only
    split
    · rw [ih (i + 1) x y s e, e]
    · split
      · split
        · rfl
        · rw [ih (i + 1) _ _ _ e, e]
      · rw [ih (i + 1) _ _ _ e, e]

/-- Characters with code above 127 can be dropped from the list. -/
theorem draw_chars_filter (font : Nat → Nat → Byte) (c fs : Nat) (cs : List Byte)
    (x y : Nat) (s : State) :
    draw_chars font c fs (cs.filter fun ch => decide (ch.val ≤ 127)) x y s
      = draw_chars font c fs cs x y s := by
  induction cs generalizing x y s with
  | nil => rfl
  | cons ch cs ih =>
    by_cases h : ch.val > 127
    · rw [List.filter_cons_of_neg (by simpa using h), ih, draw_chars.eq_2, if_pos h]
    · rw [List.filter_cons_of_pos (by simpa using h), draw_chars, draw_chars, if_neg h, if_neg h]
      dsimp only
      split
      · split
        · rfl
        · rw [ih]
      · rw [ih]

theorem map_str_of (cs : List Byte) : (List.range' 0 cs.length).map (str_of cs) = cs := by
  rw [← List.range_eq_range']
  unfold str_of
  apply List.ext_getElem
  · simp
  · intro i h1 h2
    simp [List.getD_eq_getElem?_getD, List.getElem?_eq_getElem h2]

/-- C20: for every buffer, length, start position and font size,
`ssd1681_draw_string` returns the same status and leaves the same state as it
does for the buffer holding the same characters with those of code 128..255
removed (and the length reduced accordingly). -/
theorem draw_string_skips_high_characters (font : Nat → Nat → Byte) (c x y : Nat)
    (str : Nat → Byte) (len data fs : Nat) (s : State) :
    ssd1681_draw_string font c x y (some str) len data fs s
      = ssd1681_draw_string font c x y
          (some (str_of ((chars_of str len).filter fun ch => decide (ch.val ≤ 127))))
          ((chars_of str len).filter fun ch => decide (ch.val ≤ 127)).length data fs s := by
  unfold ssd1681_draw_string
  split
  · rfl
  · have h1 := draw_string_loop_eq_chars font c fs str len len 0 x y s rfl
    have h2 := draw_string_loop_eq_chars font c fs
      (str_of ((chars_of str len).filter fun ch => decide (ch.val ≤ 127)))
      ((chars_of str len).filter fun ch => decide (ch.val ≤ 127)).length _ 0 x y s rfl
    have e1 : (List.range' 0 (len - 0)).map str = chars_of str len := by
      simp [chars_of, List.range_eq_range']
    have e2 := map_str_of ((chars_of str len).filter fun ch => decide (ch.val ≤ 127))
    dsimp only
    rw [h1, h2, e1, Nat.sub_zero, e2, draw_chars_filter]

/-- One character of a solid font at the origin: every write turns its pixel on. -/
theorem glyph_writes_solid_value :
    ∀ w ∈ glyph_writes 0 0 8 (font_solid 65),
      decide (w.2.2 = 0) = (fun _ _ => false) w.1 w.2.1 := by
  intro w hw
  obtain ⟨col, row, hc, hr, rfl⟩ := (mem_glyph_writes 0 0 8 (font_solid 65) w).mp hw
  have h : ∀ k, k < 8 →
      ((0xFF : Byte).val &&& (1 <<< (k * FONT_BASIC_SIZE / 8))) % 256 ≠ 0 := by decide
  simpa [font_solid] using h col hc

theorem glyph_writes_solid_on_display : on_display (glyph_writes 0 0 8 (font_solid 65)) := by
  intro w hw
  obtain ⟨col, row, hc, hr, rfl⟩ := (mem_glyph_writes 0 0 8 (font_solid 65) w).mp hw
  show (0 + col) % 256 < 200 ∧ (0 + row) % 256 < 200
  omega

/-- The call of `ssd1681_draw_string` for "A" at the origin with font size 8. -/
theorem draw_string_A_eq (data : Nat) :
    ssd1681_draw_string font_solid 0 0 0 (some str_A) 1 data 8 st_ready
      = (0, with_plane 0 (plane_all (glyph_writes 0 0 8 (font_solid 65)) (gram 0 st_ready.g))
          st_ready) := by
  unfold ssd1681_draw_string
  rw [if_neg (by decide)]
  dsimp only
  rw [draw_string_loop_eq_chars font_solid 0 8 str_A 1 1 0 0 0 st_ready rfl]
  have e : (List.range' 0 (1 - 0)).map str_A = [65] := by decide
  rw [e, draw_chars, if_neg (by decide)]
  dsimp only
  rw [if_neg (by decide), draw_chars, draw_string_rows_eq_glyph]
  show (0, write_all 0 (glyph_writes 0 0 8 (font_solid 65)) st_ready) = _
  rw [write_all_eq 0 _ st_ready rfl glyph_writes_solid_on_display]

/-- C19 at a failing input: on the driver as `ssd1681_init` leaves it, drawing
"A" in a font with every glyph bit set, at (0, 0) with font size 8 and
`data = 0` (invisible), gives the same result as with `data = 1`: the call
returns 0 and pixel (0, 0), a set bit of the glyph, is written on (bit 7 of
byte 4975 of the black plane cleared). -/
theorem draw_string_ignores_data :
    ssd1681_draw_string font_solid 0 0 0 (some str_A) 1 0 8 st_ready
      = ssd1681_draw_string font_solid 0 0 0 (some str_A) 1 1 8 st_ready ∧
    (ssd1681_draw_string font_solid 0 0 0 (some str_A) 1 0 8 st_ready).1 = 0 ∧
    ((ssd1681_draw_string font_solid 0 0 0 (some str_A) 1 0 8 st_ready).2.g.black_gram
      4975).val.testBit 7 = false := by
  refine ⟨rfl, ?_, ?_⟩
  · rw [draw_string_A_eq]
  · rw [draw_string_A_eq]
    have hmem : ((0 + 0) % 256, (0 + 0) % 256,
        ((font_solid 65 ((0 * FONT_BASIC_SIZE) / 8)).val
          &&& (1 <<< (0 * FONT_BASIC_SIZE / 8))) % 256)
        ∈ glyph_writes 0 0 8 (font_solid 65) :=
      (mem_glyph_writes 0 0 8 (font_solid 65) _).mpr ⟨0, 0, by decide, by decide, rfl⟩
    have := plane_all_effect (fun _ _ => false) _ (gram 0 st_ready.g)
      glyph_writes_solid_on_display glyph_writes_solid_value _ hmem
    exact this

/-! ## Claims on pixel addressing -/

/-- C28: on an initialised driver, for every plane `c`, `x < 200`, `y < 200`
and value `v`, `ssd1681_write_point(c, x, y, v)` returns 0 and a following
`ssd1681_read_point(c, x, 199 - y, &d)` returns 0 with `d = 1` when `v` is
non-zero and `d = 0` when `v` is 0, whatever the framebuffer held before. -/
theorem write_then_read_mirrored_row (c x y v : Nat) (s : State)
    (hinit : s.g.initialized = true) (hx : x < 200) (hy : y < 200) :
    (ssd1681_write_point c x y v s).1 = 0 ∧
    ssd1681_read_point c x (199 - y) true (ssd1681_write_point c x y v s).2
      = (0, some (if v ≠ 0 then 1 else 0), (ssd1681_write_point c x y v s).2) := by
  rw [write_point_ok c x y v s hinit hx hy]
  refine ⟨rfl, ?_⟩
  have hinit' : (with_plane c (plane_write x y v (gram c s.g)) s).g.initialized = true := by
    simpa using hinit
  rw [read_point_ok c x (199 - y) _ hinit' hx (by omega)]
  have hb : (199 - y) * 25 + x / 8 = write_byte_index x y := (write_byte_index_eq x y hx hy).symm
  have hk : 7 - x % 8 = bit_index x := (bit_index_eq x).symm
  simp only [with_plane_g, gram_set_gram]
  rw [hb, hk, plane_write_testBit]
  by_cases hv : v = 0 <;> simp [hv]

theorem write_then_read_mirrored_row_witness :
    st_ready.g.initialized = true ∧ 13 < 200 ∧ 42 < 200 ∧
    (ssd1681_write_point 1 13 42 1 st_ready).1 = 0 ∧
    ssd1681_read_point 1 13 (199 - 42) true (ssd1681_write_point 1 13 42 1 st_ready).2
      = (0, some (if 1 ≠ 0 then 1 else 0), (ssd1681_write_point 1 13 42 1 st_ready).2) :=
  ⟨rfl, by decide, by decide,
    write_then_read_mirrored_row 1 13 42 1 st_ready rfl (by decide) (by decide)⟩

/-- C29: the write-path address map `(x, y) -> (byte index, bit index)` is
injective on `[0,200) x [0,200)`, and a successful `ssd1681_write_point(c, x,
y, v)` leaves every bit of plane `c` other than the addressed one, the whole other
plane, the configuration, the `initialized` flag, the rest of the driver record
and the hardware as they were; in particular the stored bit of every other
pixel is unchanged. -/
theorem write_point_touches_one_bit (c x y v : Nat) (s : State)
    (hinit : s.g.initialized = true) (hx : x < 200) (hy : y < 200) :
    (∀ x1 y1 x2 y2, x1 < 200 → y1 < 200 → x2 < 200 → y2 < 200 →
      write_byte_index x1 y1 = write_byte_index x2 y2 → bit_index x1 = bit_index x2 →
      x1 = x2 ∧ y1 = y2) ∧
    (ssd1681_write_point c x y v s).1 = 0 ∧
    (∀ i j, ¬ (i = (199 - y) * 25 + x / 8 ∧ j = 7 - x % 8) →
      (gram c (ssd1681_write_point c x y v s).2.g i).val.testBit j
        = (gram c s.g i).val.testBit j) ∧
    (∀ x' y', x' < 200 → y' < 200 → ¬ (x' = x ∧ y' = y) →
      (gram c (ssd1681_write_point c x y v s).2.g (write_byte_index x' y')).val.testBit
          (bit_index x')
        = (gram c s.g (write_byte_index x' y')).val.testBit (bit_index x')) ∧
    other_gram c (ssd1681_write_point c x y v s).2.g = other_gram c s.g ∧
    (ssd1681_write_point c x y v s).2.g.config = s.g.config ∧
    (ssd1681_write_point c x y v s).2.g.initialized = s.g.initialized ∧
    (ssd1681_write_point c x y v s).2.g.dc_state = s.g.dc_state ∧
    (ssd1681_write_point c x y v s).2.g.spi = s.g.spi ∧
    (ssd1681_write_point c x y v s).2.hw = s.hw := by
  rw [write_point_ok c x y v s hinit hx hy]
  have hb : (199 - y) * 25 + x / 8 = write_byte_index x y := (write_byte_index_eq x y hx hy).symm
  have hk : 7 - x % 8 = bit_index x := (bit_index_eq x).symm
  refine ⟨fun x1 y1 x2 y2 h1 h2 h3 h4 e1 e2 => write_address_inj x1 y1 x2 y2 h1 h2 h3 h4 e1 e2,
    rfl, ?_, ?_, ?_, ?_, ?_, ?_, ?_, rfl⟩
  · intro i j hij
    simp only [with_plane_g, gram_set_gram]
    rw [plane_write_testBit, if_neg]
    rw [← hb, ← hk]; exact hij
  · intro x' y' hx' hy' hne
    simp only [with_plane_g, gram_set_gram]
    rw [plane_write_testBit, if_neg]
    intro h
    exact hne (write_address_inj x' y' x y hx' hy' hx hy h.1 h.2)
  · simp
  · simp
  · simp
  · simp
  · simp

theorem write_point_touches_one_bit_witness :
    st_ready.g.initialized = true ∧ 13 < 200 ∧ 42 < 200 ∧
    ((∀ x1 y1 x2 y2, x1 < 200 → y1 < 200 → x2 < 200 → y2 < 200 →
      write_byte_index x1 y1 = write_byte_index x2 y2 → bit_index x1 = bit_index x2 →
      x1 = x2 ∧ y1 = y2) ∧
    (ssd1681_write_point 0 13 42 1 st_ready).1 = 0 ∧
    (∀ i j, ¬ (i = (199 - 42) * 25 + 13 / 8 ∧ j = 7 - 13 % 8) →
      (gram 0 (ssd1681_write_point 0 13 42 1 st_ready).2.g i).val.testBit j
        = (gram 0 st_ready.g i).val.testBit j) ∧
    (∀ x' y', x' < 200 → y' < 200 → ¬ (x' = 13 ∧ y' = 42) →
      (gram 0 (ssd1681_write_point 0 13 42 1 st_ready).2.g (write_byte_index x' y')).val.testBit
          (bit_index x')
        = (gram 0 st_ready.g (write_byte_index x' y')).val.testBit (bit_index x')) ∧
    other_gram 0 (ssd1681_write_point 0 13 42 1 st_ready).2.g = other_gram 0 st_ready.g ∧
    (ssd1681_write_point 0 13 42 1 st_ready).2.g.config = st_ready.g.config ∧
    (ssd1681_write_point 0 13 42 1 st_ready).2.g.initialized = st_ready.g.initialized ∧
    (ssd1681_write_point 0 13 42 1 st_ready).2.g.dc_state = st_ready.g.dc_state ∧
    (ssd1681_write_point 0 13 42 1 st_ready).2.g.spi = st_ready.g.spi ∧
    (ssd1681_write_point 0 13 42 1 st_ready).2.hw = st_ready.hw) :=
  ⟨rfl, by decide, by decide,
    write_point_touches_one_bit 0 13 42 1 st_ready rfl (by decide) (by decide)⟩

/-- C30: for `x < 200` and `y < 200` the byte index of `ssd1681_write_point`
is `(199 - y) * 25 + x div 8` and that of `ssd1681_read_point` is `y * 25 + x
div 8`, both computed without 16-bit wrap-around and both at most 4999, and the
bit index is `7 - x mod 8`, at most 7; so a write leaves every byte at offset
5000 or more of both planes alone, and what a read returns depends only on the
5000 bytes of the selected plane. -/
theorem point_indices_in_plane (c x y v : Nat) (s : State) (hx : x < 200) (hy : y < 200) :
    (write_byte_index x y = (199 - y) * 25 + x / 8 ∧
      (DISPLAY_HEIGHT - 1 - y) * BYTES_PER_ROW + x / 8 < 65536 ∧ write_byte_index x y ≤ 4999) ∧
    (read_byte_index x y = y * 25 + x / 8 ∧
      y * BYTES_PER_ROW + x / 8 < 65536 ∧ read_byte_index x y ≤ 4999) ∧
    (bit_index x = 7 - x % 8 ∧ bit_index x ≤ 7) ∧
    (∀ i, 5000 ≤ i →
      (ssd1681_write_point c x y v s).2.g.black_gram i = s.g.black_gram i ∧
      (ssd1681_write_point c x y v s).2.g.red_gram i = s.g.red_gram i) ∧
    (∀ s' : State, s'.g.initialized = s.g.initialized →
      (∀ i, i < 5000 → gram c s'.g i = gram c s.g i) →
      (ssd1681_read_point c x y true s').1 = (ssd1681_read_point c x y true s).1 ∧
      (ssd1681_read_point c x y true s').2.1 = (ssd1681_read_point c x y true s).2.1) := by
  have hw : write_byte_index x y = (199 - y) * 25 + x / 8 := write_byte_index_eq x y hx hy
  have hr : read_byte_index x y = y * 25 + x / 8 := read_byte_index_eq x y hx hy
  have hx8 : x / 8 ≤ 24 := by omega
  have hwl : write_byte_index x y ≤ 4999 := by rw [hw]; omega
  have hrl : read_byte_index x y ≤ 4999 := by rw [hr]; omega
  refine ⟨⟨hw, ?_, hwl⟩, ⟨hr, ?_, hrl⟩, ⟨bit_index_eq x, ?_⟩, ?_, ?_⟩
  · simp only [DISPLAY_HEIGHT, BYTES_PER_ROW, DISPLAY_WIDTH]; omega
  · simp only [BYTES_PER_ROW, DISPLAY_WIDTH]; omega
  · have := bit_index_lt x; omega
  · intro i hi
    by_cases hinit : s.g.initialized = true
    · rw [write_point_ok c x y v s hinit hx hy]
      have hne : i ≠ write_byte_index x y := by omega
      simp only [with_plane_g, set_gram, plane_write, gram]
      split <;> simp [Function.update, hne]
    · rw [(write_point_rejected c x y v s (fun h => hinit h.1)).2]
      exact ⟨rfl, rfl⟩
  · intro s' hi hp
    by_cases hinit : s.g.initialized = true
    · have hinit' : s'.g.initialized = true := hi.trans hinit
      rw [read_point_ok c x y s hinit hx hy, read_point_ok c x y s' hinit' hx hy]
      refine ⟨rfl, ?_⟩
      show some _ = some _
      rw [hp (y * 25 + x / 8) (by omega)]
    · have hinit' : ¬ s'.g.initialized = true := fun h => hinit (hi ▸ h)
      have a := read_point_rejected c x y true s (fun h => hinit h.1)
      have b := read_point_rejected c x y true s' (fun h => hinit' h.1)
      refine ⟨?_, b.2.1.trans a.2.1.symm⟩
      unfold ssd1681_read_point
      simp [hinit, hinit']

theorem point_indices_in_plane_witness :
    199 < 200 ∧ 0 < 200 ∧
    (write_byte_index 199 0 = (199 - 0) * 25 + 199 / 8 ∧
      (DISPLAY_HEIGHT - 1 - 0) * BYTES_PER_ROW + 199 / 8 < 65536 ∧ write_byte_index 199 0 ≤ 4999) ∧
    (read_byte_index 199 0 = 0 * 25 + 199 / 8 ∧
      0 * BYTES_PER_ROW + 199 / 8 < 65536 ∧ read_byte_index 199 0 ≤ 4999) ∧
    (bit_index 199 = 7 - 199 % 8 ∧ bit_index 199 ≤ 7) ∧
    (∀ i, 5000 ≤ i →
      (ssd1681_write_point 0 199 0 1 st_ready).2.g.black_gram i = st_ready.g.black_gram i ∧
      (ssd1681_write_point 0 199 0 1 st_ready).2.g.red_gram i = st_ready.g.red_gram i) ∧
    (∀ s' : State, s'.g.initialized = st_ready.g.initialized →
      (∀ i, i < 5000 → gram 0 s'.g i = gram 0 st_ready.g i) →
      (ssd1681_read_point 0 199 0 true s').1 = (ssd1681_read_point 0 199 0 true st_ready).1 ∧
      (ssd1681_read_point 0 199 0 true s').2.1
        = (ssd1681_read_point 0 199 0 true st_ready).2.1) :=
  ⟨by decide, by decide, point_indices_in_plane 0 199 0 1 st_ready (by decide) (by decide)⟩

/-! ## The wait-for-ready loop, exactly -/

theorem busy_polls_reads (pin k : Nat) :
    ((busy_polls pin k).filter is_pin_read).length = k := by
  induction k with
  | zero => rfl
  | succ k ih => simp [busy_polls, is_pin_read, ih]

/-- The loop of `ssd1681_wait_busy` entered with `timeout = n`: it sees `k ≤ n`
busy readings, sleeps after each, and stops at the first reading that is not
busy or when the `n` readings are used up. -/
theorem wait_busy_loop_exact (n : Nat) (s : State) :
    ∃ k, k ≤ n ∧
      (∀ i, i < k → s.hw.busy_level (s.hw.gpio_reads + i) = true) ∧
      (k = n ∨ s.hw.busy_level (s.hw.gpio_reads + k) = false) ∧
      (wait_busy_loop n s).hw.log
        = s.hw.log ++ (busy_polls s.g.config.pin_busy k
            ++ if k < n then [.gpio_get s.g.config.pin_busy false] else []) ∧
      (wait_busy_loop n s).g = s.g := by
  induction n generalizing s with
  | zero => exact ⟨0, le_refl 0, by simp, Or.inl rfl, by simp [wait_busy_loop, busy_polls], rfl⟩
  | succ n ih =>
    rw [wait_busy_loop]
    by_cases hb : s.hw.busy_level s.hw.gpio_reads = true
    · have hb' : (gpio_get s.g.config.pin_busy s).1 = true := hb
      simp only [hb', if_true]
      have hcol : (if n = 0 then sleep_us 10 (gpio_get s.g.config.pin_busy s).2
          else wait_busy_loop n (sleep_us 10 (gpio_get s.g.config.pin_busy s).2))
          = wait_busy_loop n (sleep_us 10 (gpio_get s.g.config.pin_busy s).2) := by
        by_cases hn : n = 0
        · subst hn; simp [wait_busy_loop]
        · simp [hn]
      rw [hcol]
      obtain ⟨k, hk, hall, hstop, hl, hg⟩ := ih (sleep_us 10 (gpio_get s.g.config.pin_busy s).2)
      have hreads : (sleep_us 10 (gpio_get s.g.config.pin_busy s).2).hw.gpio_reads
          = s.hw.gpio_reads + 1 := rfl
      have hlevel : (sleep_us 10 (gpio_get s.g.config.pin_busy s).2).hw.busy_level
          = s.hw.busy_level := rfl
      have hg0 : (sleep_us 10 (gpio_get s.g.config.pin_busy s).2).g = s.g := rfl
      have hl0 : (sleep_us 10 (gpio_get s.g.config.pin_busy s).2).hw.log
          = s.hw.log ++ [.gpio_get s.g.config.pin_busy true, .sleep_us 10] := by
        simp [sleep_us, emit, gpio_get, hb]
      rw [hreads, hlevel] at hall hstop
      rw [hg0] at hl
      refine ⟨k + 1, by omega, ?_, ?_, ?_, hg.trans hg0⟩
      · intro i hi
        cases i with
        | zero => exact hb
        | succ i =>
          have := hall i (by omega)
          rwa [show s.hw.gpio_reads + (i + 1) = s.hw.gpio_reads + 1 + i by omega]
      · rcases hstop with h | h
        · exact Or.inl (by omega)
        · right
          rwa [show s.hw.gpio_reads + (k + 1) = s.hw.gpio_reads + 1 + k by omega]
      · rw [hl, hl0]
        by_cases hkn : k < n
        · simp [busy_polls, hkn]
        · simp [busy_polls, hkn]
    · have hb' : ¬ (gpio_get s.g.config.pin_busy s).1 = true := hb
      simp only [hb', if_false]
      have hf : s.hw.busy_level s.hw.gpio_reads = false := by simpa using hb
      exact ⟨0, by omega, by simp, Or.inr (by simpa using hf),
        by simp [gpio_get, busy_polls, hf], rfl⟩

/-! ## Claim on the wait-for-ready primitive -/

/-- C26: `ssd1681_wait_busy` returns for every behaviour of the busy pin.  It
sees some number `k ≤ 1000000` of busy readings, each followed by
`sleep_us(10)`; either `k = 1000000` and it gives up, or the next reading shows
not-busy and ends the loop; it then sleeps 100 microseconds and returns.  So the
pin is read at most 1,000,000 times, the sleeps of the loop add up to at most
10,000,000 microseconds, and the driver record is returned unchanged with no
status: the caller goes on either way. -/
theorem wait_busy_bounded (s : State) :
    ∃ k, k ≤ 1000000 ∧
      (∀ i, i < k → s.hw.busy_level (s.hw.gpio_reads + i) = true) ∧
      (k = 1000000 ∨ s.hw.busy_level (s.hw.gpio_reads + k) = false) ∧
      emitted s (ssd1681_wait_busy s)
        = busy_polls s.g.config.pin_busy k
            ++ (if k < 1000000 then [.gpio_get s.g.config.pin_busy false] else [])
            ++ [.sleep_us 100] ∧
      ((emitted s (ssd1681_wait_busy s)).filter is_pin_read).length
        = (if k < 1000000 then k + 1 else k) ∧
      ((emitted s (ssd1681_wait_busy s)).filter is_pin_read).length ≤ 1000000 ∧
      10 * ((emitted s (ssd1681_wait_busy s)).filter fun e => decide (e = .sleep_us 10)).length
        ≤ 10000000 ∧
      (ssd1681_wait_busy s).g = s.g := by
  obtain ⟨k, hk, hall, hstop, hl, hg⟩ := wait_busy_loop_exact 1000000 s
  have hem : emitted s (ssd1681_wait_busy s)
      = busy_polls s.g.config.pin_busy k
          ++ (if k < 1000000 then [.gpio_get s.g.config.pin_busy false] else [])
          ++ [.sleep_us 100] := by
    simp [emitted, ssd1681_wait_busy, sleep_us, emit, hl]
  have hsl : ∀ pin j, ((busy_polls pin j).filter fun e => decide (e = Event.sleep_us 10)).length
      = j := by
    intro pin j
    induction j with
    | zero => rfl
    | succ j ih => simp [busy_polls, ih]
  have hreads : ((emitted s (ssd1681_wait_busy s)).filter is_pin_read).length
      = (if k < 1000000 then k + 1 else k) := by
    rw [hem, List.filter_append, List.filter_append, List.length_append, List.length_append,
      busy_polls_reads]
    by_cases hkn : k < 1000000 <;> simp [hkn, is_pin_read]
  refine ⟨k, hk, hall, hstop, hem, hreads, ?_, ?_, ?_⟩
  · rw [hreads]; split <;> omega
  · rw [hem, List.filter_append, List.filter_append, List.length_append, List.length_append, hsl]
    by_cases hkn : k < 1000000 <;> simp [hkn] <;> omega
  · simp [ssd1681_wait_busy, sleep_us, emit, hg]

/-! ## The events of the transport calls -/

theorem set_spi_mode_and_clk_log (s : State) :
    (ssd1681_set_spi_mode_and_clk s.g.config s).g = s.g ∧
    (ssd1681_set_spi_mode_and_clk s.g.config s).hw.log = s.hw.log ++ mode_events s := by
  unfold ssd1681_set_spi_mode_and_clk mode_events spi_get_baudrate
  dsimp only
  split_ifs <;> exact ⟨rfl, by simp [emit, spi_set_baudrate]⟩

theorem byte_event_eq_frame_event (g : Driver) (dc b : Nat) (hdc : dc = 0 ∨ dc = 1)
    (hg : g.config.spi_mode = SSD1681_SPI_3WIRE → g.dc_state = dc) :
    byte_event g b = frame_event g dc b := by
  unfold byte_event frame_event
  by_cases hm : g.config.spi_mode = SSD1681_SPI_3WIRE
  · rw [if_pos hm, if_pos hm, hg hm]
    rcases hdc with rfl | rfl
    · rw [frame_cmd]; simp
    · rw [frame_data]
  · rw [if_neg hm, if_neg hm]

/-- The state in which a transport call with mode bit `dc` sends its bytes. -/
theorem transport_open (dc : Nat) (s : State) :
    (gpio_put (set_dc dc (ssd1681_set_spi_mode_and_clk s.g.config s)).g.config.pin_cs 0
        (set_dc dc (ssd1681_set_spi_mode_and_clk s.g.config s))).g.config = s.g.config ∧
    (gpio_put (set_dc dc (ssd1681_set_spi_mode_and_clk s.g.config s)).g.config.pin_cs 0
        (set_dc dc (ssd1681_set_spi_mode_and_clk s.g.config s))).g.spi = s.g.spi ∧
    ((gpio_put (set_dc dc (ssd1681_set_spi_mode_and_clk s.g.config s)).g.config.pin_cs 0
        (set_dc dc (ssd1681_set_spi_mode_and_clk s.g.config s))).g.config.spi_mode
        = SSD1681_SPI_3WIRE →
      (gpio_put (set_dc dc (ssd1681_set_spi_mode_and_clk s.g.config s)).g.config.pin_cs 0
        (set_dc dc (ssd1681_set_spi_mode_and_clk s.g.config s))).g.dc_state = dc) ∧
    (gpio_put (set_dc dc (ssd1681_set_spi_mode_and_clk s.g.config s)).g.config.pin_cs 0
        (set_dc dc (ssd1681_set_spi_mode_and_clk s.g.config s))).hw.log
      = s.hw.log ++ (transport_lead s dc ++ [.gpio_put s.g.config.pin_cs 0]) := by
  obtain ⟨hg, hl⟩ := set_spi_mode_and_clk_log s
  generalize ssd1681_set_spi_mode_and_clk s.g.config s = u at hg hl
  unfold set_dc transport_lead
  rw [hg]
  by_cases hm : s.g.config.spi_mode = SSD1681_SPI_3WIRE
  · simp only [hm, if_true]
    refine ⟨rfl, rfl, fun _ => rfl, ?_⟩
    simp [gpio_put, emit, hl]
  · simp only [hm, if_false]
    refine ⟨by simp [gpio_put, emit, hg], by simp [gpio_put, emit, hg],
      fun h => absurd (by simpa [gpio_put, emit, hg] using h) hm, ?_⟩
    simp [gpio_put, emit, hl, hg]

theorem frame_event_congr (g g' : Driver) (dc b : Nat) (hc : g'.config = g.config)
    (hs : g'.spi = g.spi) : frame_event g' dc b = frame_event g dc b := by
  unfold frame_event; rw [hc, hs]

theorem write_byte_call_log (dc b : Nat) (hdc : dc = 0 ∨ dc = 1) (s : State) :
    (gpio_put (ssd1681_spi_write_byte b
        (gpio_put (set_dc dc (ssd1681_set_spi_mode_and_clk s.g.config s)).g.config.pin_cs 0
          (set_dc dc (ssd1681_set_spi_mode_and_clk s.g.config s)))).g.config.pin_cs 1
      (ssd1681_spi_write_byte b
        (gpio_put (set_dc dc (ssd1681_set_spi_mode_and_clk s.g.config s)).g.config.pin_cs 0
          (set_dc dc (ssd1681_set_spi_mode_and_clk s.g.config s))))).hw.log
      = s.hw.log ++ transport_events s dc [b] := by
  obtain ⟨hc, hs, hd, hl⟩ := transport_open dc s
  generalize gpio_put (set_dc dc (ssd1681_set_spi_mode_and_clk s.g.config s)).g.config.pin_cs 0
    (set_dc dc (ssd1681_set_spi_mode_and_clk s.g.config s)) = u at hc hs hd hl
  have hg := spi_write_byte_g b u
  have hbl := spi_write_byte_log b u
  generalize ssd1681_spi_write_byte b u = w at hg hbl
  rw [byte_event_eq_frame_event u.g dc b hdc hd, frame_event_congr s.g u.g dc b hc hs] at hbl
  simp only [gpio_put, emit, transport_events, hbl, hl, hg, hc]
  simp

theorem write_cmd_log (b : Nat) (s : State) :
    (ssd1681_write_cmd b s).hw.log = s.hw.log ++ transport_events s 0 [b] :=
  write_byte_call_log 0 b (Or.inl rfl) s

theorem write_data_log (b : Nat) (s : State) :
    (ssd1681_write_data b s).hw.log = s.hw.log ++ transport_events s 1 [b] :=
  write_byte_call_log 1 b (Or.inr rfl) s

theorem write_data_buf_log (p : Nat → Byte) (len : Nat) (s : State) :
    (ssd1681_write_data_buf p len s).hw.log = s.hw.log ++ transport_events s 1 (buf_bytes p len) := by
  show (gpio_put (write_data_buf_loop p (len % 65536) 0
        (gpio_put (set_dc 1 (ssd1681_set_spi_mode_and_clk s.g.config s)).g.config.pin_cs 0
          (set_dc 1 (ssd1681_set_spi_mode_and_clk s.g.config s)))).g.config.pin_cs 1
      (write_data_buf_loop p (len % 65536) 0
        (gpio_put (set_dc 1 (ssd1681_set_spi_mode_and_clk s.g.config s)).g.config.pin_cs 0
          (set_dc 1 (ssd1681_set_spi_mode_and_clk s.g.config s))))).hw.log = _
  obtain ⟨hc, hs, hd, hl⟩ := transport_open 1 s
  generalize gpio_put (set_dc 1 (ssd1681_set_spi_mode_and_clk s.g.config s)).g.config.pin_cs 0
    (set_dc 1 (ssd1681_set_spi_mode_and_clk s.g.config s)) = u at hc hs hd hl
  have hg := write_data_buf_loop_g p (len % 65536) 0 u
  have hbl := write_data_buf_loop_log p (len % 65536) 0 u
  generalize write_data_buf_loop p (len % 65536) 0 u = w at hg hbl
  have hmap : ((List.range' 0 (len % 65536)).map fun k => byte_event u.g (p k).val)
      = (buf_bytes p len).map (frame_event s.g 1) := by
    unfold buf_bytes
    rw [List.map_map, List.range_eq_range']
    apply List.map_congr_left
    intro k _
    show byte_event u.g (p k).val = frame_event s.g 1 (p k).val
    rw [byte_event_eq_frame_event u.g 1 _ (Or.inr rfl) hd, frame_event_congr s.g u.g 1 _ hc hs]
  rw [hmap] at hbl
  simp only [gpio_put, emit, transport_events, hbl, hl, hg, hc]
  simp

theorem transport_events_3wire (s : State) (h3 : s.g.config.spi_mode = SSD1681_SPI_3WIRE)
    (dc : Nat) (bytes : List Nat) :
    transport_events s dc bytes
      = mode_events s ++ [.gpio_put s.g.config.pin_cs 0]
        ++ bytes.map (fun b => Event.spi_dr s.g.spi (256 * dc + b % 256))
        ++ [.gpio_put s.g.config.pin_cs 1] := by
  unfold transport_events transport_lead
  rw [if_pos h3, List.append_nil]
  congr 2
  apply List.map_congr_left
  intro b _
  unfold frame_event
  rw [if_pos h3]

theorem emitted_of_log {s t : State} {evs : List Event} (h : t.hw.log = s.hw.log ++ evs) :
    emitted s t = evs := by
  unfold emitted; rw [h]; simp

theorem write_data_buf_dc_state (p : Nat → Byte) (len : Nat) (s : State)
    (h3 : s.g.config.spi_mode = SSD1681_SPI_3WIRE) :
    (ssd1681_write_data_buf p len s).g.dc_state = 1 := by
  show (write_data_buf_loop p (len % 65536) 0
        (gpio_put (set_dc 1 (ssd1681_set_spi_mode_and_clk s.g.config s)).g.config.pin_cs 0
          (set_dc 1 (ssd1681_set_spi_mode_and_clk s.g.config s)))).g.dc_state = 1
  rw [write_data_buf_loop_g]
  obtain ⟨hc, -, hd, -⟩ := transport_open 1 s
  exact hd (by rw [hc]; exact h3)

/-! ## Claim on the 3-wire frames -/

/-- C22: in 3-wire mode each transport call programs 9-bit frames, drives
chip-select low, writes one frame per byte to the data register and drives
chip-select high.  For a byte `b` (0..255) the frame is `b` in
`ssd1681_write_cmd` and `256 + b` in `ssd1681_write_data` and
`ssd1681_write_data_buf`: bits 7:0 are `b`, bit 8 is the mode flag the call has
set (0 for a command, 1 for data), and the frame is below 512. -/
theorem three_wire_frames (s : State) (h3 : s.g.config.spi_mode = SSD1681_SPI_3WIRE)
    (b : Nat) (hb : b < 256) (p : Nat → Byte) (len : Nat) :
    (emitted s (ssd1681_write_cmd b s)
        = mode_events s ++ [.gpio_put s.g.config.pin_cs 0, .spi_dr s.g.spi b,
            .gpio_put s.g.config.pin_cs 1] ∧
      (ssd1681_write_cmd b s).g.dc_state = 0) ∧
    (emitted s (ssd1681_write_data b s)
        = mode_events s ++ [.gpio_put s.g.config.pin_cs 0, .spi_dr s.g.spi (256 + b),
            .gpio_put s.g.config.pin_cs 1] ∧
      (ssd1681_write_data b s).g.dc_state = 1) ∧
    (emitted s (ssd1681_write_data_buf p len s)
        = mode_events s ++ [.gpio_put s.g.config.pin_cs 0]
          ++ (List.range (len % 65536)).map (fun i => Event.spi_dr s.g.spi (256 + (p i).val))
          ++ [.gpio_put s.g.config.pin_cs 1] ∧
      (ssd1681_write_data_buf p len s).g.dc_state = 1) ∧
    mode_events s
      = (if s.hw.baud s.g.spi ≠ s.g.config.spi_baudrate
          then [Event.spi_set_baudrate s.g.spi s.g.config.spi_baudrate] else [])
        ++ [.spi_9bit_frames s.g.spi] ∧
    (b / 256 % 2 = 0 ∧ b % 256 = b ∧ b < 512) ∧
    ((256 + b) / 256 % 2 = 1 ∧ (256 + b) % 256 = b ∧ 256 + b < 512) ∧
    (∀ i, (256 + (p i).val) / 256 % 2 = 1 ∧ (256 + (p i).val) % 256 = (p i).val
      ∧ 256 + (p i).val < 512) := by
  have hbm : b % 256 = b := Nat.mod_eq_of_lt hb
  refine ⟨⟨?_, ?_⟩, ⟨?_, ?_⟩, ⟨?_, write_data_buf_dc_state p len s h3⟩, ?_, ?_, ?_, ?_⟩
  · rw [emitted_of_log (write_cmd_log b s), transport_events_3wire s h3]
    simp [hbm]
  · have h := (sent_write_cmd b s).2.2.2.2.2.1
    rw [if_pos h3] at h
    rw [h]; rfl
  · rw [emitted_of_log (write_data_log b s), transport_events_3wire s h3]
    simp [hbm]
  · have h := (sent_write_data b s).2.2.2.2.2.1
    rw [if_pos h3] at h
    rw [h]; rfl
  · rw [emitted_of_log (write_data_buf_log p len s), transport_events_3wire s h3]
    unfold buf_bytes
    rw [List.map_map]
    congr 2
    apply List.map_congr_left
    intro i _
    show Event.spi_dr s.g.spi (256 * 1 + (p i).val % 256) = _
    rw [Nat.mod_eq_of_lt (p i).isLt]
  · unfold mode_events; rw [if_pos h3]
  · omega
  · omega
  · intro i
    have := (p i).isLt
    omega

theorem three_wire_frames_witness :
    st_ready3.g.config.spi_mode = SSD1681_SPI_3WIRE ∧ 0x24 < 256 ∧
    ((emitted st_ready3 (ssd1681_write_cmd 0x24 st_ready3)
        = mode_events st_ready3 ++ [.gpio_put st_ready3.g.config.pin_cs 0,
            .spi_dr st_ready3.g.spi 0x24, .gpio_put st_ready3.g.config.pin_cs 1] ∧
      (ssd1681_write_cmd 0x24 st_ready3).g.dc_state = 0) ∧
    (emitted st_ready3 (ssd1681_write_data 0x24 st_ready3)
        = mode_events st_ready3 ++ [.gpio_put st_ready3.g.config.pin_cs 0,
            .spi_dr st_ready3.g.spi (256 + 0x24), .gpio_put st_ready3.g.config.pin_cs 1] ∧
      (ssd1681_write_data 0x24 st_ready3).g.dc_state = 1) ∧
    (emitted st_ready3 (ssd1681_write_data_buf all_ff 3 st_ready3)
        = mode_events st_ready3 ++ [.gpio_put st_ready3.g.config.pin_cs 0]
          ++ (List.range (3 % 65536)).map
              (fun i => Event.spi_dr st_ready3.g.spi (256 + (all_ff i).val))
          ++ [.gpio_put st_ready3.g.config.pin_cs 1] ∧
      (ssd1681_write_data_buf all_ff 3 st_ready3).g.dc_state = 1) ∧
    mode_events st_ready3
      = (if st_ready3.hw.baud st_ready3.g.spi ≠ st_ready3.g.config.spi_baudrate
          then [Event.spi_set_baudrate st_ready3.g.spi st_ready3.g.config.spi_baudrate] else [])
        ++ [.spi_9bit_frames st_ready3.g.spi] ∧
    (0x24 / 256 % 2 = 0 ∧ 0x24 % 256 = 0x24 ∧ 0x24 < 512) ∧
    ((256 + 0x24) / 256 % 2 = 1 ∧ (256 + 0x24) % 256 = 0x24 ∧ 256 + 0x24 < 512) ∧
    (∀ i, (256 + (all_ff i).val) / 256 % 2 = 1 ∧ (256 + (all_ff i).val) % 256 = (all_ff i).val
      ∧ 256 + (all_ff i).val < 512)) :=
  ⟨rfl, by decide, three_wire_frames st_ready3 rfl 0x24 (by decide) all_ff 3⟩

/-! ## Claim on the initialisation sequence -/

/-- C25: a successful `ssd1681_init` (driver not initialised, bus rate
reached) sends, after the reset pulse and its wait-for-ready, exactly: command
0x12, a wait-for-ready, command 0x01 with data 0xC7, 0x00, 0x02, command 0x11
with data 0x01, command 0x44 with data 0x00, 0x18, command 0x45 with data 0x00,
0x00, 0xC7, 0x00, command 0x3C with data 0x05, command 0x18 with data 0x80, and
a closing wait-for-ready; no master-activation command (0x20) is among them. -/
theorem init_command_log (cfg : Config) (s : State) (hi : s.g.initialized = false)
    (h0 : s.hw.achieved cfg.spi_baudrate ≠ 0) (hw : wired cfg) (dc : Nat) :
    (ssd1681_init (some cfg) s).1 = 0 ∧
    decode cfg.pin_dc dc (emitted s (ssd1681_init (some cfg) s).2)
      = [.wait, .cmd 0x12, .wait, .cmd 0x01, .data 0xC7, .data 0x00, .data 0x02,
         .cmd 0x11, .data 0x01, .cmd 0x44, .data 0x00, .data 0x18,
         .cmd 0x45, .data 0x00, .data 0x00, .data 0xC7, .data 0x00,
         .cmd 0x3C, .data 0x05, .cmd 0x18, .data 0x80, .wait] ∧
    bytes_of (decode cfg.pin_dc dc (emitted s (ssd1681_init (some cfg) s).2))
      = [.cmd 0x12, .cmd 0x01, .data 0xC7, .data 0x00, .data 0x02,
         .cmd 0x11, .data 0x01, .cmd 0x44, .data 0x00, .data 0x18,
         .cmd 0x45, .data 0x00, .data 0x00, .data 0xC7, .data 0x00,
         .cmd 0x3C, .data 0x05, .cmd 0x18, .data 0x80] ∧
    Xfer.cmd 0x20 ∉ decode cfg.pin_dc dc (emitted s (ssd1681_init (some cfg) s).2) := by
  obtain ⟨h1, -, -, -, -, hl⟩ := init_ok cfg s hi h0
  obtain ⟨evs, hlog, hdec⟩ := hl hw
  have hd : decode cfg.pin_dc dc (emitted s (ssd1681_init (some cfg) s).2) = init_trace := by
    rw [emitted_of_log hlog]
    exact hdec.result dc
  rw [hd]
  exact ⟨h1, rfl, by decide, by decide⟩

theorem init_command_log_witness :
    st_zero.g.initialized = false ∧
    st_zero.hw.achieved ssd1681_get_default_config_3wire.spi_baudrate ≠ 0 ∧
    wired ssd1681_get_default_config_3wire ∧
    ((ssd1681_init (some ssd1681_get_default_config_3wire) st_zero).1 = 0 ∧
    decode ssd1681_get_default_config_3wire.pin_dc 0
        (emitted st_zero (ssd1681_init (some ssd1681_get_default_config_3wire) st_zero).2)
      = [.wait, .cmd 0x12, .wait, .cmd 0x01, .data 0xC7, .data 0x00, .data 0x02,
         .cmd 0x11, .data 0x01, .cmd 0x44, .data 0x00, .data 0x18,
         .cmd 0x45, .data 0x00, .data 0x00, .data 0xC7, .data 0x00,
         .cmd 0x3C, .data 0x05, .cmd 0x18, .data 0x80, .wait] ∧
    bytes_of (decode ssd1681_get_default_config_3wire.pin_dc 0
        (emitted st_zero (ssd1681_init (some ssd1681_get_default_config_3wire) st_zero).2))
      = [.cmd 0x12, .cmd 0x01, .data 0xC7, .data 0x00, .data 0x02,
         .cmd 0x11, .data 0x01, .cmd 0x44, .data 0x00, .data 0x18,
         .cmd 0x45, .data 0x00, .data 0x00, .data 0xC7, .data 0x00,
         .cmd 0x3C, .data 0x05, .cmd 0x18, .data 0x80] ∧
    Xfer.cmd 0x20 ∉ decode ssd1681_get_default_config_3wire.pin_dc 0
        (emitted st_zero (ssd1681_init (some ssd1681_get_default_config_3wire) st_zero).2)) :=
  ⟨rfl, by decide, Or.inl rfl,
    init_command_log ssd1681_get_default_config_3wire st_zero rfl (by decide) (Or.inl rfl) 0⟩

/-! ## Claim on short bus writes -/

theorem update_status (t : Nat) (s : State) (hinit : s.g.initialized = true) :
    (ssd1681_update t s).1 = (if t = 0 ∨ t = 1 ∨ t = 3 then 0 else if t = 2 then -3 else -2) := by
  obtain ⟨h0, h1, h2, h3, h4⟩ := update_sent t s hinit
  have hcases : t = 0 ∨ t = 1 ∨ t = 2 ∨ t = 3 ∨ 4 ≤ t := by omega
  rcases hcases with h | h | h | h | h
  · subst h; simp [(h0 rfl).1]
  · subst h; simp [(h1 rfl).1]
  · subst h; rw [h2 rfl]; simp
  · subst h; simp [(h3 rfl).1]
  · rw [h4 h]
    have a : ¬ (t = 0 ∨ t = 1 ∨ t = 3) := by omega
    have b : ¬ t = 2 := by omega
    rw [if_neg a, if_neg b]

theorem combined_status (t : Nat) (s : State) (hinit : s.g.initialized = true) :
    (ssd1681_write_buffer_and_update_if_ready t s).1
      = (if s.hw.busy_level s.hw.gpio_reads = true then -1 else if t ≤ 3 then 0 else -2) := by
  by_cases hbusy : s.hw.busy_level s.hw.gpio_reads = true
  · have hr : (gpio_get s.g.config.pin_busy s).1 = true := hbusy
    rw [if_pos hbusy]
    unfold ssd1681_write_buffer_and_update_if_ready
    rw [if_neg (by simp [hinit])]
    dsimp only
    rw [if_pos hr]
  · rw [if_neg hbusy]
    obtain ⟨h0, h1, h2, h3, h4⟩ :=
      write_buffer_and_update_sent t s hinit (by simpa using hbusy)
    have hcases : t = 0 ∨ t = 1 ∨ t = 2 ∨ t = 3 ∨ 4 ≤ t := by omega
    rcases hcases with h | h | h | h | h
    · subst h; simp [(h0 rfl).1]
    · subst h; simp [(h1 rfl).1]
    · subst h; simp [(h2 rfl).1]
    · subst h; simp [(h3 rfl).1]
    · rw [h4 h, if_neg (by omega)]

theorem soft_start_status (a b d : Nat) (s : State) (hinit : s.g.initialized = true) :
    (ssd1681_set_soft_start a b d s).1 = 0 := by
  unfold ssd1681_set_soft_start
  rw [if_neg (by simp [hinit])]

/-- C21, as the code has it: on a 4-wire bus that reports 0 bytes for every
write, `ssd1681_set_soft_start` issues its five `spi_write_blocking` calls and
returns 0, and so do `ssd1681_update`, `ssd1681_write_buffer` and the combined
call. -/
theorem short_bus_write_goes_unreported :
    st_short.g.initialized = true ∧ st_short.g.config.spi_mode = SSD1681_SPI_4WIRE ∧
    (∀ k, st_short.hw.written k = 0) ∧
    (ssd1681_set_soft_start 0 0 0 st_short).2.hw.spi_writes = 5 ∧
    Event.spi_write_blocking .spi0 0x0C ∈ emitted st_short (ssd1681_set_soft_start 0 0 0 st_short).2 ∧
    (ssd1681_set_soft_start 0 0 0 st_short).1 = 0 ∧
    (ssd1681_update SSD1681_UPDATE_CLEAN_FULL st_short).1 = 0 ∧
    (ssd1681_write_buffer SSD1681_COLOR_BLACK st_short).1 = 0 ∧
    (ssd1681_write_buffer_and_update_if_ready SSD1681_UPDATE_CLEAN_FULL st_short).1 = 0 := by
  refine ⟨rfl, rfl, fun _ => rfl, by decide, by decide, soft_start_status 0 0 0 _ rfl, ?_,
    (write_buffer_sent _ _ rfl).1, ?_⟩
  · rw [update_status _ _ rfl]; rfl
  · rw [combined_status _ _ rfl]; rfl

/-- C21, amended: the count `spi_write_blocking` returns is checked by the
interface call `ssd1681_interface_spi_write_cmd`, which returns 1 when it
differs from the requested length and 0 otherwise, but not by the driver: on an
initialised driver, whatever counts `w` the bus reports, `ssd1681_write_buffer`
and `ssd1681_set_soft_start` return 0, and `ssd1681_update` and
`ssd1681_write_buffer_and_update_if_ready` return the status their update type
and the busy pin decide. -/
theorem bus_write_count_checked_by_interface_only (s : State)
    (hinit : s.g.initialized = true) (w : Nat → Nat) (c t a b d : Nat) (buf : Nat → Byte)
    (len : Nat) (hlen : 0 < len ∧ len < 65536) :
    (ssd1681_interface_spi_write_cmd (some buf) len (with_written w s)).1
      = (if w s.hw.spi_writes = len then 0 else 1) ∧
    (ssd1681_write_buffer c (with_written w s)).1 = 0 ∧
    (ssd1681_set_soft_start a b d (with_written w s)).1 = 0 ∧
    (ssd1681_update t (with_written w s)).1
      = (if t = 0 ∨ t = 1 ∨ t = 3 then 0 else if t = 2 then -3 else -2) ∧
    (ssd1681_write_buffer_and_update_if_ready t (with_written w s)).1
      = (if s.hw.busy_level s.hw.gpio_reads = true then -1 else if t ≤ 3 then 0 else -2) := by
  have hinit' : (with_written w s).g.initialized = true := hinit
  refine ⟨?_, (write_buffer_sent c _ hinit').1, soft_start_status a b d _ hinit',
    update_status t _ hinit', combined_status t _ hinit'⟩
  have hm : len % 65536 = len := Nat.mod_eq_of_lt hlen.2
  unfold ssd1681_interface_spi_write_cmd
  dsimp only
  rw [hm, if_neg (by omega)]
  have hr : (spi_write_blocking_buf SSD1681_SPI_PORT buf len
      (gpio_put SSD1681_PIN_CS 0 (with_written w s))).1 = w s.hw.spi_writes := rfl
  rw [hr]
  by_cases hw : w s.hw.spi_writes = len
  · rw [if_neg (by simpa using hw), if_pos hw]
  · rw [if_pos hw, if_neg hw]

theorem bus_write_count_checked_by_interface_only_witness :
    st_ready.g.initialized = true ∧ (0 < 2 ∧ 2 < 65536) ∧
    ((ssd1681_interface_spi_write_cmd (some all_ff) 2 (with_written (fun _ => 1) st_ready)).1
      = (if (fun _ => 1 : Nat → Nat) st_ready.hw.spi_writes = 2 then 0 else 1) ∧
    (ssd1681_write_buffer 0 (with_written (fun _ => 1) st_ready)).1 = 0 ∧
    (ssd1681_set_soft_start 0 3 7 (with_written (fun _ => 1) st_ready)).1 = 0 ∧
    (ssd1681_update 1 (with_written (fun _ => 1) st_ready)).1
      = (if 1 = 0 ∨ 1 = 1 ∨ 1 = 3 then 0 else if 1 = 2 then -3 else -2) ∧
    (ssd1681_write_buffer_and_update_if_ready 1 (with_written (fun _ => 1) st_ready)).1
      = (if st_ready.hw.busy_level st_ready.hw.gpio_reads = true then -1
          else if 1 ≤ 3 then 0 else -2)) :=
  ⟨rfl, by decide,
    bus_write_count_checked_by_interface_only st_ready rfl (fun _ => 1) 0 1 0 3 7 all_ff 2
      (by decide)⟩

/-! ## One glyph -/

theorem scale_index_le (i fs : Nat) (hi : i < fs) : i * FONT_BASIC_SIZE / fs ≤ 7 := by
  have h : i * FONT_BASIC_SIZE / fs < 8 := by
    rw [Nat.div_lt_iff_lt_mul (by omega)]
    unfold FONT_BASIC_SIZE
    omega
  omega

theorem glyph_writes_on_display (x y fs : Nat) (bm : Nat → Byte) (hx : x + fs ≤ 200)
    (hy : y + fs ≤ 200) : on_display (glyph_writes x y fs bm) := by
  intro w hw
  obtain ⟨col, row, hc, hr, rfl⟩ := (mem_glyph_writes x y fs bm w).mp hw
  constructor
  · show (x + col) % 256 < 200
    omega
  · show (y + row) % 256 < 200
    omega

theorem glyph_bit_value (b : Byte) (k : Nat) :
    decide ((b.val &&& (1 <<< k)) % 256 = 0) = !b.val.testBit k := by
  have hle : b.val &&& (1 <<< k) ≤ b.val := Nat.and_le_left
  have hlt : b.val &&& (1 <<< k) < 256 := lt_of_le_of_lt hle b.isLt
  rw [Nat.mod_eq_of_lt hlt]
  have h := and_one_shiftLeft_ne_zero b.val k
  cases hb : b.val.testBit k
  · have : b.val &&& (1 <<< k) = 0 := by
      by_contra hne
      have := h.mp hne
      rw [hb] at this
      exact Bool.noConfusion this
    simp [this]
  · have : b.val &&& (1 <<< k) ≠ 0 := h.mpr hb
    simp [this]

theorem glyph_writes_value (x y fs : Nat) (bm : Nat → Byte) (hx : x + fs ≤ 200)
    (hy : y + fs ≤ 200) :
    ∀ w ∈ glyph_writes x y fs bm,
      decide (w.2.2 = 0)
        = (fun a b => !(bm ((b - y) * FONT_BASIC_SIZE / fs)).val.testBit
            ((a - x) * FONT_BASIC_SIZE / fs)) w.1 w.2.1 := by
  intro w hw
  obtain ⟨col, row, hc, hr, rfl⟩ := (mem_glyph_writes x y fs bm w).mp hw
  have e1 : (x + col) % 256 - x = col := by omega
  have e2 : (y + row) % 256 - y = row := by omega
  simp only [e1, e2]
  exact glyph_bit_value _ _

/-- Drawing a one-character string: the glyph's writes, nothing else. -/
theorem draw_one_char_eq (font : Nat → Nat → Byte) (c x y : Nat) (str : Nat → Byte)
    (data fs : Nat) (s : State) (hinit : s.g.initialized = true) (hch : (str 0).val ≤ 127) :
    ssd1681_draw_string font c x y (some str) 1 data fs s
      = (0, write_all c (glyph_writes x y fs (font (str 0).val)) s) := by
  unfold ssd1681_draw_string
  rw [if_neg (by simp [hinit])]
  dsimp only
  rw [draw_string_loop_eq_chars font c fs str 1 1 0 x y s rfl]
  have e : (List.range' 0 (1 - 0)).map str = [str 0] := rfl
  rw [e, draw_chars, if_neg (by omega)]
  dsimp only
  rw [draw_string_rows_eq_glyph]
  split
  · split
    · rfl
    · rfl
  · rfl

/-! ## Claim on glyph scaling -/

/-- C23: on an initialised driver, `ssd1681_draw_string` with a string of one
character of code `ch ≤ 127`, at `(x, y)` with font size `fs`, `x + fs ≤ 200` and
`y + fs ≤ 200`, returns 0; for `row, col < fs` the pixel `(x + col, y + row)`
of plane `c` ends on (stored bit 0) exactly when bit `col * 8 / fs` of byte
`row * 8 / fs` of the glyph `font[ch]` is set, both indices being at most 7;
every other bit of the plane and the whole other plane are unchanged. -/
theorem draw_string_scales_glyph (font : Nat → Nat → Byte) (c x y : Nat) (str : Nat → Byte)
    (data fs : Nat) (s : State) (hinit : s.g.initialized = true) (hch : (str 0).val ≤ 127)
    (hx : x + fs ≤ 200) (hy : y + fs ≤ 200) :
    (ssd1681_draw_string font c x y (some str) 1 data fs s).1 = 0 ∧
    (∀ row col, row < fs → col < fs →
      (gram c (ssd1681_draw_string font c x y (some str) 1 data fs s).2.g
        ((199 - (y + row)) * 25 + (x + col) / 8)).val.testBit (7 - (x + col) % 8)
        = !(font (str 0).val (row * 8 / fs)).val.testBit (col * 8 / fs)) ∧
    (∀ row col, row < fs → col < fs → row * 8 / fs ≤ 7 ∧ col * 8 / fs ≤ 7) ∧
    (∀ i j, (∀ row col, row < fs → col < fs →
        ¬ ((199 - (y + row)) * 25 + (x + col) / 8 = i ∧ 7 - (x + col) % 8 = j)) →
      (gram c (ssd1681_draw_string font c x y (some str) 1 data fs s).2.g i).val.testBit j
        = (gram c s.g i).val.testBit j) ∧
    other_gram c (ssd1681_draw_string font c x y (some str) 1 data fs s).2.g
      = other_gram c s.g := by
  have hd := glyph_writes_on_display x y fs (font (str 0).val) hx hy
  have hval := glyph_writes_value x y fs (font (str 0).val) hx hy
  rw [draw_one_char_eq font c x y str data fs s hinit hch, write_all_eq c _ s hinit hd]
  refine ⟨rfl, ?_, ?_, ?_, ?_⟩
  · intro row col hr hc
    have hmem : ((x + col) % 256, (y + row) % 256,
        ((font (str 0).val ((row * FONT_BASIC_SIZE) / fs)).val
          &&& (1 <<< (col * FONT_BASIC_SIZE / fs))) % 256)
        ∈ glyph_writes x y fs (font (str 0).val) :=
      (mem_glyph_writes _ _ _ _ _).mpr ⟨col, row, hc, hr, rfl⟩
    have := plane_all_effect
      (fun a b => !(font (str 0).val ((b - y) * FONT_BASIC_SIZE / fs)).val.testBit
        ((a - x) * FONT_BASIC_SIZE / fs)) _ (gram c s.g) hd hval _ hmem
    have e1 : (x + col) % 256 = x + col := by omega
    have e2 : (y + row) % 256 = y + row := by omega
    simp only [e1, e2, write_byte_index_eq (x + col) (y + row) (by omega) (by omega),
      bit_index_eq, Nat.add_sub_cancel_left] at this
    simpa [FONT_BASIC_SIZE] using this
  · intro row col hr hc
    exact ⟨scale_index_le row fs hr, scale_index_le col fs hc⟩
  · intro i j hno
    simp only [with_plane_g, gram_set_gram]
    apply plane_all_frame
    intro w hw hh
    obtain ⟨col, row, hc, hr, rfl⟩ := (mem_glyph_writes _ _ _ _ w).mp hw
    have e1 : (x + col) % 256 = x + col := by omega
    have e2 : (y + row) % 256 = y + row := by omega
    simp only [e1, e2, write_byte_index_eq (x + col) (y + row) (by omega) (by omega),
      bit_index_eq] at hh
    exact hno row col hr hc hh
  · simp

theorem draw_string_scales_glyph_witness :
    st_ready.g.initialized = true ∧ (str_A 0).val ≤ 127 ∧ 30 + 12 ≤ 200 ∧ 188 + 12 ≤ 200 ∧
    ((ssd1681_draw_string font_solid 1 30 188 (some str_A) 1 1 12 st_ready).1 = 0 ∧
    (∀ row col, row < 12 → col < 12 →
      (gram 1 (ssd1681_draw_string font_solid 1 30 188 (some str_A) 1 1 12 st_ready).2.g
        ((199 - (188 + row)) * 25 + (30 + col) / 8)).val.testBit (7 - (30 + col) % 8)
        = !(font_solid (str_A 0).val (row * 8 / 12)).val.testBit (col * 8 / 12)) ∧
    (∀ row col, row < 12 → col < 12 → row * 8 / 12 ≤ 7 ∧ col * 8 / 12 ≤ 7) ∧
    (∀ i j, (∀ row col, row < 12 → col < 12 →
        ¬ ((199 - (188 + row)) * 25 + (30 + col) / 8 = i ∧ 7 - (30 + col) % 8 = j)) →
      (gram 1 (ssd1681_draw_string font_solid 1 30 188 (some str_A) 1 1 12 st_ready).2.g i).val.testBit j
        = (gram 1 st_ready.g i).val.testBit j) ∧
    other_gram 1 (ssd1681_draw_string font_solid 1 30 188 (some str_A) 1 1 12 st_ready).2.g
      = other_gram 1 st_ready.g) :=
  ⟨rfl, by decide, by decide, by decide,
    draw_string_scales_glyph font_solid 1 30 188 str_A 1 12 st_ready rfl (by decide) (by decide)
      (by decide)⟩

/-! ## The cursor of the text renderer -/

theorem draw_chars_eq_layout (font : Nat → Nat → Byte) (c fs : Nat) (cs : List Byte)
    (x y : Nat) (s : State) (hx : x + fs ≤ 200) (hy : y + fs ≤ 200) :
    draw_chars font c fs cs x y s = draw_glyphs font c fs (glyph_layout fs cs x y) s := by
  induction cs generalizing x y s with
  | nil => rfl
  | cons ch cs ih =>
    rw [draw_chars, glyph_layout]
    by_cases h : ch.val > 127
    · rw [if_pos h, if_pos h]
      exact ih x y s hx hy
    · rw [if_neg h, if_neg h]
      dsimp only
      have ex : (x + fs) % 256 = x + fs := by omega
      have ey : (y + fs) % 256 = y + fs := by omega
      rw [ex, ey]
      unfold next_cursor DISPLAY_WIDTH DISPLAY_HEIGHT
      by_cases h1 : x + 2 * fs ≤ 200
      · rw [if_neg (by omega), if_pos h1]
        show _ = draw_glyphs font c fs (glyph_layout fs cs (x + fs) y) _
        exact ih (x + fs) y _ (by omega) hy
      · rw [if_pos (by omega), if_neg h1]
        by_cases h2 : y + 2 * fs ≤ 200
        · rw [if_neg (by omega), if_pos h2]
          show _ = draw_glyphs font c fs (glyph_layout fs cs 0 (y + fs)) _
          exact ih 0 (y + fs) _ (by omega) (by omega)
        · rw [if_pos (by omega), if_neg h2]
          rfl

theorem glyph_layout_fits (fs : Nat) (cs : List Byte) (x y : Nat) (hx : x + fs ≤ 200)
    (hy : y + fs ≤ 200) :
    ∀ g ∈ glyph_layout fs cs x y, g.2.1 + fs ≤ 200 ∧ g.2.2 + fs ≤ 200 := by
  induction cs generalizing x y with
  | nil => intro g hg; simp [glyph_layout] at hg
  | cons ch cs ih =>
    intro g hg
    rw [glyph_layout] at hg
    by_cases h : ch.val > 127
    · rw [if_pos h] at hg
      exact ih x y hx hy g hg
    · rw [if_neg h] at hg
      rcases List.mem_cons.mp hg with rfl | hg
      · exact ⟨hx, hy⟩
      · unfold next_cursor at hg
        by_cases h1 : x + 2 * fs ≤ 200
        · rw [if_pos h1] at hg
          exact ih (x + fs) y (by omega) hy g hg
        · rw [if_neg h1] at hg
          by_cases h2 : y + 2 * fs ≤ 200
          · rw [if_pos h2] at hg
            exact ih 0 (y + fs) (by omega) (by omega) g hg
          · rw [if_neg h2] at hg
            simp at hg

/-! ## Claim on the text cursor -/

/-- C24: on an initialised driver, for a start position with `x0 + fs ≤ 200`
and `y0 + fs ≤ 200`, `ssd1681_draw_string` returns 0 and draws exactly the
glyphs the cursor rule places: after a drawn glyph at `(x, y)` the next one goes
to `(x + fs, y)` if `x + 2 fs ≤ 200`, otherwise to `(0, y + fs)` if
`y + 2 fs ≤ 200`, and otherwise the remaining characters are not drawn; every
glyph is drawn at a position with `x + fs ≤ 200` and `y + fs ≤ 200`. -/
theorem draw_string_cursor_rule (font : Nat → Nat → Byte) (c x0 y0 : Nat) (str : Nat → Byte)
    (len data fs : Nat) (s : State) (hinit : s.g.initialized = true)
    (hx : x0 + fs ≤ 200) (hy : y0 + fs ≤ 200) :
    ssd1681_draw_string font c x0 y0 (some str) len data fs s
      = (0, draw_glyphs font c fs (glyph_layout fs (chars_of str len) x0 y0) s) ∧
    (∀ g ∈ glyph_layout fs (chars_of str len) x0 y0, g.2.1 + fs ≤ 200 ∧ g.2.2 + fs ≤ 200) ∧
    (∀ x y, next_cursor fs x y
      = if x + 2 * fs ≤ 200 then some (x + fs, y)
        else if y + 2 * fs ≤ 200 then some (0, y + fs) else none) ∧
    (∀ (ch : Byte) (cs : List Byte) x y, ch.val ≤ 127 →
      glyph_layout fs (ch :: cs) x y
        = (ch.val, x, y) :: (match next_cursor fs x y with
            | some p => glyph_layout fs cs p.1 p.2
            | none => [])) := by
  refine ⟨?_, glyph_layout_fits fs _ x0 y0 hx hy, fun _ _ => rfl, ?_⟩
  · unfold ssd1681_draw_string
    rw [if_neg (by simp [hinit])]
    dsimp only
    rw [draw_string_loop_eq_chars font c fs str len len 0 x0 y0 s rfl,
      draw_chars_eq_layout font c fs _ x0 y0 s hx hy]
    unfold chars_of
    rw [List.range_eq_range', Nat.sub_zero]
  · intro ch cs x y hch
    rw [glyph_layout, if_neg (by omega)]

theorem draw_string_cursor_rule_witness :
    st_ready.g.initialized = true ∧ 100 + 100 ≤ 200 ∧ 0 + 100 ≤ 200 ∧
    (ssd1681_draw_string font_solid 0 100 0 (some str_A) 4 1 100 st_ready
      = (0, draw_glyphs font_solid 0 100 (glyph_layout 100 (chars_of str_A 4) 100 0) st_ready) ∧
    (∀ g ∈ glyph_layout 100 (chars_of str_A 4) 100 0, g.2.1 + 100 ≤ 200 ∧ g.2.2 + 100 ≤ 200) ∧
    (∀ x y, next_cursor 100 x y
      = if x + 2 * 100 ≤ 200 then some (x + 100, y)
        else if y + 2 * 100 ≤ 200 then some (0, y + 100) else none) ∧
    (∀ (ch : Byte) (cs : List Byte) x y, ch.val ≤ 127 →
      glyph_layout 100 (ch :: cs) x y
        = (ch.val, x, y) :: (match next_cursor 100 x y with
            | some p => glyph_layout 100 cs p.1 p.2
            | none => []))) ∧
    glyph_layout 100 (chars_of str_A 4) 100 0 = [(65, 100, 0), (65, 0, 100), (65, 100, 100)] :=
  ⟨rfl, by decide, by decide,
    draw_string_cursor_rule font_solid 0 100 0 str_A 4 1 100 st_ready rfl (by decide) (by decide),
    by decide⟩

/-! ## Chip-select: the pin along a log -/

theorem Moves.relax {cs : Nat} {A B A' B' : Pin → Prop} {a : List Event}
    (h : Moves cs A B a) (hA : ∀ p, A' p → A p) (hB : ∀ p, B p → B' p) : Moves cs A' B' a := by
  intro p hp
  obtain ⟨q, hq, hb⟩ := h p (hA p hp)
  exact ⟨q, hq, hB q hb⟩

theorem Runs.loosen {A B A' B' : Pin → Prop} {s t : State} (h : Runs A B s t)
    (hA : ∀ p, A' p → A p) (hB : ∀ p, B p → B' p) : Runs A' B' s t := by
  obtain ⟨a, ea, ha⟩ := h
  exact ⟨a, ea, fun ho => (ha ho).relax hA hB⟩

theorem Runs.to_any {A B : Pin → Prop} {s t : State} (h : Runs A B s t) : Runs A any_pin s t :=
  h.loosen (fun _ hp => hp) (fun _ _ => trivial)

theorem Runs.initialized {A B : Pin → Prop} {s t : State} (h : Runs A B s t) :
    t.g.initialized = s.g.initialized := by
  obtain ⟨_, e, _⟩ := h
  exact e.2.1

theorem Runs.config {A B : Pin → Prop} {s t : State} (h : Runs A B s t) :
    t.g.config = s.g.config := by
  obtain ⟨_, e, _⟩ := h
  exact e.1

end Ssd1681
